import Mathlib

/-!
# Realtek BT MP tool: command codec, parameter store and dispatcher

A shallow embedding of `hal/mp/src/bt_mp_api.c` and
`jni/bluedroid/btif/src/bt_mp_module_base.c`.

* C strings are `List Char` (the characters before the terminating NUL).
* `int` values are `Int`; unsigned fields are `Nat` reduced modulo `2 ^ width`.
* Arrays of the parameter block are maps `Nat → Nat` from offset to byte: an
  offset at or above the declared capacity stands for the memory behind the
  array.
* Constants and types that live in headers outside the translated sources are
  collected in the structure `Header`.
-/

namespace BtMp

/-! ## C library: character classes, `strtok`, `strtol`, `sprintf` conversions -/

/-- C string: the characters in front of the terminating NUL. -/
abbrev CStr := List Char

/-- `isspace` of the C locale: blank, `\t`, `\n`, `\v`, `\f`, `\r`. -/
def isspace (c : Char) : Bool :=
  c.toNat = 32 || (9 ≤ c.toNat && c.toNat ≤ 13)

/-- Value of a character as a digit in bases up to 36, as `strtol` reads it. -/
def digitVal (c : Char) : Option Nat :=
  if 48 ≤ c.toNat ∧ c.toNat ≤ 57 then some (c.toNat - 48)
  else if 97 ≤ c.toNat ∧ c.toNat ≤ 122 then some (c.toNat - 87)
  else if 65 ≤ c.toNat ∧ c.toNat ≤ 90 then some (c.toNat - 55)
  else none

/-- One call of `strtok_r(s, delim, &save)`: skip leading delimiters, cut the
token at the next delimiter, and leave `save` behind that delimiter. -/
def strtok_r (delim : CStr) (s : CStr) : Option (CStr × CStr) :=
  match s.dropWhile (fun c ↦ delim.contains c) with
  | [] => none
  | c :: cs =>
    some ((c :: cs).takeWhile (fun c ↦ !delim.contains c),
          ((c :: cs).dropWhile (fun c ↦ !delim.contains c)).drop 1)

/-- Worker of `tokens`: `cur` is the token being read, in reverse. -/
def tokensAux (delim : CStr) : CStr → CStr → List CStr
  | [], cur => if cur.isEmpty then [] else [cur.reverse]
  | c :: cs, cur =>
    if delim.contains c then
      (if cur.isEmpty then tokensAux delim cs [] else cur.reverse :: tokensAux delim cs [])
    else tokensAux delim cs (c :: cur)

/-- The tokens that successive calls `strtok(s, delim)`, `strtok(NULL, delim)`, ...
return until the first `NULL`. -/
def tokens (delim : CStr) (s : CStr) : List CStr := tokensAux delim s []

/-- Digits of `s` in base `b`, accumulated on `acc`; stops at the first character
that is not a digit of the base. Returns the value and the unread rest. -/
def scanDigits (b : Nat) : CStr → Nat → Nat × CStr
  | [], acc => (acc, [])
  | c :: cs, acc =>
    match digitVal c with
    | some d => if d < b then scanDigits b cs (acc * b + d) else (acc, c :: cs)
    | none => (acc, c :: cs)

/-- Result of scanning an integer literal: sign, magnitude, unread rest
(`endptr`), and whether any conversion was performed. -/
structure Scan where
  neg : Bool
  mag : Nat
  rest : CStr
  conv : Bool
deriving DecidableEq, Repr

/-- True when `s` starts with `0x` or `0X` followed by a hexadecimal digit. -/
def startsHex (s : CStr) : Bool :=
  match s with
  | z :: x :: d :: _ =>
    z.toNat = 48 && (x.toNat = 120 || x.toNat = 88) &&
      (match digitVal d with | some v => decide (v < 16) | none => false)
  | _ => false

/-- Common front end of `strtol`, `strtoll`, `strtoull`: white space, optional sign,
base detection (`base = 0`: `0x` hexadecimal, leading `0` octal, else decimal;
`base = 16`: optional `0x`), then the digits. -/
def scanInt (base : Nat) (s : CStr) : Scan :=
  let s1 := s.dropWhile isspace
  let neg : Bool := match s1 with
    | c :: _ => c.toNat = 45
    | [] => false
  let s2 : CStr := match s1 with
    | c :: r => if c.toNat = 45 || c.toNat = 43 then r else s1
    | [] => s1
  let hex : Bool := (base = 0 || base = 16) && startsHex s2
  let b : Nat :=
    if hex then 16
    else if base = 0 then (match s2 with | c :: _ => if c.toNat = 48 then 8 else 10 | [] => 10)
    else base
  let s3 : CStr := if hex then s2.drop 2 else s2
  let r := scanDigits b s3 0
  if r.2.length = s3.length then { neg := false, mag := 0, rest := s, conv := false }
  else { neg := neg, mag := r.1, rest := r.2, conv := true }

/-- Signed result of a scan clamped to a two's complement range of `bits` bits
(`strtol` returns `LONG_MAX` or `LONG_MIN` on overflow). -/
def clampSigned (bits : Nat) (sc : Scan) : Int :=
  if sc.neg then
    (if sc.mag ≤ 2 ^ (bits - 1) then - (sc.mag : Int) else - (2 ^ (bits - 1) : Int))
  else
    (if sc.mag < 2 ^ (bits - 1) then (sc.mag : Int) else (2 ^ (bits - 1) : Int) - 1)

/-- Model of `strtoll(s, NULL, base)`: `long long` has 64 bits. -/
def strtoll (s : CStr) (base : Nat) : Int := clampSigned 64 (scanInt base s)

/-- Model of `strtoull(s, NULL, base)`: a negative literal is negated in 64-bit
unsigned arithmetic, overflow gives `ULLONG_MAX`. -/
def strtoull (s : CStr) (base : Nat) : Nat :=
  let sc := scanInt base s
  if 2 ^ 64 ≤ sc.mag then 2 ^ 64 - 1
  else if sc.neg then (2 ^ 64 - sc.mag) % 2 ^ 64 else sc.mag

/-- Conversion of an integer to an unsigned type of `bits` bits. -/
def toUnsigned (bits : Nat) (z : Int) : Nat := (z % (2 ^ bits : Int)).toNat

/-- Conversion of an integer to `int` (32-bit two's complement). -/
def toInt32 (z : Int) : Int :=
  let u := z % (2 ^ 32 : Int)
  if u < 2 ^ 31 then u else u - 2 ^ 32

/-- Characters of the `%x` conversion of an unsigned value (lower case, no padding). -/
def fmt_x (n : Nat) : CStr := Nat.toDigits 16 n

/-- Characters of the `%0Wx` conversion: `%x` padded with zeros on the left to at
least `w` characters. -/
def fmt_0x (w : Nat) (n : Nat) : CStr :=
  List.replicate (w - (fmt_x n).length) (Char.ofNat 48) ++ fmt_x n

/-- The `%x` conversion applied to an `int` argument: the 32-bit pattern in hex. -/
def fmt_x_int (z : Int) : CStr := fmt_x (toUnsigned 32 z)

/-- The `%d` conversion of an `int`. -/
def fmt_d (z : Int) : CStr :=
  if z < 0 then Char.ofNat 45 :: Nat.toDigits 10 z.natAbs else Nat.toDigits 10 z.natAbs

/-! ## Declarations of the headers -/

/-- Constants that the translated sources use and that are declared in headers
outside them (`bluetoothmp.h`, `bt_mp_base.h`, ...), together with the width of
`long` on the target. -/
structure Header where
  STR_BT_MP_GET_PARAM : CStr
  STR_BT_MP_SET_PARAM : CStr
  STR_BT_MP_SET_PARAM1 : CStr
  STR_BT_MP_SET_PARAM2 : CStr
  STR_BT_MP_REPORT_RX : CStr
  STR_BT_MP_PKTRXSTART : CStr
  STR_BT_MP_REG_RW : CStr
  STR_BT_MP_HCI_CMD : CStr
  STR_BT_MP_EXEC : CStr
  STR_BT_MP_PARAM_DELIM : CStr
  STR_BT_MP_PAIR_DELIM : CStr
  STR_BT_MP_RESULT_DELIM : CStr
  BT_FUNCTION_SUCCESS : Int
  FUNCTION_ERROR : Int
  FUNCTION_PARAMETER_ERROR : Int
  MAX_TXGAIN_TABLE_SIZE : Nat
  MAX_TXDAC_TABLE_SIZE : Nat
  MAX_PG_RAW_DATA : Nat
  BB_REG : Nat
  BT_PKT_3DH5 : Nat
  BT_PAYLOAD_TYPE_PRBS9 : Nat
  LONG_BITS : Nat

/-- Model of `strtol(s, NULL, 0)` and of its `endptr`: the value clamped to the
range of `long`, and the unread rest. -/
def strtol (H : Header) (s : CStr) : Int × CStr :=
  (clampSigned H.LONG_BITS (scanInt 0 s), (scanInt 0 s).rest)

/-! ## Parameter block (`BT_PARAMETER`) -/

/-- The parameter block `*pBtModule->pBtParam`. Scalar fields hold the unsigned
value of their C type (`uint8_t`, `uint16_t`, `uint32_t`, `uint64_t`; the enum
typed `mPacketType`, `mPayloadType`, `mTestMode` have the width of `int`). The
three arrays map an offset to the byte stored there. -/
structure BT_PARAMETER where
  ParameterIndex : Int
  mPGRawData : Nat → Nat
  mChannelNumber : Nat
  mPacketType : Nat
  mPayloadType : Nat
  mTxPacketCount : Nat
  mTxGainValue : Nat
  mWhiteningCoeffValue : Nat
  mTxGainIndex : Nat
  mTxDAC : Nat
  mPacketHeader : Nat
  mHoppingFixChannel : Nat
  mHitTarget : Nat
  TXGainTable : Nat → Nat
  TXDACTable : Nat → Nat
  Rtl8761Xtal : Nat
  mTestMode : Nat
  mWhiteningCoeffEnable : Nat
  mMutiRxEnable : Nat

/-- Number of parameter indices, `BT_PARAM_IDX_NUM`. -/
def BT_PARAM_IDX_NUM : Int := 15

/-- Source `bt_index2param`: store `value`, converted to the type of the slot, in
the slot selected by `index`; array slots receive it in element 0. -/
def bt_index2param (st : BT_PARAMETER) (index : Int) (value : Int) : BT_PARAMETER :=
  if index = 0 then { st with mPGRawData := Function.update st.mPGRawData 0 (toUnsigned 8 value) }
  else if index = 1 then { st with mChannelNumber := toUnsigned 8 value }
  else if index = 2 then { st with mPacketType := toUnsigned 32 value }
  else if index = 3 then { st with mPayloadType := toUnsigned 32 value }
  else if index = 4 then { st with mTxPacketCount := toUnsigned 16 value }
  else if index = 5 then { st with mTxGainValue := toUnsigned 8 value }
  else if index = 6 then { st with mWhiteningCoeffValue := toUnsigned 8 value }
  else if index = 7 then { st with mTxGainIndex := toUnsigned 8 value }
  else if index = 8 then { st with mTxDAC := toUnsigned 8 value }
  else if index = 9 then { st with mPacketHeader := toUnsigned 16 value }
  else if index = 10 then { st with mHoppingFixChannel := toUnsigned 8 value }
  else if index = 11 then { st with mHitTarget := toUnsigned 64 value }
  else if index = 12 then { st with TXGainTable := Function.update st.TXGainTable 0 (toUnsigned 8 value) }
  else if index = 13 then { st with TXDACTable := Function.update st.TXDACTable 0 (toUnsigned 8 value) }
  else if index = 14 then { st with Rtl8761Xtal := toUnsigned 32 value }
  else st

/-- The text `<delim>0x%02x` for each of the bytes `a 0 .. a (n-1)`, shifted by `off`. -/
def printBytes (H : Header) (a : Nat → Nat) (off : Nat) : Nat → CStr
  | 0 => []
  | n + 1 =>
    printBytes H a off n ++
      (H.STR_BT_MP_RESULT_DELIM ++ [Char.ofNat 48, Char.ofNat 120] ++ fmt_0x 2 (a (off + n)))

/-- The common head `"%s%s%d%s0x"` of every format in `bt_index2print`. -/
def printHead (H : Header) (index : Int) : CStr :=
  H.STR_BT_MP_GET_PARAM ++ H.STR_BT_MP_RESULT_DELIM ++ fmt_d index ++
    H.STR_BT_MP_RESULT_DELIM ++ [Char.ofNat 48, Char.ofNat 120]

/-- Source `bt_index2print`: the text written to `buf_cb` for slot `index`
(`none` stands for the `default:` case, which writes nothing). -/
def bt_index2print (H : Header) (st : BT_PARAMETER) (index : Int) : Option CStr :=
  if index = 0 then
    some (printHead H index ++ fmt_0x 2 (st.mPGRawData 0) ++
      (H.STR_BT_MP_RESULT_DELIM ++ [Char.ofNat 48, Char.ofNat 120] ++ fmt_0x 2 (st.mPGRawData 1)) ++
      printBytes H st.mPGRawData 2 (st.mPGRawData 1 % 256))
  else if index = 1 then some (printHead H index ++ fmt_0x 2 st.mChannelNumber)
  else if index = 2 then some (printHead H index ++ fmt_0x 2 st.mPacketType)
  else if index = 3 then some (printHead H index ++ fmt_0x 2 st.mPayloadType)
  else if index = 4 then some (printHead H index ++ fmt_0x 4 st.mTxPacketCount)
  else if index = 5 then some (printHead H index ++ fmt_0x 2 st.mTxGainValue)
  else if index = 6 then some (printHead H index ++ fmt_0x 2 st.mWhiteningCoeffValue)
  else if index = 7 then some (printHead H index ++ fmt_0x 2 st.mTxGainIndex)
  else if index = 8 then some (printHead H index ++ fmt_0x 2 st.mTxDAC)
  else if index = 9 then some (printHead H index ++ fmt_0x 4 st.mPacketHeader)
  else if index = 10 then some (printHead H index ++ fmt_0x 2 st.mHoppingFixChannel)
  else if index = 11 then some (printHead H index ++ fmt_0x 12 st.mHitTarget)
  else if index = 12 then
    some (printHead H index ++ fmt_0x 2 (st.TXGainTable 0) ++ printBytes H st.TXGainTable 1 6)
  else if index = 13 then
    some (printHead H index ++ fmt_0x 2 (st.TXDACTable 0) ++ printBytes H st.TXDACTable 1 4)
  else if index = 14 then some (printHead H index ++ fmt_0x 8 st.Rtl8761Xtal)
  else none

/-- What a command entry point leaves behind: the returned code, the text in
`pNotifyBuffer` and the parameter block. -/
structure ApiResult where
  rtn : Int
  notify : CStr
  param : BT_PARAMETER

/-- The response `"%s%s%x"` of a command name and a result code. -/
def codeResponse (H : Header) (name : CStr) (code : Int) : CStr :=
  name ++ H.STR_BT_MP_RESULT_DELIM ++ fmt_x_int code

/-- Source `BT_GetParam`. `buf` is the prior content of `pNotifyBuffer`. -/
def BT_GetParam (H : Header) (st : BT_PARAMETER) (p : CStr) (buf : CStr) : ApiResult :=
  match tokens H.STR_BT_MP_PARAM_DELIM p with
  | token :: _ =>
    let index := toInt32 (strtol H token).1
    if (strtol H token).2 ≠ [] ∨ index < 0 ∨ index ≥ BT_PARAM_IDX_NUM then
      { rtn := H.FUNCTION_PARAMETER_ERROR
        notify := H.STR_BT_MP_GET_PARAM ++ H.STR_BT_MP_RESULT_DELIM ++ fmt_d BT_PARAM_IDX_NUM ++
          H.STR_BT_MP_RESULT_DELIM ++ [Char.ofNat 48, Char.ofNat 120] ++
          fmt_0x 2 (toUnsigned 32 H.FUNCTION_PARAMETER_ERROR)
        param := st }
    else
      { rtn := H.BT_FUNCTION_SUCCESS
        notify := (bt_index2print H st index).getD buf
        param := st }
  | [] =>
    { rtn := H.BT_FUNCTION_SUCCESS
      notify := H.STR_BT_MP_GET_PARAM ++
        H.STR_BT_MP_RESULT_DELIM ++ fmt_x st.mChannelNumber ++
        H.STR_BT_MP_RESULT_DELIM ++ fmt_x st.mPacketType ++
        H.STR_BT_MP_RESULT_DELIM ++ fmt_x st.mPayloadType ++
        H.STR_BT_MP_RESULT_DELIM ++ fmt_x st.mTxPacketCount ++
        H.STR_BT_MP_RESULT_DELIM ++ fmt_x st.mTxGainValue ++
        H.STR_BT_MP_RESULT_DELIM ++ fmt_x st.mWhiteningCoeffValue ++
        H.STR_BT_MP_RESULT_DELIM ++ fmt_x st.mTxGainIndex ++
        H.STR_BT_MP_RESULT_DELIM ++ fmt_x st.mTxDAC ++
        H.STR_BT_MP_RESULT_DELIM ++ fmt_x st.mPacketHeader ++
        H.STR_BT_MP_RESULT_DELIM ++ fmt_x st.mHoppingFixChannel ++
        H.STR_BT_MP_RESULT_DELIM ++ fmt_0x 12 st.mHitTarget
      param := st }

/-- Locals of `BT_SetParam` while the tokens of one pair are read. -/
structure PairScan where
  params_count : Nat
  index : Int
  var_pair : Bool
  value : Int
  param : BT_PARAMETER

/-- Body of the inner `for` of `BT_SetParam` for one non-NULL `param_token`,
without the increment. `Except.error` is the `return FUNCTION_PARAMETER_ERROR`
in the loop and carries the parameter block at that point. -/
def paramStep (H : Header) (s : PairScan) (param_token : CStr) : Except BT_PARAMETER PairScan :=
  if s.params_count = 0 then
    let index := toInt32 (strtol H param_token).1
    if index < 0 ∨ index ≥ BT_PARAM_IDX_NUM then .error s.param
    else if index = 0 ∨ index = 12 ∨ index = 13 then .ok { s with index := index, var_pair := true }
    else .ok { s with index := index }
  else if s.params_count = 1 then
    .ok { s with value := strtoll param_token 0 }
  else if s.params_count > 1 ∧ s.var_pair = true then
    if s.index = 0 then
      .ok { s with param := { s.param with
        mPGRawData := Function.update s.param.mPGRawData (s.params_count - 1)
          (toUnsigned 8 (strtoll param_token 0)) } }
    else if s.index = 12 ∧ s.params_count ≤ H.MAX_TXGAIN_TABLE_SIZE then
      .ok { s with param := { s.param with
        TXGainTable := Function.update s.param.TXGainTable (s.params_count - 1)
          (toUnsigned 8 (strtoll param_token 0)) } }
    else if s.index = 13 ∧ s.params_count ≤ H.MAX_TXDAC_TABLE_SIZE then
      .ok { s with param := { s.param with
        TXDACTable := Function.update s.param.TXDACTable (s.params_count - 1)
          (toUnsigned 8 (strtoll param_token 0)) } }
    else .ok s
  else .ok s

/-- The inner `for` of `BT_SetParam` over the tokens of one pair; `params_count`
is a `uint16_t` and wraps at `2 ^ 16`. The loop ends at the first NULL token. -/
def paramLoop (H : Header) : List CStr → PairScan → Except BT_PARAMETER PairScan
  | [], s => .ok s
  | t :: ts, s =>
    match paramStep H s t with
    | .error st => .error st
    | .ok s1 => paramLoop H ts { s1 with params_count := (s1.params_count + 1) % 2 ^ 16 }

/-- The outer `for` of `BT_SetParam` over the pair tokens. `index` and `value`
are function-level locals and survive from one pair to the next. -/
def pairLoop (H : Header) : List CStr → Int → Int → BT_PARAMETER → ApiResult
  | [], _, _, st =>
    { rtn := H.BT_FUNCTION_SUCCESS
      notify := codeResponse H H.STR_BT_MP_SET_PARAM H.BT_FUNCTION_SUCCESS
      param := st }
  | pair_token :: rest, index, value, st =>
    match paramLoop H (tokens H.STR_BT_MP_PARAM_DELIM pair_token)
        { params_count := 0, index := index, var_pair := false, value := value, param := st } with
    | .error st1 =>
      { rtn := H.FUNCTION_PARAMETER_ERROR
        notify := codeResponse H H.STR_BT_MP_SET_PARAM H.FUNCTION_PARAMETER_ERROR
        param := st1 }
    | .ok s =>
      if s.params_count > 2 ∧ s.var_pair = true then
        pairLoop H rest s.index s.value (bt_index2param s.param s.index s.value)
      else if s.params_count = 2 ∧ s.var_pair = false then
        pairLoop H rest s.index s.value (bt_index2param s.param s.index s.value)
      else if s.params_count = 0 then
        pairLoop H rest s.index s.value s.param
      else
        { rtn := H.FUNCTION_PARAMETER_ERROR
          notify := codeResponse H H.STR_BT_MP_SET_PARAM H.FUNCTION_PARAMETER_ERROR
          param := s.param }

/-- Source `BT_SetParam`. -/
def BT_SetParam (H : Header) (st : BT_PARAMETER) (p : CStr) : ApiResult :=
  pairLoop H (tokens H.STR_BT_MP_PAIR_DELIM p) (-1) 0 st

/-- Source `bt_mp_module_init`, the assignments to the parameter block; `built` is
the block as `BuildBluetoothModule` (outside the translated sources) leaves it. -/
def bt_mp_module_init (H : Header) (built : BT_PARAMETER) : BT_PARAMETER :=
  { built with
    mPGRawData := Function.update built.mPGRawData 0 0
    mChannelNumber := 10
    mPacketType := H.BT_PKT_3DH5
    mPayloadType := H.BT_PAYLOAD_TYPE_PRBS9
    mTxPacketCount := 0
    mTxGainValue := 0xA9
    mWhiteningCoeffValue := 0
    mTxGainIndex := 0xFF
    mTxDAC := 0x13
    mPacketHeader := 0x1234
    mHoppingFixChannel := 0
    mHitTarget := 0x0000009e8b33 }

/-! ## Register command (`BT_RegRW`) -/

/-- The callbacks `pBtModule->GetRegMaskBits` and `pBtModule->SetRegMaskBits` over a
device state `δ`. Arguments: type, page, address, msb, lsb, and the data word
(for a read: the content of `*pData` before the call; the result carries the
content after it). -/
structure RegAccess (δ : Type) where
  GetRegMaskBits : δ → Nat → Nat → Nat → Nat → Nat → Nat → Int × Nat × δ
  SetRegMaskBits : δ → Nat → Nat → Nat → Nat → Nat → Nat → Int × δ

/-- Locals of `BT_RegRW` that the token decoding fills. -/
structure RegArgs where
  params_count : Nat
  type : Nat
  rw : Nat
  page : Nat
  address : Nat
  msb : Nat
  lsb : Nat
  data : Nat
deriving DecidableEq, Repr

/-- `BT_RegRW`, "end of parameters": one more token counts as redundant. -/
def regEnd (a : RegArgs) : List CStr → RegArgs
  | [] => a
  | _ :: _ => { a with params_count := a.params_count + 1 }

/-- `BT_RegRW`, the data token, read only when `rw == 1`. -/
def regData (H : Header) (a : RegArgs) (ts : List CStr) : RegArgs :=
  if a.rw = 1 then
    match ts with
    | [] => a
    | t :: r => regEnd { a with data := toUnsigned 32 (strtol H t).1,
                                params_count := a.params_count + 1 } r
  else regEnd a ts

/-- `BT_RegRW`, the lsb token. -/
def regLsb (H : Header) (a : RegArgs) : List CStr → RegArgs
  | [] => a
  | t :: r => regData H { a with lsb := toUnsigned 8 (strtol H t).1,
                                 params_count := a.params_count + 1 } r

/-- `BT_RegRW`, the msb token. -/
def regMsb (H : Header) (a : RegArgs) : List CStr → RegArgs
  | [] => a
  | t :: r => regLsb H { a with msb := toUnsigned 8 (strtol H t).1,
                                params_count := a.params_count + 1 } r

/-- `BT_RegRW`, the address token. -/
def regAddress (H : Header) (a : RegArgs) : List CStr → RegArgs
  | [] => a
  | t :: r => regMsb H { a with address := toUnsigned 8 (strtol H t).1,
                                params_count := a.params_count + 1 } r

/-- `BT_RegRW`, the page token, read only when `type == BB_REG`. -/
def regPage (H : Header) (a : RegArgs) (ts : List CStr) : RegArgs :=
  if a.type = H.BB_REG then
    match ts with
    | [] => a
    | t :: r => regAddress H { a with page := toUnsigned 8 (strtol H t).1,
                                      params_count := a.params_count + 1 } r
  else regAddress H a ts

/-- `BT_RegRW`, the rw token. -/
def regRw (H : Header) (a : RegArgs) : List CStr → RegArgs
  | [] => a
  | t :: r => regPage H { a with rw := toUnsigned 8 (strtol H t).1,
                                 params_count := a.params_count + 1 } r

/-- `BT_RegRW` up to the label `EXIT`: the locals after the tokens are decoded,
each `goto EXIT` leaving the remaining locals at their initial 0. -/
def regParse (H : Header) : List CStr → RegArgs
  | [] => { params_count := 0, type := 0, rw := 0, page := 0, address := 0, msb := 0, lsb := 0, data := 0 }
  | t :: r => regRw H { params_count := 1, type := toUnsigned 8 (strtol H t).1, rw := 0, page := 0,
                        address := 0, msb := 0, lsb := 0, data := 0 } r

/-- `REGRW_PARAM_COUNT` after the two increments behind `EXIT`. -/
def REGRW_PARAM_COUNT (H : Header) (a : RegArgs) : Nat :=
  5 + (if a.rw = 1 then 1 else 0) + (if a.type = H.BB_REG then 1 else 0)

/-- What `BT_RegRW` leaves behind: returned code, response text, device state. -/
structure RegResult (δ : Type) where
  rtn : Int
  notify : CStr
  dev : δ

/-- Source `BT_RegRW`. -/
def BT_RegRW {δ : Type} (H : Header) (M : RegAccess δ) (dev : δ) (p : CStr) : RegResult δ :=
  let a := regParse H (tokens H.STR_BT_MP_PARAM_DELIM p)
  if a.params_count ≠ REGRW_PARAM_COUNT H a then
    { rtn := H.BT_FUNCTION_SUCCESS
      notify := codeResponse H H.STR_BT_MP_REG_RW H.FUNCTION_PARAMETER_ERROR
      dev := dev }
  else if a.rw = 0 then
    let r := M.GetRegMaskBits dev a.type a.page a.address a.msb a.lsb a.data
    { rtn := r.1
      notify := H.STR_BT_MP_REG_RW ++ H.STR_BT_MP_RESULT_DELIM ++ fmt_x_int r.1 ++
        H.STR_BT_MP_RESULT_DELIM ++ fmt_0x 8 (r.2.1 % 2 ^ 32)
      dev := r.2.2 }
  else
    let r := M.SetRegMaskBits dev a.type a.page a.address a.msb a.lsb a.data
    { rtn := r.1
      notify := codeResponse H H.STR_BT_MP_REG_RW r.1
      dev := r.2 }

/-! ## Raw HCI command (`BT_SendHciCmd`) -/

/-- The callback `pBtModule->SendHciCommandWithEvent` over a device state `δ`.
Arguments: opcode, payload length, the payload bytes, the expected event type.
Result: returned code, the content of `pEvent` and of `EventLen` after the
call, the device state. -/
structure HciAccess (δ : Type) where
  SendHciCommandWithEvent : δ → Nat → Nat → List Nat → Nat → Int × (Nat → Nat) × Nat × δ

/-- The `while (ParamLen_1--)` loop of `BT_SendHciCmd`: one token per declared
byte goes to `ParamArray`, `params_count` (a `uint8_t`) is incremented; `none`
is the `goto EXIT` at a missing token. -/
def hciData (H : Header) : Nat → List CStr → List Nat → Nat → Option (List Nat × Nat)
  | 0, _, ParamArray, params_count => some (ParamArray, params_count)
  | _ + 1, [], _, _ => none
  | n + 1, token :: ts, ParamArray, params_count =>
    hciData H n ts (ParamArray ++ [toUnsigned 8 (strtol H token).1]) ((params_count + 1) % 2 ^ 8)

/-- The text `<delim>%x` for each of the event bytes `pEvent[0 .. n-1]`. -/
def printEvent (H : Header) (pEvent : Nat → Nat) : Nat → CStr
  | 0 => []
  | n + 1 => printEvent H pEvent n ++ (H.STR_BT_MP_RESULT_DELIM ++ fmt_x (pEvent n % 2 ^ 8))

/-- What `BT_SendHciCmd` leaves behind: returned code, response text, device state. -/
structure HciResult (δ : Type) where
  rtn : Int
  notify : CStr
  dev : δ

/-- The label `EXIT` of `BT_SendHciCmd`: the response always carries
`FUNCTION_PARAMETER_ERROR`, the function returns `rtn`. -/
def hciExit {δ : Type} (H : Header) (rtn : Int) (dev : δ) : HciResult δ :=
  { rtn := rtn
    notify := H.STR_BT_MP_HCI_CMD ++ H.STR_BT_MP_RESULT_DELIM ++ fmt_x_int H.FUNCTION_PARAMETER_ERROR
    dev := dev }

/-- Source `BT_SendHciCmd`. The result is `none` when the function does not
return: the loop that prints the event counts in a `uint8_t` and never ends when
`EventLen` exceeds 255. -/
def BT_SendHciCmd {δ : Type} (H : Header) (M : HciAccess δ) (dev : δ) (p : CStr) :
    Option (HciResult δ) :=
  match tokens H.STR_BT_MP_PARAM_DELIM p with
  | [] => some (hciExit H H.FUNCTION_PARAMETER_ERROR dev)
  | [_] => some (hciExit H H.FUNCTION_PARAMETER_ERROR dev)
  | t0 :: t1 :: ts =>
    let OpCode := toUnsigned 16 (strtol H t0).1
    let ParamLen := toUnsigned 8 (strtol H t1).1
    match hciData H ParamLen ts [] 2 with
    | none => some (hciExit H H.FUNCTION_PARAMETER_ERROR dev)
    | some (ParamArray, params_count) =>
      if params_count ≠ ParamLen + 2 then some (hciExit H H.FUNCTION_PARAMETER_ERROR dev)
      else
        let r := M.SendHciCommandWithEvent dev OpCode ParamLen ParamArray 0x0E
        if r.1 = H.BT_FUNCTION_SUCCESS then
          (if r.2.2.1 < 2 ^ 8 then
            some { rtn := r.1
                   notify := H.STR_BT_MP_HCI_CMD ++ printEvent H r.2.1 r.2.2.1
                   dev := r.2.2.2 }
          else none)
        else some (hciExit H r.1 r.2.2.2)

/-! ## Module state, session report and device (`bt_mp_module_base.c`) -/

/-- The session report `BT_DEVICE_REPORT`. Counters are unsigned, the RSSI
fields are signed; `ber` holds the stored bit pattern of the bit error rate and
`pBTInfo` the stored pointer. -/
structure BT_DEVICE_REPORT where
  TotalTXBits : Nat
  TXUpdateBits : Nat
  TotalTxCounts : Nat
  TXPktUpdateCnts : Nat
  TotalRXBits : Nat
  RXUpdateBits : Nat
  RXPktUpdateCnts : Nat
  TotalRxCounts : Nat
  TotalRxErrorBits : Nat
  IsRxRssi : Int
  RXRecvPktCnts : Nat
  ber : Nat
  RxRssi : Int
  pBTInfo : Nat
deriving DecidableEq, Repr

/-- The module `BT_MODULE`: parameter block, session report and device state. -/
structure BT_MODULE (δ : Type) where
  pBtParam : BT_PARAMETER
  pModuleBtReport : BT_DEVICE_REPORT
  pBtDevice : δ

/-- Enumerators of the action ordinal (`BT_ACTIONCONTROL_TAG`), declared in a
header outside the translated sources. -/
structure ActionTags where
  NOTTHING : Int
  MODULE_INIT : Int
  SETTXGAINTABLE : Int
  SETTXDACTABLE : Int
  SET_TXCHANNEL : Int
  SET_RXCHANNEL : Int
  SET_POWERGAININDEX : Int
  SET_POWERGAIN : Int
  SET_POWERDAC : Int
  SET_PAYLOADTYPE : Int
  SET_WHITENINGCOFFENABLE : Int
  SET_PACKETTYPE : Int
  SET_HITTARGET : Int
  SET_TESTMODE : Int
  SET_MUTIRXENABLE : Int
  HCI_RESET : Int
  PACKET_TX_START : Int
  PACKET_TX_START_SET_CHANNEL_PKTTYPE : Int
  PACKET_TX_UPDATE : Int
  PACKET_TX_SEND_ONE : Int
  PACKET_TX_STOP : Int
  PACKET_RX_START : Int
  PACKET_RX_START_SET_CHANNEL_PKTTYPE : Int
  PACKET_RX_UPDATE : Int
  PACKET_RX_STOP : Int
  CONTINUE_TX_LE_START : Int
  CONTINUE_TX_START : Int
  CONTINUE_TX_LE_STOP : Int
  CONTINUE_TX_STOP : Int
  CONTINUE_TX_LE_UPDATE : Int
  CONTINUE_TX_UPDATE : Int
  HOPPING_DWELL_TIME : Int
  REPORT_CLEAR : Int
  NUMBEROFBT_ACTIONCONTROL_TAG : Int

/-- The case labels of the `switch` in `BTModule_ActionControlExcute`, in source
order. A C `switch` has pairwise distinct labels. -/
def ActionTags.labels (A : ActionTags) : List Int :=
  [A.MODULE_INIT, A.SETTXGAINTABLE, A.SETTXDACTABLE,
   A.SET_TXCHANNEL, A.SET_RXCHANNEL, A.SET_POWERGAININDEX,
   A.SET_POWERGAIN, A.SET_POWERDAC, A.SET_PAYLOADTYPE,
   A.SET_WHITENINGCOFFENABLE, A.SET_PACKETTYPE, A.SET_HITTARGET,
   A.SET_TESTMODE, A.SET_MUTIRXENABLE, A.HCI_RESET,
   A.PACKET_TX_START, A.PACKET_TX_START_SET_CHANNEL_PKTTYPE, A.PACKET_TX_UPDATE,
   A.PACKET_TX_SEND_ONE, A.PACKET_TX_STOP, A.PACKET_RX_START,
   A.PACKET_RX_START_SET_CHANNEL_PKTTYPE, A.PACKET_RX_UPDATE, A.PACKET_RX_STOP,
   A.CONTINUE_TX_LE_START, A.CONTINUE_TX_START, A.CONTINUE_TX_LE_STOP,
   A.CONTINUE_TX_STOP, A.CONTINUE_TX_LE_UPDATE, A.CONTINUE_TX_UPDATE,
   A.HOPPING_DWELL_TIME, A.REPORT_CLEAR]

/-- A call through the function table of `BT_DEVICE` that receives the device
and plain values. -/
inductive DeviceCall where
  | SetTxGainTable (table : Nat → Nat)
  | SetTxDACTable (table : Nat → Nat)
  | SetTxChannel (ch : Nat)
  | SetRxChannel (ch : Nat)
  | SetPowerGainIndex (index : Nat)
  | SetPowerGain (gain : Nat)
  | SetPowerDac (dac : Nat)
  | SetPayloadType (payload : Nat)
  | SetWhiteningCoeffEnable (enable : Nat)
  | SetPacketType (pkt : Nat)
  | SetHitTarget (target : Nat)
  | SetTestMode (mode : Nat)
  | SetMutiRxEnable (enable : Nat)
  | SetHciReset (delay : Nat)
  | SetRestMDCount
  | SetHoppingMode (ch pkt hop : Nat) (whiten : Nat)

/-- A call through the function table of `BT_DEVICE` that receives the device,
the parameter block and the session report. -/
inductive SessionCall where
  | SetPktTxBegin
  | SetPktTxBeginChannelPacketType
  | SetPktTxUpdate
  | SetPktTxSendOne
  | SetPktTxStop
  | SetPktRxBegin
  | SetPktRxBeginChannelPacketType
  | SetPktRxUpdate
  | SetPktRxStop
  | SetContinueTxBegin
  | SetContinueTxStop
  | SetContinueTxUpdate
deriving DecidableEq, Repr

/-- The function table of `BT_DEVICE` over a device state `δ`. `call` runs a
function that gets plain values and returns its code and the new device state;
`session` runs a function that also gets the pointers to the parameter block
and to the session report and may update both; `pBTInfo` reads the field of that
name. -/
structure BT_DEVICE (δ : Type) where
  call : δ → DeviceCall → Int × δ
  session : δ → SessionCall → BT_PARAMETER → BT_DEVICE_REPORT →
    Int × δ × BT_PARAMETER × BT_DEVICE_REPORT
  GetChipVersionInfo : δ → Int × δ
  pBTInfo : δ → Nat

/-- `rtn = pModuleBtDevice->F(pModuleBtDevice, values...); break;` -/
def deviceCall {δ : Type} (D : BT_DEVICE δ) (m : BT_MODULE δ) (c : DeviceCall) :
    Int × BT_MODULE δ :=
  ((D.call m.pBtDevice c).1, { m with pBtDevice := (D.call m.pBtDevice c).2 })

/-- `rtn = pModuleBtDevice->F(pModuleBtDevice, pModuleBtParam, pModuleBtReport); break;` -/
def sessionCall {δ : Type} (D : BT_DEVICE δ) (m : BT_MODULE δ) (c : SessionCall) :
    Int × BT_MODULE δ :=
  ((D.session m.pBtDevice c m.pBtParam m.pModuleBtReport).1,
   { pBtParam := (D.session m.pBtDevice c m.pBtParam m.pModuleBtReport).2.2.1
     pModuleBtReport := (D.session m.pBtDevice c m.pBtParam m.pModuleBtReport).2.2.2
     pBtDevice := (D.session m.pBtDevice c m.pBtParam m.pModuleBtReport).2.1 })

/-- Enumerators of the report item passed to `BTModule_ActionReport`, declared in
a header outside the translated sources. -/
structure ReportTags where
  NO_THING : Int
  REPORT_TX : Int
  REPORT_RX : Int
  REPORT_CHIP : Int
  REPORT_ALL : Int

/-- The case labels of the `switch` in `BTModule_ActionReport`, in source order. -/
def ReportTags.labels (R : ReportTags) : List Int :=
  [R.NO_THING, R.REPORT_TX, R.REPORT_RX, R.REPORT_CHIP, R.REPORT_ALL]

/-- Source `BTModule_ActionReport`: fills the caller's report `pReport` from the
session report of the module according to `ActiceItem`. Returns `rtn`, the
caller's report and the module. -/
def BTModule_ActionReport {δ : Type} (H : Header) (R : ReportTags) (D : BT_DEVICE δ)
    (m : BT_MODULE δ) (ActiceItem : Int) (pReport : BT_DEVICE_REPORT) :
    Int × BT_DEVICE_REPORT × BT_MODULE δ :=
  if ActiceItem = R.NO_THING then (H.BT_FUNCTION_SUCCESS, pReport, m)
  else if ActiceItem = R.REPORT_TX then
    (H.BT_FUNCTION_SUCCESS,
     { pReport with
       TotalTXBits := m.pModuleBtReport.TotalTXBits
       TotalTxCounts := m.pModuleBtReport.TotalTxCounts }, m)
  else if ActiceItem = R.REPORT_RX then
    (H.BT_FUNCTION_SUCCESS,
     { pReport with
       TotalRXBits := m.pModuleBtReport.TotalRXBits
       TotalRxCounts := m.pModuleBtReport.TotalRxCounts
       TotalRxErrorBits := m.pModuleBtReport.TotalRxErrorBits
       ber := m.pModuleBtReport.ber
       IsRxRssi := m.pModuleBtReport.IsRxRssi
       RXRecvPktCnts := m.pModuleBtReport.RXRecvPktCnts }, m)
  else if ActiceItem = R.REPORT_CHIP then
    (if (D.GetChipVersionInfo m.pBtDevice).1 ≠ H.BT_FUNCTION_SUCCESS then
      (H.FUNCTION_ERROR, pReport, { m with pBtDevice := (D.GetChipVersionInfo m.pBtDevice).2 })
    else
      (H.BT_FUNCTION_SUCCESS,
       { pReport with pBTInfo := D.pBTInfo (D.GetChipVersionInfo m.pBtDevice).2 },
       { m with pBtDevice := (D.GetChipVersionInfo m.pBtDevice).2 }))
  else
    (H.BT_FUNCTION_SUCCESS,
     { pReport with
       TotalTXBits := m.pModuleBtReport.TotalTXBits
       TotalTxCounts := m.pModuleBtReport.TotalTxCounts
       TotalRXBits := m.pModuleBtReport.TotalRXBits
       TotalRxCounts := m.pModuleBtReport.TotalRxCounts
       TotalRxErrorBits := m.pModuleBtReport.TotalRxErrorBits
       ber := m.pModuleBtReport.ber
       IsRxRssi := m.pModuleBtReport.IsRxRssi
       RXRecvPktCnts := m.pModuleBtReport.RXRecvPktCnts }, m)

/-- Source `BTModule_ActionControlExcute`: the `switch` on
`pBtModule->pBtParam->ParameterIndex`, its cases in source order. Returns `rtn`
and the module after the action. -/
def BTModule_ActionControlExcute {δ : Type} (H : Header) (A : ActionTags) (D : BT_DEVICE δ)
    (m : BT_MODULE δ) : Int × BT_MODULE δ :=
  let Item := m.pBtParam.ParameterIndex
  if Item = A.MODULE_INIT then (H.BT_FUNCTION_SUCCESS, m)
  else if Item = A.SETTXGAINTABLE then
    deviceCall D m (DeviceCall.SetTxGainTable m.pBtParam.TXGainTable)
  else if Item = A.SETTXDACTABLE then
    deviceCall D m (DeviceCall.SetTxDACTable m.pBtParam.TXDACTable)
  else if Item = A.SET_TXCHANNEL then
    deviceCall D m (DeviceCall.SetTxChannel m.pBtParam.mChannelNumber)
  else if Item = A.SET_RXCHANNEL then
    deviceCall D m (DeviceCall.SetRxChannel m.pBtParam.mChannelNumber)
  else if Item = A.SET_POWERGAININDEX then
    deviceCall D m (DeviceCall.SetPowerGainIndex m.pBtParam.mTxGainIndex)
  else if Item = A.SET_POWERGAIN then
    deviceCall D m (DeviceCall.SetPowerGain m.pBtParam.mTxGainValue)
  else if Item = A.SET_POWERDAC then
    deviceCall D m (DeviceCall.SetPowerDac m.pBtParam.mTxDAC)
  else if Item = A.SET_PAYLOADTYPE then
    deviceCall D m (DeviceCall.SetPayloadType m.pBtParam.mPayloadType)
  else if Item = A.SET_WHITENINGCOFFENABLE then
    deviceCall D m (DeviceCall.SetWhiteningCoeffEnable m.pBtParam.mWhiteningCoeffEnable)
  else if Item = A.SET_PACKETTYPE then
    deviceCall D m (DeviceCall.SetPacketType m.pBtParam.mPacketType)
  else if Item = A.SET_HITTARGET then
    deviceCall D m (DeviceCall.SetHitTarget m.pBtParam.mHitTarget)
  else if Item = A.SET_TESTMODE then
    deviceCall D m (DeviceCall.SetTestMode m.pBtParam.mTestMode)
  else if Item = A.SET_MUTIRXENABLE then
    deviceCall D m (DeviceCall.SetMutiRxEnable m.pBtParam.mMutiRxEnable)
  else if Item = A.HCI_RESET then
    ((D.call (D.call m.pBtDevice (DeviceCall.SetHciReset 700)).2 DeviceCall.SetRestMDCount).1,
     { m with
       pModuleBtReport := { m.pModuleBtReport with
         TotalTXBits := 0
         TXUpdateBits := 0
         TotalTxCounts := 0
         TXPktUpdateCnts := 0
         TotalRXBits := 0
         RXUpdateBits := 0
         RXPktUpdateCnts := 0
         TotalRxCounts := 0
         TotalRxErrorBits := 0
         IsRxRssi := -90
         RXRecvPktCnts := 0 }
       pBtDevice :=
         (D.call (D.call m.pBtDevice (DeviceCall.SetHciReset 700)).2 DeviceCall.SetRestMDCount).2 })
  else if Item = A.PACKET_TX_START then sessionCall D m SessionCall.SetPktTxBegin
  else if Item = A.PACKET_TX_START_SET_CHANNEL_PKTTYPE then
    sessionCall D m SessionCall.SetPktTxBeginChannelPacketType
  else if Item = A.PACKET_TX_UPDATE then sessionCall D m SessionCall.SetPktTxUpdate
  else if Item = A.PACKET_TX_SEND_ONE then sessionCall D m SessionCall.SetPktTxSendOne
  else if Item = A.PACKET_TX_STOP then sessionCall D m SessionCall.SetPktTxStop
  else if Item = A.PACKET_RX_START then sessionCall D m SessionCall.SetPktRxBegin
  else if Item = A.PACKET_RX_START_SET_CHANNEL_PKTTYPE then
    sessionCall D m SessionCall.SetPktRxBeginChannelPacketType
  else if Item = A.PACKET_RX_UPDATE then sessionCall D m SessionCall.SetPktRxUpdate
  else if Item = A.PACKET_RX_STOP then sessionCall D m SessionCall.SetPktRxStop
  else if Item = A.CONTINUE_TX_LE_START ∨ Item = A.CONTINUE_TX_START then
    sessionCall D m SessionCall.SetContinueTxBegin
  else if Item = A.CONTINUE_TX_LE_STOP ∨ Item = A.CONTINUE_TX_STOP then
    sessionCall D m SessionCall.SetContinueTxStop
  else if Item = A.CONTINUE_TX_LE_UPDATE ∨ Item = A.CONTINUE_TX_UPDATE then
    sessionCall D m SessionCall.SetContinueTxUpdate
  else if Item = A.HOPPING_DWELL_TIME then
    deviceCall D m (DeviceCall.SetHoppingMode m.pBtParam.mChannelNumber m.pBtParam.mPacketType
      m.pBtParam.mHoppingFixChannel m.pBtParam.mWhiteningCoeffEnable)
  else if Item = A.REPORT_CLEAR then
    ((D.call m.pBtDevice DeviceCall.SetRestMDCount).1,
     { m with
       pModuleBtReport := { m.pModuleBtReport with
         TotalTXBits := 0
         TXUpdateBits := 0
         TotalTxCounts := 0
         TXPktUpdateCnts := 0
         TotalRXBits := 0
         RXUpdateBits := 0
         RXPktUpdateCnts := 0
         TotalRxCounts := 0
         TotalRxErrorBits := 0
         IsRxRssi := -90
         RXRecvPktCnts := 0 }
       pBtDevice := (D.call m.pBtDevice DeviceCall.SetRestMDCount).2 })
  else (H.BT_FUNCTION_SUCCESS, m)

/-! ## Action command (`BT_Exec`) -/

/-- What `BT_Exec` leaves behind: returned code, content of `pNotifyBuffer`,
the module. -/
structure ExecResult (δ : Type) where
  rtn : Int
  notify : CStr
  module : BT_MODULE δ

/-- The C string at `p` after the first `strtok(p, delim)`: the call ends the
first token with a NUL, so `p` reads as its leading delimiters and that token. -/
def cutAtFirstToken (delim : CStr) (p : CStr) : CStr :=
  p.takeWhile (fun c ↦ delim.contains c) ++
    (p.dropWhile (fun c ↦ delim.contains c)).takeWhile (fun c ↦ !delim.contains c)

/-- Source `BT_Exec`. `ActionControlExcute` is the callback
`pBtModule->ActionControlExcute`; `buf` is the prior content of
`pNotifyBuffer`, which the two `goto EXIT` paths leave as it is. -/
def BT_Exec {δ : Type} (H : Header) (A : ActionTags)
    (ActionControlExcute : BT_MODULE δ → Int × BT_MODULE δ)
    (m : BT_MODULE δ) (p : CStr) (buf : CStr) : ExecResult δ :=
  match tokens H.STR_BT_MP_PARAM_DELIM p with
  | [] => { rtn := H.FUNCTION_PARAMETER_ERROR, notify := buf, module := m }
  | _ :: _ :: _ => { rtn := H.FUNCTION_PARAMETER_ERROR, notify := buf, module := m }
  | [token] =>
    let ParameterIndex := toInt32 (strtol H token).1
    if ParameterIndex > A.NOTTHING ∧ ParameterIndex < A.NUMBEROFBT_ACTIONCONTROL_TAG then
      let r := ActionControlExcute
        { m with pBtParam := { m.pBtParam with ParameterIndex := ParameterIndex } }
      { rtn := r.1
        notify := H.STR_BT_MP_EXEC ++ H.STR_BT_MP_RESULT_DELIM ++ fmt_x_int ParameterIndex ++
          H.STR_BT_MP_RESULT_DELIM ++ fmt_x_int r.1
        module := r.2 }
    else
      { rtn := H.BT_FUNCTION_SUCCESS
        notify := H.STR_BT_MP_EXEC ++ H.STR_BT_MP_RESULT_DELIM ++
          cutAtFirstToken H.STR_BT_MP_PARAM_DELIM p ++
          H.STR_BT_MP_RESULT_DELIM ++ fmt_x_int H.FUNCTION_PARAMETER_ERROR
        module := m }

/-! ## Fixed-arity set commands (`BT_SetParam1`, `BT_SetParam2`) -/

/-- The label `EXIT` of `BT_SetParam1` and `BT_SetParam2`: the number of tokens
read is compared with the required count and the response is written. -/
def setExit (H : Header) (name : CStr) (required : Nat) (params_count : Nat)
    (st : BT_PARAMETER) : ApiResult :=
  if params_count ≠ required then
    { rtn := H.FUNCTION_PARAMETER_ERROR
      notify := codeResponse H name H.FUNCTION_PARAMETER_ERROR
      param := st }
  else
    { rtn := H.BT_FUNCTION_SUCCESS
      notify := codeResponse H name H.BT_FUNCTION_SUCCESS
      param := st }

/-- Source `BT_SetParam1`: each token is stored in its field as soon as it is
read; a missing token jumps to `EXIT`, a seventh token counts as redundant. -/
def BT_SetParam1 (H : Header) (st : BT_PARAMETER) (p : CStr) : ApiResult :=
  match tokens H.STR_BT_MP_PARAM_DELIM p with
  | [] => setExit H H.STR_BT_MP_SET_PARAM1 6 0 st
  | [t1] =>
    setExit H H.STR_BT_MP_SET_PARAM1 6 1
      { st with mChannelNumber := toUnsigned 8 (strtol H t1).1 }
  | [t1, t2] =>
    setExit H H.STR_BT_MP_SET_PARAM1 6 2
      { st with mChannelNumber := toUnsigned 8 (strtol H t1).1
                mPacketType := toUnsigned 32 (strtol H t2).1 }
  | [t1, t2, t3] =>
    setExit H H.STR_BT_MP_SET_PARAM1 6 3
      { st with mChannelNumber := toUnsigned 8 (strtol H t1).1
                mPacketType := toUnsigned 32 (strtol H t2).1
                mPayloadType := toUnsigned 32 (strtol H t3).1 }
  | [t1, t2, t3, t4] =>
    setExit H H.STR_BT_MP_SET_PARAM1 6 4
      { st with mChannelNumber := toUnsigned 8 (strtol H t1).1
                mPacketType := toUnsigned 32 (strtol H t2).1
                mPayloadType := toUnsigned 32 (strtol H t3).1
                mTxPacketCount := toUnsigned 16 (strtol H t4).1 }
  | [t1, t2, t3, t4, t5] =>
    setExit H H.STR_BT_MP_SET_PARAM1 6 5
      { st with mChannelNumber := toUnsigned 8 (strtol H t1).1
                mPacketType := toUnsigned 32 (strtol H t2).1
                mPayloadType := toUnsigned 32 (strtol H t3).1
                mTxPacketCount := toUnsigned 16 (strtol H t4).1
                mTxGainValue := toUnsigned 8 (strtol H t5).1 }
  | [t1, t2, t3, t4, t5, t6] =>
    setExit H H.STR_BT_MP_SET_PARAM1 6 6
      { st with mChannelNumber := toUnsigned 8 (strtol H t1).1
                mPacketType := toUnsigned 32 (strtol H t2).1
                mPayloadType := toUnsigned 32 (strtol H t3).1
                mTxPacketCount := toUnsigned 16 (strtol H t4).1
                mTxGainValue := toUnsigned 8 (strtol H t5).1
                mWhiteningCoeffValue := toUnsigned 8 (strtol H t6).1 }
  | t1 :: t2 :: t3 :: t4 :: t5 :: t6 :: _ :: _ =>
    setExit H H.STR_BT_MP_SET_PARAM1 6 7
      { st with mChannelNumber := toUnsigned 8 (strtol H t1).1
                mPacketType := toUnsigned 32 (strtol H t2).1
                mPayloadType := toUnsigned 32 (strtol H t3).1
                mTxPacketCount := toUnsigned 16 (strtol H t4).1
                mTxGainValue := toUnsigned 8 (strtol H t5).1
                mWhiteningCoeffValue := toUnsigned 8 (strtol H t6).1 }

/-- Source `BT_SetParam2`: as `BT_SetParam1` with five fields; the fifth token,
the hit target, is read by `strtoull(token, NULL, 16)`. -/
def BT_SetParam2 (H : Header) (st : BT_PARAMETER) (p : CStr) : ApiResult :=
  match tokens H.STR_BT_MP_PARAM_DELIM p with
  | [] => setExit H H.STR_BT_MP_SET_PARAM2 5 0 st
  | [t1] =>
    setExit H H.STR_BT_MP_SET_PARAM2 5 1
      { st with mTxGainIndex := toUnsigned 8 (strtol H t1).1 }
  | [t1, t2] =>
    setExit H H.STR_BT_MP_SET_PARAM2 5 2
      { st with mTxGainIndex := toUnsigned 8 (strtol H t1).1
                mTxDAC := toUnsigned 8 (strtol H t2).1 }
  | [t1, t2, t3] =>
    setExit H H.STR_BT_MP_SET_PARAM2 5 3
      { st with mTxGainIndex := toUnsigned 8 (strtol H t1).1
                mTxDAC := toUnsigned 8 (strtol H t2).1
                mPacketHeader := toUnsigned 16 (strtol H t3).1 }
  | [t1, t2, t3, t4] =>
    setExit H H.STR_BT_MP_SET_PARAM2 5 4
      { st with mTxGainIndex := toUnsigned 8 (strtol H t1).1
                mTxDAC := toUnsigned 8 (strtol H t2).1
                mPacketHeader := toUnsigned 16 (strtol H t3).1
                mHoppingFixChannel := toUnsigned 8 (strtol H t4).1 }
  | [t1, t2, t3, t4, t5] =>
    setExit H H.STR_BT_MP_SET_PARAM2 5 5
      { st with mTxGainIndex := toUnsigned 8 (strtol H t1).1
                mTxDAC := toUnsigned 8 (strtol H t2).1
                mPacketHeader := toUnsigned 16 (strtol H t3).1
                mHoppingFixChannel := toUnsigned 8 (strtol H t4).1
                mHitTarget := strtoull t5 16 }
  | t1 :: t2 :: t3 :: t4 :: t5 :: _ :: _ =>
    setExit H H.STR_BT_MP_SET_PARAM2 5 6
      { st with mTxGainIndex := toUnsigned 8 (strtol H t1).1
                mTxDAC := toUnsigned 8 (strtol H t2).1
                mPacketHeader := toUnsigned 16 (strtol H t3).1
                mHoppingFixChannel := toUnsigned 8 (strtol H t4).1
                mHitTarget := strtoull t5 16 }

/-! ## RX report command (`BT_ReportRx`) -/

/-- Source `BT_ReportRx`. `ActionReport` is the callback
`pBtModule->ActionReport`; `BtDeviceReport` is the content of the local variable
of that name when the function starts (the source does not initialise it). The
`%x` conversions print an `unsigned int`, the low 32 bits of the field. -/
def BT_ReportRx {δ : Type} (H : Header) (R : ReportTags)
    (ActionReport : BT_MODULE δ → Int → BT_DEVICE_REPORT → Int × BT_DEVICE_REPORT × BT_MODULE δ)
    (m : BT_MODULE δ) (BtDeviceReport : BT_DEVICE_REPORT) : ExecResult δ :=
  let r := ActionReport m R.REPORT_RX BtDeviceReport
  if r.1 ≠ H.BT_FUNCTION_SUCCESS then
    { rtn := r.1
      notify := codeResponse H H.STR_BT_MP_PKTRXSTART r.1
      module := r.2.2 }
  else
    { rtn := r.1
      notify := H.STR_BT_MP_REPORT_RX ++
        H.STR_BT_MP_RESULT_DELIM ++ fmt_x_int r.2.1.RxRssi ++
        H.STR_BT_MP_RESULT_DELIM ++ fmt_x (r.2.1.TotalRXBits % 2 ^ 32) ++
        H.STR_BT_MP_RESULT_DELIM ++ fmt_x (r.2.1.TotalRxCounts % 2 ^ 32) ++
        H.STR_BT_MP_RESULT_DELIM ++ fmt_x (r.2.1.TotalRxErrorBits % 2 ^ 32)
      module := r.2.2 }

/-! ## Register accessor -/

/-- Modelled from the spec: the mask of the bits `[lsb..msb]` inclusive (§3,
Register Address). The code behind the callbacks `GetRegMaskBits` and
`SetRegMaskBits` is not in the translated sources, which only pass the calls on
to function pointers of the device. -/
def maskBits (msb lsb : Nat) : Nat := (2 ^ (msb - lsb + 1) - 1) <<< lsb

/-- Modelled from the spec: `read` of the Register Accessor (§4.3), whose code is
not in the translated sources: from the raw register value, extract the bits
`[lsb..msb]` and right-justify them. -/
def readMaskBits (raw msb lsb : Nat) : Nat := (raw &&& maskBits msb lsb) >>> lsb

/-- Modelled from the spec: `write` of the Register Accessor (§4.3), whose code is
not in the translated sources: in the raw register value, replace the bits
`[lsb..msb]` with `value`; whether `value` fits is not validated. -/
def writeMaskBits (raw msb lsb value : Nat) : Nat :=
  (raw ^^^ (raw &&& maskBits msb lsb)) ||| (value <<< lsb)

/-- Modelled from the spec: the Register Accessor (§4.3) as the pair of
callbacks of `BT_RegRW`, over a register file that maps space, page and address
to the raw register value. A read is a raw read and the extraction; a write is a
raw read, the merge and a raw write. The code of the accessor is not in the
translated sources. -/
def specAccessor (H : Header) : RegAccess (Nat → Nat → Nat → Nat) where
  GetRegMaskBits := fun regs t p a msb lsb _ ↦
    (H.BT_FUNCTION_SUCCESS, readMaskBits (regs t p a) msb lsb, regs)
  SetRegMaskBits := fun regs t p a msb lsb data ↦
    (H.BT_FUNCTION_SUCCESS,
     fun t1 p1 a1 ↦
       if t1 = t ∧ p1 = p ∧ a1 = a then writeMaskBits (regs t p a) msb lsb data
       else regs t1 p1 a1)

/-! ## Reference values of the header constants -/

/-- Modelled from the spec: the header constants, which are declared outside the
translated sources. Delimiters as in the scenario `0,0|1,10|2,1` (pair delimiter
`|`, field delimiter `,`), table capacities 7 and 5, success code 0 and a
distinct parameter-error code, a 32-bit `long`. Command names and enumerator
values that the spec leaves open are representative; the general theorems hold
for every `Header`. -/
def refHeader : Header where
  STR_BT_MP_GET_PARAM := "bt_mp_GetParam".toList
  STR_BT_MP_SET_PARAM := "bt_mp_SetParam".toList
  STR_BT_MP_SET_PARAM1 := "bt_mp_SetParam1".toList
  STR_BT_MP_SET_PARAM2 := "bt_mp_SetParam2".toList
  STR_BT_MP_REPORT_RX := "bt_mp_ReportRx".toList
  STR_BT_MP_PKTRXSTART := "bt_mp_PktRxStart".toList
  STR_BT_MP_REG_RW := "bt_mp_RegRW".toList
  STR_BT_MP_HCI_CMD := "bt_mp_HciCmd".toList
  STR_BT_MP_EXEC := "bt_mp_Exec".toList
  STR_BT_MP_PARAM_DELIM := ",".toList
  STR_BT_MP_PAIR_DELIM := "|".toList
  STR_BT_MP_RESULT_DELIM := ",".toList
  BT_FUNCTION_SUCCESS := 0
  FUNCTION_ERROR := 1
  FUNCTION_PARAMETER_ERROR := 4
  MAX_TXGAIN_TABLE_SIZE := 7
  MAX_TXDAC_TABLE_SIZE := 5
  MAX_PG_RAW_DATA := 255
  BB_REG := 3
  BT_PKT_3DH5 := 8
  BT_PAYLOAD_TYPE_PRBS9 := 6
  LONG_BITS := 32

/-- A parameter block with every field 0, standing for the block before
`bt_mp_module_init` runs. -/
def zeroParam : BT_PARAMETER where
  ParameterIndex := 0
  mPGRawData := fun _ ↦ 0
  mChannelNumber := 0
  mPacketType := 0
  mPayloadType := 0
  mTxPacketCount := 0
  mTxGainValue := 0
  mWhiteningCoeffValue := 0
  mTxGainIndex := 0
  mTxDAC := 0
  mPacketHeader := 0
  mHoppingFixChannel := 0
  mHitTarget := 0
  TXGainTable := fun _ ↦ 0
  TXDACTable := fun _ ↦ 0
  Rtl8761Xtal := 0
  mTestMode := 0
  mWhiteningCoeffEnable := 0
  mMutiRxEnable := 0

/-- Modelled from the spec: the enumerators of the action ordinal, which are
declared outside the translated sources, as the densely packed range
`NOTHING < idx < ACTION_COUNT`: `NOTTHING` is 0, the handled actions follow in
the order of the `switch`, the count closes the range. -/
def refActions : ActionTags where
  NOTTHING := 0
  MODULE_INIT := 1
  SETTXGAINTABLE := 2
  SETTXDACTABLE := 3
  SET_TXCHANNEL := 4
  SET_RXCHANNEL := 5
  SET_POWERGAININDEX := 6
  SET_POWERGAIN := 7
  SET_POWERDAC := 8
  SET_PAYLOADTYPE := 9
  SET_WHITENINGCOFFENABLE := 10
  SET_PACKETTYPE := 11
  SET_HITTARGET := 12
  SET_TESTMODE := 13
  SET_MUTIRXENABLE := 14
  HCI_RESET := 15
  PACKET_TX_START := 16
  PACKET_TX_START_SET_CHANNEL_PKTTYPE := 17
  PACKET_TX_UPDATE := 18
  PACKET_TX_SEND_ONE := 19
  PACKET_TX_STOP := 20
  PACKET_RX_START := 21
  PACKET_RX_START_SET_CHANNEL_PKTTYPE := 22
  PACKET_RX_UPDATE := 23
  PACKET_RX_STOP := 24
  CONTINUE_TX_LE_START := 25
  CONTINUE_TX_START := 26
  CONTINUE_TX_LE_STOP := 27
  CONTINUE_TX_STOP := 28
  CONTINUE_TX_LE_UPDATE := 29
  CONTINUE_TX_UPDATE := 30
  HOPPING_DWELL_TIME := 31
  REPORT_CLEAR := 32
  NUMBEROFBT_ACTIONCONTROL_TAG := 33

/-- Modelled from the spec: the enumerators of the report item (views TX, RX,
CHIP-INFO, ALL), which are declared outside the translated sources, numbered in
the order of the `switch`. -/
def refReports : ReportTags where
  NO_THING := 0
  REPORT_TX := 1
  REPORT_RX := 2
  REPORT_CHIP := 3
  REPORT_ALL := 4

/-- A session report with every field 0. -/
def zeroReport : BT_DEVICE_REPORT where
  TotalTXBits := 0
  TXUpdateBits := 0
  TotalTxCounts := 0
  TXPktUpdateCnts := 0
  TotalRXBits := 0
  RXUpdateBits := 0
  RXPktUpdateCnts := 0
  TotalRxCounts := 0
  TotalRxErrorBits := 0
  IsRxRssi := 0
  RXRecvPktCnts := 0
  ber := 0
  RxRssi := 0
  pBTInfo := 0

/-! ## Observations used to state the properties -/

/-- Declared width in bits of the scalar slot `i` of the parameter block, from the
conversions in `bt_index2param`. -/
def slotBits (i : Int) : Nat :=
  if i = 4 ∨ i = 9 then 16
  else if i = 2 ∨ i = 3 ∨ i = 14 then 32
  else if i = 11 then 64
  else 8

/-- Minimal number of hex digits with which `bt_index2print` renders the scalar
slot `i` (the `W` of its `0x%0Wx`). -/
def slotDigits (i : Int) : Nat :=
  if i = 4 ∨ i = 9 then 4
  else if i = 11 then 12
  else if i = 14 then 8
  else 2

/-- Content of the scalar slot `i` of the parameter block. -/
def slotValue (st : BT_PARAMETER) (i : Int) : Nat :=
  if i = 1 then st.mChannelNumber
  else if i = 2 then st.mPacketType
  else if i = 3 then st.mPayloadType
  else if i = 4 then st.mTxPacketCount
  else if i = 5 then st.mTxGainValue
  else if i = 6 then st.mWhiteningCoeffValue
  else if i = 7 then st.mTxGainIndex
  else if i = 8 then st.mTxDAC
  else if i = 9 then st.mPacketHeader
  else if i = 10 then st.mHoppingFixChannel
  else if i = 11 then st.mHitTarget
  else if i = 14 then st.Rtl8761Xtal
  else 0

/-- Scalar indices: those in `[0, 15)` other than the variable indices 0, 12, 13. -/
def isScalarIndex (i : Int) : Prop := (1 ≤ i ∧ i ≤ 11) ∨ i = 14

instance (i : Int) : Decidable (isScalarIndex i) := by
  unfold isScalarIndex
  infer_instance

/-- The characters `0x` that the formats put in front of a hex field. -/
def hexLead : CStr := [Char.ofNat 48, Char.ofNat 120]

/-- Capacity of the table behind the variable index 12 (gain) or 13 (DAC). -/
def tableCap (H : Header) (i : Int) : Nat :=
  if i = 12 then H.MAX_TXGAIN_TABLE_SIZE else H.MAX_TXDAC_TABLE_SIZE

/-- The table behind the variable index 12 (gain) or 13 (DAC). -/
def tableOf (st : BT_PARAMETER) (i : Int) : Nat → Nat :=
  if i = 12 then st.TXGainTable else st.TXDACTable

/-- The parameter block with the table behind index 12 or 13 replaced. -/
def withTable (st : BT_PARAMETER) (i : Int) (t : Nat → Nat) : BT_PARAMETER :=
  if i = 12 then { st with TXGainTable := t } else { st with TXDACTable := t }

/-- The command text `0,7,7,...,7` with `n` value tokens `7`: an index-0 pair. -/
def rawCommand (n : Nat) : CStr := "0".toList ++ (List.replicate n ",7".toList).flatten

/-- An invalid pair of a set-param command: its index token decodes outside
`[0, 15)` (bad index), or the number of value tokens is wrong for the index: not
exactly one for a scalar index, fewer than two for the variable indices 0, 12,
13 (pairs of fewer than `2 ^ 16` tokens). -/
def wrongPair (H : Header) (g : CStr) : Prop :=
  match tokens H.STR_BT_MP_PARAM_DELIM g with
  | [] => False
  | ti :: vals =>
    (toInt32 (strtol H ti).1 < 0 ∨ 15 ≤ toInt32 (strtol H ti).1) ∨
    (vals.length + 1 < 2 ^ 16 ∧
      ((isScalarIndex (toInt32 (strtol H ti).1) ∧ vals.length ≠ 1) ∨
       ((toInt32 (strtol H ti).1 = 0 ∨ toInt32 (strtol H ti).1 = 12 ∨
          toInt32 (strtol H ti).1 = 13) ∧ vals.length < 2)))

instance (H : Header) (g : CStr) : Decidable (wrongPair H g) := by
  unfold wrongPair
  split <;> infer_instance

/-- A token decoded by `strtol` and converted to `uint8_t`. -/
def tok8 (H : Header) (t : CStr) : Nat := toUnsigned 8 (strtol H t).1

/-- A token decoded by `strtol` and converted to `uint32_t`. -/
def tok32 (H : Header) (t : CStr) : Nat := toUnsigned 32 (strtol H t).1

/-- The register type a register command selects: its first token as `uint8_t`,
0 when the command has no token. -/
def regType (H : Header) (ts : List CStr) : Nat :=
  match ts with
  | [] => 0
  | t :: _ => tok8 H t

/-- The read/write flag of a register command: its second token as `uint8_t`,
0 when the command has fewer than two tokens. -/
def regFlag (H : Header) (ts : List CStr) : Nat :=
  match ts with
  | _ :: t :: _ => tok8 H t
  | _ => 0

/-- The number of fields a register command must have: 5, one more for a BB
register (page), one more when the flag is 1 (data). -/
def regFieldCount (H : Header) (ts : List CStr) : Nat :=
  5 + (if regType H ts = H.BB_REG then 1 else 0) + (if regFlag H ts = 1 then 1 else 0)

/-- One call of the register accessor, with its arguments. -/
inductive RegCall where
  | get (type page address msb lsb : Nat)
  | set (type page address msb lsb data : Nat)
deriving DecidableEq, Repr

/-- A register accessor that only records its calls: the device state is the list
of calls made so far; reads return `getCode` and `getData`, writes `setCode`. -/
def recorder (getCode : Int) (getData : Nat) (setCode : Int) : RegAccess (List RegCall) where
  GetRegMaskBits := fun log t p a m l _ ↦ (getCode, getData, log ++ [RegCall.get t p a m l])
  SetRegMaskBits := fun log t p a m l d ↦ (setCode, log ++ [RegCall.set t p a m l d])

/-- An HCI exchange that only records what is sent: the device state is the list
of `(opcode, length, payload)` sent so far; every exchange returns `code` and
the event bytes `ev`. -/
def hciRecorder (code : Int) (ev : List Nat) : HciAccess (List (Nat × Nat × List Nat)) where
  SendHciCommandWithEvent := fun log op len payload _ ↦
    (code, (fun i ↦ ev.getD i 0), ev.length, log ++ [(op, len, payload)])

/-- A device that only records its calls: the device state is the list of plain
calls made so far (session calls leave it as it is); every call returns `code`
and a session call leaves the parameter block and the report as they are. -/
def logDevice (code : Int) : BT_DEVICE (List DeviceCall) where
  call := fun log c ↦ (code, log ++ [c])
  session := fun log _ param report ↦ (code, log, param, report)
  GetChipVersionInfo := fun log ↦ (code, log)
  pBTInfo := fun _ ↦ 0

/-- A dispatcher that only counts its invocations in the device state and
returns `code`. -/
def tickDispatcher (code : Int) : BT_MODULE Nat → Int × BT_MODULE Nat :=
  fun m ↦ (code, { m with pBtDevice := m.pBtDevice + 1 })

/-- The module made of the zero parameter block, the zero report and the device
state `d`. -/
def zeroModule {δ : Type} (d : δ) : BT_MODULE δ where
  pBtParam := zeroParam
  pModuleBtReport := zeroReport
  pBtDevice := d

/-- A token decoded by `strtol` and converted to `uint16_t`. -/
def tok16 (H : Header) (t : CStr) : Nat := toUnsigned 16 (strtol H t).1

/-- A module over the recording device: empty call log, zero parameter block
with the action ordinal `item`, and a session report that a session has filled,
with the bit error rate pattern `ber`. -/
def usedModule (item : Int) (ber : Nat) : BT_MODULE (List DeviceCall) where
  pBtParam := { zeroParam with ParameterIndex := item }
  pModuleBtReport :=
    { TotalTXBits := 800, TXUpdateBits := 80, TotalTxCounts := 10, TXPktUpdateCnts := 1,
      TotalRXBits := 1600, RXUpdateBits := 160, RXPktUpdateCnts := 2, TotalRxCounts := 20,
      TotalRxErrorBits := 3, IsRxRssi := -42, RXRecvPktCnts := 19, ber := ber, RxRssi := 0,
      pBTInfo := 0 }
  pBtDevice := []

/-- A device whose `SetHciReset` returns `bad` and whose other calls return 0;
the device state is the list of the codes returned so far, one per call. -/
def resetFails (bad : Int) : BT_DEVICE (List Int) where
  call := fun log c ↦
    match c with
    | DeviceCall.SetHciReset _ => (bad, log ++ [bad])
    | _ => (0, log ++ [0])
  session := fun log _ param report ↦ (0, log ++ [0], param, report)
  GetChipVersionInfo := fun log ↦ (0, log ++ [0])
  pBTInfo := fun _ ↦ 0

/-- A device that counts the calls made through its function table in the device
state; every call returns `code`, and a session call leaves the parameter block
and the report as they are. -/
def countDevice (code : Int) : BT_DEVICE Nat where
  call := fun n _ ↦ (code, n + 1)
  session := fun n _ param report ↦ (code, n + 1, param, report)
  GetChipVersionInfo := fun n ↦ (code, n + 1)
  pBTInfo := fun _ ↦ 0

/-- The module made of the zero parameter block with the action ordinal `item`,
the zero report and the device state `d`. -/
def actionModule {δ : Type} (item : Int) (d : δ) : BT_MODULE δ where
  pBtParam := { zeroParam with ParameterIndex := item }
  pModuleBtReport := zeroReport
  pBtDevice := d

/-- The outcome `r` of the dispatcher on the module `m` is that of exactly one
call through the function table: the returned code is the code of that call, and
the device state is the one that call leaves when made on the device state of
`m`. -/
def oneDeviceCall {δ : Type} (D : BT_DEVICE δ) (m : BT_MODULE δ) (r : Int × BT_MODULE δ) : Prop :=
  (∃ c : DeviceCall,
    r.1 = (D.call m.pBtDevice c).1 ∧ r.2.pBtDevice = (D.call m.pBtDevice c).2) ∨
  (∃ s : SessionCall,
    r.1 = (D.session m.pBtDevice s m.pBtParam m.pModuleBtReport).1 ∧
    r.2.pBtDevice = (D.session m.pBtDevice s m.pBtParam m.pModuleBtReport).2.1)

/-- The case labels of the thirteen "set" actions of the dispatcher. -/
def ActionTags.setLabels (A : ActionTags) : List Int :=
  [A.SETTXGAINTABLE, A.SETTXDACTABLE, A.SET_TXCHANNEL, A.SET_RXCHANNEL,
   A.SET_POWERGAININDEX, A.SET_POWERGAIN, A.SET_POWERDAC, A.SET_PAYLOADTYPE,
   A.SET_WHITENINGCOFFENABLE, A.SET_PACKETTYPE, A.SET_HITTARGET, A.SET_TESTMODE,
   A.SET_MUTIRXENABLE]

/-- Every scalar field of the parameter block holds a value of its C type. -/
def inRange (st : BT_PARAMETER) : Prop :=
  st.mChannelNumber < 2 ^ 8 ∧ st.mPacketType < 2 ^ 32 ∧ st.mPayloadType < 2 ^ 32 ∧
  st.mTxPacketCount < 2 ^ 16 ∧ st.mTxGainValue < 2 ^ 8 ∧ st.mWhiteningCoeffValue < 2 ^ 8 ∧
  st.mTxGainIndex < 2 ^ 8 ∧ st.mTxDAC < 2 ^ 8 ∧ st.mPacketHeader < 2 ^ 16 ∧
  st.mHoppingFixChannel < 2 ^ 8 ∧ st.mHitTarget < 2 ^ 64 ∧ st.Rtl8761Xtal < 2 ^ 32

instance (st : BT_PARAMETER) : Decidable (inRange st) := by
  unfold inRange
  infer_instance

/-- The parameter block that a run of the inner loop of `BT_SetParam` leaves, on
either exit, holds values of its C types. -/
def scanInRange (r : Except BT_PARAMETER PairScan) : Prop :=
  match r with
  | .ok s1 => inRange s1.param
  | .error st => inRange st

/-- Two runs of the inner loop of `BT_SetParam` over the same `m` tokens of a
group, started with different `index` and `value`, agree: both stop with the
same parameter block, or both end with the same count, flag and parameter block,
the same `index` once a token was read and the same `value` once two were. -/
def scanAgree (m : Nat) (r r' : Except BT_PARAMETER PairScan) : Prop :=
  match r, r' with
  | .error a, .error b => a = b
  | .ok a, .ok b =>
    a.params_count = b.params_count ∧ a.var_pair = b.var_pair ∧ a.param = b.param ∧
    a.params_count = m % 2 ^ 16 ∧ (1 ≤ m → a.index = b.index) ∧ (2 ≤ m → a.value = b.value)
  | _, _ => False

/-- The raw-HCI command `1,254,7,...,7` with 254 data tokens `7`. -/
def hciFull : CStr := "1,254".toList ++ (List.replicate 254 ",7".toList).flatten

/-- The `j`-th of the six fields that `BT_SetParam1` stores, in the order of its
tokens. -/
def param1Field (st : BT_PARAMETER) (j : Nat) : Nat :=
  match j with
  | 0 => st.mChannelNumber
  | 1 => st.mPacketType
  | 2 => st.mPayloadType
  | 3 => st.mTxPacketCount
  | 4 => st.mTxGainValue
  | _ => st.mWhiteningCoeffValue

/-- The token `t` decoded and converted to the type of the `j`-th field of
`BT_SetParam1`. -/
def param1Decode (H : Header) (j : Nat) (t : CStr) : Nat :=
  match j with
  | 0 => tok8 H t
  | 1 => tok32 H t
  | 2 => tok32 H t
  | 3 => tok16 H t
  | 4 => tok8 H t
  | _ => tok8 H t

/-! ## Lemmas on the C library model -/

theorem isEmpty_false_of_ne_nil {α : Type} (l : List α) (h : l ≠ []) : l.isEmpty = false := by
  cases l with
  | nil => exact absurd rfl h
  | cons a as => rfl

theorem tokensAux_open (delim : CStr) :
    ∀ (s cur : CStr), cur ≠ [] →
      tokensAux delim s cur =
        (cur.reverse ++ s.takeWhile (fun c ↦ !delim.contains c)) ::
          tokensAux delim ((s.dropWhile (fun c ↦ !delim.contains c)).drop 1) [] := by
  intro s
  induction s with
  | nil =>
    intro cur hcur
    have hE := isEmpty_false_of_ne_nil cur hcur
    simp only [tokensAux, hE, Bool.false_eq_true, if_false, List.takeWhile_nil,
      List.append_nil, List.dropWhile_nil, List.drop_nil, List.isEmpty_nil, if_true]
  | cons c cs ih =>
    intro cur hcur
    have hE := isEmpty_false_of_ne_nil cur hcur
    by_cases hc : delim.contains c = true
    · have hp : ¬ ((fun c ↦ !delim.contains c) c = true) := by simp only [hc]; decide
      rw [List.takeWhile_cons_of_neg (p := fun c ↦ !delim.contains c) hp,
        List.dropWhile_cons_of_neg (p := fun c ↦ !delim.contains c) hp, tokensAux, if_pos hc]
      simp only [hE, Bool.false_eq_true, if_false, List.append_nil, List.drop_succ_cons,
        List.drop_zero]
    · have hc2 : delim.contains c = false := by
        cases h : delim.contains c with
        | true => exact absurd h hc
        | false => rfl
      have hp : (fun c ↦ !delim.contains c) c = true := by simp only [hc2]; decide
      rw [List.takeWhile_cons_of_pos (p := fun c ↦ !delim.contains c) hp,
        List.dropWhile_cons_of_pos (p := fun c ↦ !delim.contains c) hp, tokensAux, if_neg hc,
        ih (c :: cur) (List.cons_ne_nil _ _)]
      simp only [List.reverse_cons, List.append_assoc, List.singleton_append]

theorem tokensAux_skip (delim : CStr) :
    ∀ s : CStr, tokensAux delim s [] =
      tokensAux delim (s.dropWhile (fun c ↦ delim.contains c)) [] := by
  intro s
  induction s with
  | nil => rfl
  | cons c cs ih =>
    by_cases hc : delim.contains c = true
    · have hp : (fun c ↦ delim.contains c) c = true := hc
      rw [tokensAux, if_pos hc, List.dropWhile_cons_of_pos hp]
      simp only [List.isEmpty_nil, if_true]
      exact ih
    · have hp : ¬ ((fun c ↦ delim.contains c) c = true) := hc
      rw [List.dropWhile_cons_of_neg hp]

theorem dropWhile_head_false {α : Type} (q : α → Bool) :
    ∀ (s : List α) (c : α) (cs : List α), s.dropWhile q = c :: cs → q c = false := by
  intro s
  induction s with
  | nil => intro c cs h; simp at h
  | cons a as ih =>
    intro c cs h
    by_cases ha : q a = true
    · rw [List.dropWhile_cons_of_pos ha] at h
      exact ih c cs h
    · rw [List.dropWhile_cons_of_neg ha] at h
      injection h with h1 h2
      subst h1
      simpa using ha

/-- The token list is what iterating `strtok_r` yields: the first token it cuts,
followed by the tokens of what it leaves in `save`. -/
theorem tokens_eq_strtok_r (delim s : CStr) :
    tokens delim s =
      match strtok_r delim s with
      | none => []
      | some (t, save) => t :: tokens delim save := by
  unfold tokens strtok_r
  rw [tokensAux_skip]
  cases h : s.dropWhile (fun c ↦ delim.contains c) with
  | nil => rfl
  | cons c cs =>
    have hc : delim.contains c = false :=
      dropWhile_head_false (fun c ↦ delim.contains c) s c cs h
    have hc1 : ¬ (delim.contains c = true) := by rw [hc]; decide
    have hp : (fun c ↦ !delim.contains c) c = true := by simp only [hc]; decide
    simp only
    rw [tokensAux, if_neg hc1, tokensAux_open delim cs [c] (List.cons_ne_nil _ _),
      List.takeWhile_cons_of_pos (p := fun c ↦ !delim.contains c) hp,
      List.dropWhile_cons_of_pos (p := fun c ↦ !delim.contains c) hp]
    simp only [List.reverse_cons, List.reverse_nil, List.nil_append, List.singleton_append]

theorem digitVal_digitChar (m : Nat) (hm : m < 16) : digitVal (Nat.digitChar m) = some m := by
  interval_cases m <;> decide

theorem scanDigits_digit (b m : Nat) (hm : m < b) (hb : b ≤ 16) (cs : CStr) (acc : Nat) :
    scanDigits b (Nat.digitChar m :: cs) acc = scanDigits b cs (acc * b + m) := by
  have h16 : m < 16 := by omega
  simp [scanDigits, digitVal_digitChar m h16, hm]

theorem scanDigits_toDigitsCore (b : Nat) (hb2 : 2 ≤ b) (hb : b ≤ 16) :
    ∀ (fuel n : Nat) (ds : CStr), n < fuel →
      scanDigits b (Nat.toDigitsCore b fuel n ds) 0 = scanDigits b ds n := by
  intro fuel
  induction fuel with
  | zero => intro n ds h; omega
  | succ f ih =>
    intro n ds hn
    have hmod : n % b < b := Nat.mod_lt _ (by omega)
    by_cases hq : n / b = 0
    · have hlt : n < b := (Nat.div_eq_zero_iff (by omega : 0 < b)).mp hq
      simp only [Nat.toDigitsCore, hq, if_true]
      rw [scanDigits_digit b _ hmod hb, Nat.mod_eq_of_lt hlt]
      simp
    · simp only [Nat.toDigitsCore, hq, if_false]
      have hlt : n / b < f := by
        have : n / b < n := Nat.div_lt_self (by
          rcases Nat.eq_zero_or_pos n with h | h
          · subst h; simp at hq
          · exact h) (by omega)
        omega
      rw [ih (n / b) _ hlt, scanDigits_digit b _ hmod hb, Nat.div_add_mod']

theorem scanDigits_fmt_x (n : Nat) : scanDigits 16 (fmt_x n) 0 = (n, []) := by
  unfold fmt_x Nat.toDigits
  rw [scanDigits_toDigitsCore 16 (by decide) (by decide) (n + 1) n [] (by omega)]
  rfl

theorem scanDigits_zeros (b : Nat) (hb : 0 < b) (k : Nat) (l : CStr) :
    scanDigits b (List.replicate k (Char.ofNat 48) ++ l) 0 = scanDigits b l 0 := by
  induction k with
  | zero => rfl
  | succ k ih =>
    have h0 : digitVal (Char.ofNat 48) = some 0 := by decide
    simp only [List.replicate_succ, List.cons_append, scanDigits, h0, hb, if_true]
    simpa using ih

theorem scanDigits_fmt_0x (w n : Nat) : scanDigits 16 (fmt_0x w n) 0 = (n, []) := by
  unfold fmt_0x
  rw [scanDigits_zeros 16 (by decide), scanDigits_fmt_x]

theorem toDigitsCore_head (b : Nat) (hb2 : 2 ≤ b) :
    ∀ (fuel n : Nat) (ds : CStr), n < fuel →
      ∃ m rest, m < b ∧ Nat.toDigitsCore b fuel n ds = Nat.digitChar m :: rest := by
  intro fuel
  induction fuel with
  | zero => intro n ds h; omega
  | succ f ih =>
    intro n ds hn
    by_cases hq : n / b = 0
    · exact ⟨n % b, ds, Nat.mod_lt _ (by omega), by simp [Nat.toDigitsCore, hq]⟩
    · have hpos : 0 < n := by
        rcases Nat.eq_zero_or_pos n with h | h
        · subst h; simp at hq
        · exact h
      have hlt : n / b < f := by
        have : n / b < n := Nat.div_lt_self hpos (by omega)
        omega
      obtain ⟨m, rest, hm, he⟩ := ih (n / b) (Nat.digitChar (n % b) :: ds) hlt
      exact ⟨m, rest, hm, by simp [Nat.toDigitsCore, hq, he]⟩

theorem fmt_0x_head (w n : Nat) :
    ∃ m rest, m < 16 ∧ fmt_0x w n = Nat.digitChar m :: rest := by
  obtain ⟨m, rest, hm, he⟩ := toDigitsCore_head 16 (by decide) (n + 1) n [] (by omega)
  unfold fmt_0x fmt_x Nat.toDigits
  rw [he]
  cases hk : w - (Nat.digitChar m :: rest).length with
  | zero => exact ⟨m, rest, hm, by simp⟩
  | succ k => exact ⟨0, List.replicate k (Char.ofNat 48) ++ Nat.digitChar m :: rest, by decide, rfl⟩

/-- Decoding a rendered field `0x%0Wx` with `strtoull(_, NULL, 16)` gives the
rendered value back. -/
theorem strtoull_hexField (w n : Nat) (hn : n < 2 ^ 64) :
    strtoull (hexLead ++ fmt_0x w n) 16 = n := by
  have hscan := scanDigits_fmt_0x w n
  obtain ⟨m, rest, hm, he⟩ := fmt_0x_head w n
  rw [he] at hscan
  have hsc : scanInt 16 (hexLead ++ fmt_0x w n) =
      { neg := false, mag := n, rest := [], conv := true } := by
    rw [he]
    have h1 : isspace (Char.ofNat 48) = false := by decide
    have h2 : (Char.ofNat 48).toNat = 48 := by decide
    have h3 : (Char.ofNat 120).toNat = 120 := by decide
    simp [hexLead, scanInt, startsHex, List.dropWhile, h1, h2, h3, digitVal_digitChar m hm, hm, hscan]
  simp only [strtoull, hsc]
  have h : ¬ ((2:Nat) ^ 64 ≤ n) := by omega
  rw [if_neg h]
  simp

theorem toUnsigned_lt (bits : Nat) (z : Int) : toUnsigned bits z < 2 ^ bits := by
  unfold toUnsigned
  have hpos : (0 : Int) < 2 ^ bits := by positivity
  have h1 := Int.emod_nonneg z (ne_of_gt hpos)
  have h2 := Int.emod_lt_of_pos z hpos
  zify
  rw [Int.toNat_of_nonneg h1]
  exact_mod_cast h2

theorem toUnsigned_lt_64 (bits : Nat) (hb : bits ≤ 64) (z : Int) : toUnsigned bits z < 2 ^ 64 :=
  lt_of_lt_of_le (toUnsigned_lt bits z) (Nat.pow_le_pow_right (by decide) hb)

/-! ## Lemmas on the parameter block -/

theorem isScalarIndex_cases {i : Int} (h : isScalarIndex i) :
    i = 1 ∨ i = 2 ∨ i = 3 ∨ i = 4 ∨ i = 5 ∨ i = 6 ∨ i = 7 ∨ i = 8 ∨ i = 9 ∨
      i = 10 ∨ i = 11 ∨ i = 14 := by
  unfold isScalarIndex at h
  omega

theorem slotBits_le_64 (i : Int) : slotBits i ≤ 64 := by
  unfold slotBits
  split_ifs <;> decide

theorem bt_index2print_scalar (H : Header) (st : BT_PARAMETER) (i : Int) (h : isScalarIndex i) :
    bt_index2print H st i = some (printHead H i ++ fmt_0x (slotDigits i) (slotValue st i)) := by
  rcases isScalarIndex_cases h with
    rfl | rfl | rfl | rfl | rfl | rfl | rfl | rfl | rfl | rfl | rfl | rfl <;> rfl

theorem slotValue_bt_index2param (st : BT_PARAMETER) (i v : Int) (h : isScalarIndex i) :
    slotValue (bt_index2param st i v) i = toUnsigned (slotBits i) v := by
  rcases isScalarIndex_cases h with
    rfl | rfl | rfl | rfl | rfl | rfl | rfl | rfl | rfl | rfl | rfl | rfl <;> rfl


/-! ## Lemmas on the loops of `BT_SetParam` -/

/-- Tokens behind the second one of a pair whose index is not variable only
advance the counter. -/
theorem paramLoop_scalar_tail (H : Header) :
    ∀ (ts : List CStr) (s : PairScan), s.var_pair = false → 2 ≤ s.params_count →
      s.params_count + ts.length < 2 ^ 16 →
      paramLoop H ts s = .ok { s with params_count := s.params_count + ts.length } := by
  intro ts
  induction ts with
  | nil => intro s _ _ _; rfl
  | cons t ts ih =>
    intro s hv hc hlen
    simp only [List.length_cons] at hlen
    have h0 : s.params_count ≠ 0 := by omega
    have h1 : s.params_count ≠ 1 := by omega
    have hstep : paramStep H s t = .ok s := by
      simp [paramStep, h0, h1, hv]
    have hmod : (s.params_count + 1) % 2 ^ 16 = s.params_count + 1 :=
      Nat.mod_eq_of_lt (by omega)
    simp only [paramLoop, hstep, hmod]
    have h := ih { s with params_count := s.params_count + 1 } hv
      (by show 2 ≤ s.params_count + 1; omega)
      (by show s.params_count + 1 + ts.length < 2 ^ 16; omega)
    rw [h]
    simp only [List.length_cons]
    congr 2
    omega

/-- The inner loop on a pair whose first token decodes to a scalar index. -/
theorem paramLoop_scalar (H : Header) (t0 : CStr) (vals : List CStr) (idx0 v0 : Int)
    (st : BT_PARAMETER) (hi : isScalarIndex (toInt32 (strtol H t0).1))
    (hlen : vals.length + 1 < 2 ^ 16) :
    paramLoop H (t0 :: vals)
        { params_count := 0, index := idx0, var_pair := false, value := v0, param := st } =
      .ok { params_count := vals.length + 1, index := toInt32 (strtol H t0).1, var_pair := false,
            value := (match vals with | [] => v0 | tv :: _ => strtoll tv 0), param := st } := by
  have hc := isScalarIndex_cases hi
  have hr : ¬ (toInt32 (strtol H t0).1 < 0 ∨ toInt32 (strtol H t0).1 ≥ BT_PARAM_IDX_NUM) := by
    unfold BT_PARAM_IDX_NUM; omega
  have hv : ¬ (toInt32 (strtol H t0).1 = 0 ∨ toInt32 (strtol H t0).1 = 12 ∨
      toInt32 (strtol H t0).1 = 13) := by omega
  cases vals with
  | nil => simp [paramLoop, paramStep, hr, hv]
  | cons tv rest =>
    simp only [List.length_cons] at hlen
    have h := paramLoop_scalar_tail H rest
      { params_count := 2, index := toInt32 (strtol H t0).1, var_pair := false,
        value := strtoll tv 0, param := st } rfl (le_refl 2)
      (by show 2 + rest.length < 2 ^ 16; omega)
    simp [paramLoop, paramStep, hr, hv, h]
    omega


/-- A pair `index,value` with a scalar index: the outer loop stores the value and
goes on with the remaining pairs. -/
theorem pairLoop_scalar_one (H : Header) (g ti tv : CStr) (rest : List CStr) (idx0 v0 : Int)
    (st : BT_PARAMETER) (hg : tokens H.STR_BT_MP_PARAM_DELIM g = [ti, tv])
    (hi : isScalarIndex (toInt32 (strtol H ti).1)) :
    pairLoop H (g :: rest) idx0 v0 st =
      pairLoop H rest (toInt32 (strtol H ti).1) (strtoll tv 0)
        (bt_index2param st (toInt32 (strtol H ti).1) (strtoll tv 0)) := by
  have h := paramLoop_scalar H ti [tv] idx0 v0 st hi (by simp)
  rw [pairLoop, hg, h]
  simp

/-- A pair with a scalar index and a number of value tokens other than one is a
wrong pair format: nothing is written. -/
theorem pairLoop_scalar_wrong (H : Header) (g ti : CStr) (vals : List CStr) (rest : List CStr)
    (idx0 v0 : Int) (st : BT_PARAMETER)
    (hg : tokens H.STR_BT_MP_PARAM_DELIM g = ti :: vals)
    (hi : isScalarIndex (toInt32 (strtol H ti).1))
    (hlen : vals.length + 1 < 2 ^ 16) (hne : vals.length ≠ 1) :
    pairLoop H (g :: rest) idx0 v0 st =
      { rtn := H.FUNCTION_PARAMETER_ERROR
        notify := codeResponse H H.STR_BT_MP_SET_PARAM H.FUNCTION_PARAMETER_ERROR
        param := st } := by
  have h := paramLoop_scalar H ti vals idx0 v0 st hi hlen
  rw [pairLoop, hg, h]
  have h2 : ¬ (vals.length + 1 = 2) := by omega
  simp [h2]

/-- A pair whose first token decodes to an index outside `[0, 15)` ends the
command with a parameter error; nothing is written. -/
theorem pairLoop_bad_index (H : Header) (g ti : CStr) (vals : List CStr) (rest : List CStr)
    (idx0 v0 : Int) (st : BT_PARAMETER)
    (hg : tokens H.STR_BT_MP_PARAM_DELIM g = ti :: vals)
    (hi : toInt32 (strtol H ti).1 < 0 ∨ 15 ≤ toInt32 (strtol H ti).1) :
    pairLoop H (g :: rest) idx0 v0 st =
      { rtn := H.FUNCTION_PARAMETER_ERROR
        notify := codeResponse H H.STR_BT_MP_SET_PARAM H.FUNCTION_PARAMETER_ERROR
        param := st } := by
  have hr : toInt32 (strtol H ti).1 < 0 ∨ toInt32 (strtol H ti).1 ≥ BT_PARAM_IDX_NUM := by
    unfold BT_PARAM_IDX_NUM; omega
  rw [pairLoop, hg]
  simp [paramLoop, paramStep, hr]

/-! ## C1: get after set on a scalar slot -/

/-- C1. For a scalar index `i` (1..11 or 14): after `BT_SetParam` on the single
pair `i,v` (which succeeds), `BT_GetParam` on `i` succeeds and renders
`<name><delim>i<delim>0x<hex>`, where the field `0x<hex>` decodes (as
`strtoull` base 16 reads it) to `v` truncated to the declared width of slot `i`.
Here `v` is the integer that `strtoll` decodes from the value token. -/
theorem C1_get_after_set_roundtrip (H : Header) (st : BT_PARAMETER) (p q buf g ti tv tq : CStr)
    (rest : List CStr) (i : Int)
    (hp : tokens H.STR_BT_MP_PAIR_DELIM p = [g])
    (hg : tokens H.STR_BT_MP_PARAM_DELIM g = [ti, tv])
    (hi : toInt32 (strtol H ti).1 = i)
    (hscalar : isScalarIndex i)
    (v : Int) (hv : strtoll tv 0 = v)
    (hq : tokens H.STR_BT_MP_PARAM_DELIM q = tq :: rest)
    (hqe : (strtol H tq).2 = [])
    (hqi : toInt32 (strtol H tq).1 = i) :
    (BT_SetParam H st p).rtn = H.BT_FUNCTION_SUCCESS ∧
    (BT_GetParam H (BT_SetParam H st p).param q buf).rtn = H.BT_FUNCTION_SUCCESS ∧
    ∃ field : CStr,
      (BT_GetParam H (BT_SetParam H st p).param q buf).notify =
        H.STR_BT_MP_GET_PARAM ++ H.STR_BT_MP_RESULT_DELIM ++ fmt_d i ++
          H.STR_BT_MP_RESULT_DELIM ++ field ∧
      strtoull field 16 = toUnsigned (slotBits i) v := by
  subst hi hv
  have hset : BT_SetParam H st p = pairLoop H [] (toInt32 (strtol H ti).1) (strtoll tv 0)
      (bt_index2param st (toInt32 (strtol H ti).1) (strtoll tv 0)) := by
    rw [BT_SetParam, hp, pairLoop_scalar_one H g ti tv [] _ _ st hg hscalar]
  have hc := isScalarIndex_cases hscalar
  have hr : ¬ (toInt32 (strtol H tq).1 < 0 ∨ toInt32 (strtol H tq).1 ≥ BT_PARAM_IDX_NUM) := by
    unfold BT_PARAM_IDX_NUM; omega
  have hget : ∀ st1 : BT_PARAMETER, BT_GetParam H st1 q buf =
      { rtn := H.BT_FUNCTION_SUCCESS
        notify := printHead H (toInt32 (strtol H ti).1) ++
          fmt_0x (slotDigits (toInt32 (strtol H ti).1)) (slotValue st1 (toInt32 (strtol H ti).1))
        param := st1 } := by
    intro st1
    simp only [BT_GetParam, hq, hqe, hr, ne_eq, not_true_eq_false, false_or, if_false]
    rw [hqi, bt_index2print_scalar H st1 _ hscalar]
    rfl
  refine ⟨by rw [hset]; rfl, by rw [hget], ?_⟩
  refine ⟨hexLead ++ fmt_0x (slotDigits (toInt32 (strtol H ti).1))
    (toUnsigned (slotBits (toInt32 (strtol H ti).1)) (strtoll tv 0)), ?_, ?_⟩
  · rw [hget, hset]
    simp only [pairLoop, slotValue_bt_index2param st _ _ hscalar, printHead, hexLead,
      List.append_assoc]
  · exact strtoull_hexField _ _ (toUnsigned_lt_64 _ (slotBits_le_64 _) _)

/-- C1, a concrete instance: `4,70000` then get `4` on the reference header. -/
theorem C1_get_after_set_roundtrip_witness :
    (BT_SetParam refHeader zeroParam "4,70000".toList).rtn = refHeader.BT_FUNCTION_SUCCESS ∧
    (BT_GetParam refHeader (BT_SetParam refHeader zeroParam "4,70000".toList).param
      "4".toList []).rtn = refHeader.BT_FUNCTION_SUCCESS ∧
    ∃ field : CStr,
      (BT_GetParam refHeader (BT_SetParam refHeader zeroParam "4,70000".toList).param
        "4".toList []).notify =
        refHeader.STR_BT_MP_GET_PARAM ++ refHeader.STR_BT_MP_RESULT_DELIM ++ fmt_d 4 ++
          refHeader.STR_BT_MP_RESULT_DELIM ++ field ∧
      strtoull field 16 = toUnsigned (slotBits 4) 70000 :=
  C1_get_after_set_roundtrip refHeader zeroParam "4,70000".toList "4".toList []
    "4,70000".toList "4".toList "70000".toList "4".toList [] 4
    (by decide) (by decide) (by decide) (by decide) 70000 (by decide) (by decide) (by decide)
    (by decide)

/-! ## C2: indices outside the table -/

/-- C2. When the index token decodes to an `int` outside `[0, 15)`, `BT_GetParam`
returns `FUNCTION_PARAMETER_ERROR` and `BT_SetParam` on the single pair
`i,v...` returns `FUNCTION_PARAMETER_ERROR`; both leave the parameter block as
it was. -/
theorem C2_index_out_of_range (H : Header) (st : BT_PARAMETER) (p q buf g ti tq : CStr)
    (vals rest : List CStr)
    (hp : tokens H.STR_BT_MP_PAIR_DELIM p = [g])
    (hg : tokens H.STR_BT_MP_PARAM_DELIM g = ti :: vals)
    (hi : toInt32 (strtol H ti).1 < 0 ∨ 15 ≤ toInt32 (strtol H ti).1)
    (hq : tokens H.STR_BT_MP_PARAM_DELIM q = tq :: rest)
    (hqi : toInt32 (strtol H tq).1 < 0 ∨ 15 ≤ toInt32 (strtol H tq).1) :
    (BT_GetParam H st q buf).rtn = H.FUNCTION_PARAMETER_ERROR ∧
    (BT_GetParam H st q buf).param = st ∧
    (BT_SetParam H st p).rtn = H.FUNCTION_PARAMETER_ERROR ∧
    (BT_SetParam H st p).param = st := by
  have hr : toInt32 (strtol H tq).1 < 0 ∨ toInt32 (strtol H tq).1 ≥ BT_PARAM_IDX_NUM := by
    unfold BT_PARAM_IDX_NUM; omega
  have hset := pairLoop_bad_index H g ti vals [] (-1) 0 st hg hi
  refine ⟨?_, ?_, ?_, ?_⟩
  · simp [BT_GetParam, hq, hr]
  · simp [BT_GetParam, hq, hr]
  · rw [BT_SetParam, hp, hset]
  · rw [BT_SetParam, hp, hset]

/-- C2, the scenario `99,5` (and get `99`) on the reference header. -/
theorem C2_index_out_of_range_witness :
    (BT_GetParam refHeader zeroParam "99".toList []).rtn = refHeader.FUNCTION_PARAMETER_ERROR ∧
    (BT_GetParam refHeader zeroParam "99".toList []).param = zeroParam ∧
    (BT_SetParam refHeader zeroParam "99,5".toList).rtn = refHeader.FUNCTION_PARAMETER_ERROR ∧
    (BT_SetParam refHeader zeroParam "99,5".toList).param = zeroParam :=
  C2_index_out_of_range refHeader zeroParam "99,5".toList "99".toList [] "99,5".toList
    "99".toList "99".toList ["5".toList] [] (by decide) (by decide) (by decide) (by decide)
    (by decide)


/-! ## C3: the scenario `0,0|1,10|2,1` -/

theorem clampSigned_small (bits : Nat) (hb : 32 ≤ bits) (m : Nat) (rest : CStr)
    (hm : m < 2 ^ 31) :
    clampSigned bits { neg := false, mag := m, rest := rest, conv := true } = (m : Int) := by
  have h1 : (2 : Nat) ^ 31 ≤ 2 ^ (bits - 1) := Nat.pow_le_pow_right (by decide) (by omega)
  have h2 : m < 2 ^ (bits - 1) := lt_of_lt_of_le hm h1
  simp [clampSigned, h2]

/-- On a target whose `long` has at least 32 bits, `strtol` of a token that scans
completely to a small non-negative number returns that number. -/
theorem strtol_small (H : Header) (hb : 32 ≤ H.LONG_BITS) (t : CStr) (m : Nat)
    (hscan : scanInt 0 t = { neg := false, mag := m, rest := [], conv := true })
    (hm : m < 2 ^ 31) : strtol H t = ((m : Int), []) := by
  simp only [strtol, hscan, clampSigned_small H.LONG_BITS hb m [] hm]

/-- C3 (fails as stated). On the reference header, `0,0|1,10|2,1` applied to a
freshly initialised block does not succeed: `BT_SetParam` returns
`FUNCTION_PARAMETER_ERROR`. -/
theorem C3_scenario_rejected :
    (BT_SetParam refHeader (bt_mp_module_init refHeader zeroParam) "0,0|1,10|2,1".toList).rtn
        = refHeader.FUNCTION_PARAMETER_ERROR ∧
    (BT_SetParam refHeader (bt_mp_module_init refHeader zeroParam) "0,0|1,10|2,1".toList).rtn
        ≠ refHeader.BT_FUNCTION_SUCCESS := by
  decide

/-- C3 (amended). With `|` as pair delimiter and `,` as field delimiter, on a
freshly initialised block: `0,0|1,10|2,1` is rejected at its first pair (an
index-0 pair needs at least two value tokens) with `FUNCTION_PARAMETER_ERROR`,
the block is unchanged and index 1 still renders the default channel `0x0a`;
the command without that pair, `1,10|2,1`, succeeds, and afterwards index 1
renders `0x0a` and index 2 renders `0x01`. -/
theorem C3_scenario_amended (H : Header) (built : BT_PARAMETER) (buf : CStr)
    (hpair : H.STR_BT_MP_PAIR_DELIM = "|".toList)
    (hparam : H.STR_BT_MP_PARAM_DELIM = ",".toList)
    (hlong : 32 ≤ H.LONG_BITS) :
    (BT_SetParam H (bt_mp_module_init H built) "0,0|1,10|2,1".toList).rtn
        = H.FUNCTION_PARAMETER_ERROR ∧
    (BT_SetParam H (bt_mp_module_init H built) "0,0|1,10|2,1".toList).param
        = bt_mp_module_init H built ∧
    (BT_GetParam H (bt_mp_module_init H built) "1".toList buf).notify
        = H.STR_BT_MP_GET_PARAM ++ H.STR_BT_MP_RESULT_DELIM ++ "1".toList ++
            H.STR_BT_MP_RESULT_DELIM ++ "0x0a".toList ∧
    (BT_SetParam H (bt_mp_module_init H built) "1,10|2,1".toList).rtn
        = H.BT_FUNCTION_SUCCESS ∧
    (BT_GetParam H (BT_SetParam H (bt_mp_module_init H built) "1,10|2,1".toList).param
        "1".toList buf).notify
        = H.STR_BT_MP_GET_PARAM ++ H.STR_BT_MP_RESULT_DELIM ++ "1".toList ++
            H.STR_BT_MP_RESULT_DELIM ++ "0x0a".toList ∧
    (BT_GetParam H (BT_SetParam H (bt_mp_module_init H built) "1,10|2,1".toList).param
        "2".toList buf).notify
        = H.STR_BT_MP_GET_PARAM ++ H.STR_BT_MP_RESULT_DELIM ++ "2".toList ++
            H.STR_BT_MP_RESULT_DELIM ++ "0x01".toList := by
  have s0 : strtol H "0".toList = (((0 : Nat) : Int), []) :=
    strtol_small H hlong "0".toList 0 (by decide) (by decide)
  have s1 : strtol H "1".toList = (((1 : Nat) : Int), []) :=
    strtol_small H hlong "1".toList 1 (by decide) (by decide)
  have s2 : strtol H "2".toList = (((2 : Nat) : Int), []) :=
    strtol_small H hlong "2".toList 2 (by decide) (by decide)
  have i0 : toInt32 (strtol H "0".toList).1 = 0 := by rw [s0]; decide
  have i1 : toInt32 (strtol H "1".toList).1 = 1 := by rw [s1]; decide
  have i2 : toInt32 (strtol H "2".toList).1 = 2 := by rw [s2]; decide
  have e1 : (strtol H "1".toList).2 = [] := by rw [s1]
  have e2 : (strtol H "2".toList).2 = [] := by rw [s2]
  have t0 : tokens H.STR_BT_MP_PAIR_DELIM "0,0|1,10|2,1".toList =
      ["0,0".toList, "1,10".toList, "2,1".toList] := by rw [hpair]; decide
  have t1 : tokens H.STR_BT_MP_PAIR_DELIM "1,10|2,1".toList =
      ["1,10".toList, "2,1".toList] := by rw [hpair]; decide
  have g0 : tokens H.STR_BT_MP_PARAM_DELIM "0,0".toList = ["0".toList, "0".toList] := by
    rw [hparam]; decide
  have g1 : tokens H.STR_BT_MP_PARAM_DELIM "1,10".toList = ["1".toList, "10".toList] := by
    rw [hparam]; decide
  have g2 : tokens H.STR_BT_MP_PARAM_DELIM "2,1".toList = ["2".toList, "1".toList] := by
    rw [hparam]; decide
  have q1 : tokens H.STR_BT_MP_PARAM_DELIM "1".toList = ["1".toList] := by
    rw [hparam]; decide
  have q2 : tokens H.STR_BT_MP_PARAM_DELIM "2".toList = ["2".toList] := by
    rw [hparam]; decide
  have v10 : strtoll "10".toList 0 = 10 := by decide
  have v1 : strtoll "1".toList 0 = 1 := by decide
  have hbad : BT_SetParam H (bt_mp_module_init H built) "0,0|1,10|2,1".toList =
      { rtn := H.FUNCTION_PARAMETER_ERROR
        notify := codeResponse H H.STR_BT_MP_SET_PARAM H.FUNCTION_PARAMETER_ERROR
        param := bt_mp_module_init H built } := by
    rw [BT_SetParam, t0, pairLoop, g0]
    simp only [paramLoop, paramStep, i0, BT_PARAM_IDX_NUM]
    simp
  have hgood : BT_SetParam H (bt_mp_module_init H built) "1,10|2,1".toList =
      pairLoop H [] 2 1 (bt_index2param (bt_index2param (bt_mp_module_init H built) 1 10) 2 1) := by
    rw [BT_SetParam, t1,
      pairLoop_scalar_one H _ _ _ _ _ _ _ g1 (by rw [i1]; decide),
      pairLoop_scalar_one H _ _ _ _ _ _ _ g2 (by rw [i2]; decide), i1, i2, v10, v1]
  have hget1 : ∀ st1 : BT_PARAMETER, (BT_GetParam H st1 "1".toList buf).notify =
      printHead H 1 ++ fmt_0x 2 st1.mChannelNumber := by
    intro st1
    simp only [BT_GetParam, q1, e1, i1, BT_PARAM_IDX_NUM, bt_index2print]
    simp
  have hget2 : ∀ st1 : BT_PARAMETER, (BT_GetParam H st1 "2".toList buf).notify =
      printHead H 2 ++ fmt_0x 2 st1.mPacketType := by
    intro st1
    simp only [BT_GetParam, q2, e2, i2, BT_PARAM_IDX_NUM, bt_index2print]
    simp
  have f1 : fmt_d 1 = "1".toList := by decide
  have f2 : fmt_d 2 = "2".toList := by decide
  have x10 : fmt_0x 2 10 = "0a".toList := by decide
  have x1 : fmt_0x 2 (toUnsigned 32 1) = "01".toList := by decide
  have x8 : fmt_0x 2 (toUnsigned 8 10) = "0a".toList := by decide
  refine ⟨by rw [hbad], by rw [hbad], ?_, by rw [hgood]; rfl, ?_, ?_⟩
  · rw [hget1]
    simp only [bt_mp_module_init, printHead, f1, x10]
    simp
  · rw [hget1, hgood]
    simp only [pairLoop, bt_index2param, printHead, f1]
    simp [x8]
  · rw [hget2, hgood]
    simp only [pairLoop, bt_index2param, printHead, f2]
    simp [x1]

/-- C3 (amended), instance on the reference header. -/
theorem C3_scenario_amended_witness :
    (BT_SetParam refHeader (bt_mp_module_init refHeader zeroParam) "1,10|2,1".toList).rtn
        = refHeader.BT_FUNCTION_SUCCESS ∧
    (BT_GetParam refHeader
        (BT_SetParam refHeader (bt_mp_module_init refHeader zeroParam) "1,10|2,1".toList).param
        "2".toList []).notify
        = refHeader.STR_BT_MP_GET_PARAM ++ refHeader.STR_BT_MP_RESULT_DELIM ++ "2".toList ++
            refHeader.STR_BT_MP_RESULT_DELIM ++ "0x01".toList :=
  ⟨(C3_scenario_amended refHeader zeroParam [] (by decide) (by decide) (by decide)).2.2.2.1,
   (C3_scenario_amended refHeader zeroParam [] (by decide) (by decide) (by decide)).2.2.2.2.2⟩

/-! ## C4: arity of a pair with a scalar index -/

/-- C4. A single pair whose index token decodes to a scalar index (in `[0, 15)`,
not 0, 12, 13), with fewer than `2 ^ 16` tokens (`params_count` is a
`uint16_t`): `BT_SetParam` succeeds exactly when one value token follows the
index, and then stores that value in the slot; with no value token or with two
or more it returns `FUNCTION_PARAMETER_ERROR` and writes nothing. -/
theorem C4_scalar_pair_arity (H : Header) (st : BT_PARAMETER) (p g ti : CStr) (vals : List CStr)
    (hp : tokens H.STR_BT_MP_PAIR_DELIM p = [g])
    (hg : tokens H.STR_BT_MP_PARAM_DELIM g = ti :: vals)
    (hi : isScalarIndex (toInt32 (strtol H ti).1))
    (hlen : vals.length + 1 < 2 ^ 16)
    (hcodes : H.BT_FUNCTION_SUCCESS ≠ H.FUNCTION_PARAMETER_ERROR) :
    ((BT_SetParam H st p).rtn = H.BT_FUNCTION_SUCCESS ↔ vals.length = 1) ∧
    (vals.length ≠ 1 →
      (BT_SetParam H st p).rtn = H.FUNCTION_PARAMETER_ERROR ∧ (BT_SetParam H st p).param = st) ∧
    (∀ tv, vals = [tv] →
      (BT_SetParam H st p).param = bt_index2param st (toInt32 (strtol H ti).1) (strtoll tv 0)) := by
  have hone : ∀ tv, vals = [tv] → BT_SetParam H st p =
      pairLoop H [] (toInt32 (strtol H ti).1) (strtoll tv 0)
        (bt_index2param st (toInt32 (strtol H ti).1) (strtoll tv 0)) := by
    intro tv hv
    subst hv
    rw [BT_SetParam, hp, pairLoop_scalar_one H g ti tv [] _ _ st hg hi]
  have hwrong : vals.length ≠ 1 → BT_SetParam H st p =
      { rtn := H.FUNCTION_PARAMETER_ERROR
        notify := codeResponse H H.STR_BT_MP_SET_PARAM H.FUNCTION_PARAMETER_ERROR
        param := st } := by
    intro hne
    rw [BT_SetParam, hp, pairLoop_scalar_wrong H g ti vals [] _ _ st hg hi hlen hne]
  refine ⟨?_, ?_, ?_⟩
  · constructor
    · intro hs
      by_contra hne
      rw [hwrong hne] at hs
      exact hcodes hs.symm
    · intro h1
      obtain ⟨tv, hv⟩ := List.length_eq_one.mp h1
      rw [hone tv hv]
      rfl
  · intro hne
    rw [hwrong hne]
    exact ⟨rfl, rfl⟩
  · intro tv hv
    rw [hone tv hv]
    rfl

/-- C4, instance: the pair `5,1,2` on the reference header. -/
theorem C4_scalar_pair_arity_witness :
    ((BT_SetParam refHeader zeroParam "5,1,2".toList).rtn = refHeader.BT_FUNCTION_SUCCESS ↔
      ["1".toList, "2".toList].length = 1) ∧
    (["1".toList, "2".toList].length ≠ 1 →
      (BT_SetParam refHeader zeroParam "5,1,2".toList).rtn = refHeader.FUNCTION_PARAMETER_ERROR ∧
      (BT_SetParam refHeader zeroParam "5,1,2".toList).param = zeroParam) ∧
    (∀ tv, ["1".toList, "2".toList] = [tv] →
      (BT_SetParam refHeader zeroParam "5,1,2".toList).param =
        bt_index2param zeroParam (toInt32 (strtol refHeader "5".toList).1) (strtoll tv 0)) :=
  C4_scalar_pair_arity refHeader zeroParam "5,1,2".toList "5,1,2".toList "5".toList
    ["1".toList, "2".toList] (by decide) (by decide) (by decide) (by decide) (by decide)


/-- Inner loop behind the second token of an index-12 pair: token number `c`
(counting the index as 0) goes to `TXGainTable[c - 1]` while
`c ≤ MAX_TXGAIN_TABLE_SIZE`; later tokens are dropped. -/
theorem paramLoop_gain_tail (H : Header) :
    ∀ (ts : List CStr) (s : PairScan), s.var_pair = true → s.index = 12 →
      2 ≤ s.params_count → s.params_count + ts.length < 2 ^ 16 →
      ∃ tbl : Nat → Nat,
        paramLoop H ts s = .ok { s with params_count := s.params_count + ts.length,
                                        param := { s.param with TXGainTable := tbl } } ∧
        ∀ j, tbl j =
          if s.params_count - 1 ≤ j ∧ j < s.params_count - 1 + ts.length ∧
              j < H.MAX_TXGAIN_TABLE_SIZE then
            toUnsigned 8 (strtoll (ts.getD (j - (s.params_count - 1)) []) 0)
          else s.param.TXGainTable j := by
  intro ts
  induction ts with
  | nil =>
    intro s _ _ _ _
    refine ⟨s.param.TXGainTable, rfl, ?_⟩
    intro j
    have : ¬ (s.params_count - 1 ≤ j ∧ j < s.params_count - 1 + ([] : List CStr).length ∧
        j < H.MAX_TXGAIN_TABLE_SIZE) := by
      simp only [List.length_nil]; omega
    rw [if_neg this]
  | cons t ts ih =>
    intro s hv hidx hc hlen
    simp only [List.length_cons] at hlen
    have h0 : s.params_count ≠ 0 := by omega
    have h1 : s.params_count ≠ 1 := by omega
    have hgt : s.params_count > 1 := by omega
    have hmod : (s.params_count + 1) % 2 ^ 16 = s.params_count + 1 :=
      Nat.mod_eq_of_lt (by omega)
    by_cases hcap : s.params_count ≤ H.MAX_TXGAIN_TABLE_SIZE
    · have hstep : paramStep H s t = .ok { s with param := { s.param with
          TXGainTable := Function.update s.param.TXGainTable (s.params_count - 1)
            (toUnsigned 8 (strtoll t 0)) } } := by
        simp [paramStep, h0, h1, hgt, hv, hidx, hcap]
      obtain ⟨tbl, hloop, htbl⟩ := ih
        { s with params_count := s.params_count + 1,
                 param := { s.param with
                   TXGainTable := Function.update s.param.TXGainTable (s.params_count - 1)
                     (toUnsigned 8 (strtoll t 0)) } }
        hv hidx (by show 2 ≤ s.params_count + 1; omega)
        (by show s.params_count + 1 + ts.length < 2 ^ 16; omega)
      refine ⟨tbl, ?_, ?_⟩
      · simp only [paramLoop, hstep, hmod]
        rw [hloop]
        simp only [List.length_cons]
        congr 2
        omega
      · intro j
        rw [htbl j]
        simp only [List.length_cons, Nat.add_sub_cancel]
        by_cases hj : s.params_count ≤ j
        · have e : j - (s.params_count - 1) = (j - s.params_count) + 1 := by omega
          rw [e, List.getD_cons_succ]
          by_cases hj2 : j < s.params_count + ts.length ∧ j < H.MAX_TXGAIN_TABLE_SIZE
          · rw [if_pos ⟨hj, hj2.1, hj2.2⟩, if_pos ⟨by omega, by omega, hj2.2⟩]
          · rw [if_neg (by tauto), if_neg (by omega)]
            exact Function.update_noteq (by omega) _ _
        · rw [if_neg (by tauto)]
          by_cases hj3 : j = s.params_count - 1
          · subst hj3
            rw [if_pos ⟨le_refl _, by omega, by omega⟩]
            simp
          · rw [if_neg (by omega)]
            exact Function.update_noteq hj3 _ _
    · have hstep : paramStep H s t = .ok s := by
        simp [paramStep, h0, h1, hgt, hv, hidx, hcap]
      obtain ⟨tbl, hloop, htbl⟩ := ih { s with params_count := s.params_count + 1 }
        hv hidx (by show 2 ≤ s.params_count + 1; omega)
        (by show s.params_count + 1 + ts.length < 2 ^ 16; omega)
      refine ⟨tbl, ?_, ?_⟩
      · simp only [paramLoop, hstep, hmod]
        rw [hloop]
        simp only [List.length_cons]
        congr 2
        omega
      · intro j
        rw [htbl j]
        simp only [List.length_cons, Nat.add_sub_cancel]
        rw [if_neg (by omega), if_neg (by omega)]


/-- Inner loop behind the second token of an index-13 pair: token number `c`
(counting the index as 0) goes to `TXDACTable[c - 1]` while
`c ≤ MAX_TXDAC_TABLE_SIZE`; later tokens are dropped. -/
theorem paramLoop_dac_tail (H : Header) :
    ∀ (ts : List CStr) (s : PairScan), s.var_pair = true → s.index = 13 →
      2 ≤ s.params_count → s.params_count + ts.length < 2 ^ 16 →
      ∃ tbl : Nat → Nat,
        paramLoop H ts s = .ok { s with params_count := s.params_count + ts.length,
                                        param := { s.param with TXDACTable := tbl } } ∧
        ∀ j, tbl j =
          if s.params_count - 1 ≤ j ∧ j < s.params_count - 1 + ts.length ∧
              j < H.MAX_TXDAC_TABLE_SIZE then
            toUnsigned 8 (strtoll (ts.getD (j - (s.params_count - 1)) []) 0)
          else s.param.TXDACTable j := by
  intro ts
  induction ts with
  | nil =>
    intro s _ _ _ _
    refine ⟨s.param.TXDACTable, rfl, ?_⟩
    intro j
    have : ¬ (s.params_count - 1 ≤ j ∧ j < s.params_count - 1 + ([] : List CStr).length ∧
        j < H.MAX_TXDAC_TABLE_SIZE) := by
      simp only [List.length_nil]; omega
    rw [if_neg this]
  | cons t ts ih =>
    intro s hv hidx hc hlen
    simp only [List.length_cons] at hlen
    have h0 : s.params_count ≠ 0 := by omega
    have h1 : s.params_count ≠ 1 := by omega
    have hgt : s.params_count > 1 := by omega
    have hmod : (s.params_count + 1) % 2 ^ 16 = s.params_count + 1 :=
      Nat.mod_eq_of_lt (by omega)
    by_cases hcap : s.params_count ≤ H.MAX_TXDAC_TABLE_SIZE
    · have hstep : paramStep H s t = .ok { s with param := { s.param with
          TXDACTable := Function.update s.param.TXDACTable (s.params_count - 1)
            (toUnsigned 8 (strtoll t 0)) } } := by
        simp [paramStep, h0, h1, hgt, hv, hidx, hcap]
      obtain ⟨tbl, hloop, htbl⟩ := ih
        { s with params_count := s.params_count + 1,
                 param := { s.param with
                   TXDACTable := Function.update s.param.TXDACTable (s.params_count - 1)
                     (toUnsigned 8 (strtoll t 0)) } }
        hv hidx (by show 2 ≤ s.params_count + 1; omega)
        (by show s.params_count + 1 + ts.length < 2 ^ 16; omega)
      refine ⟨tbl, ?_, ?_⟩
      · simp only [paramLoop, hstep, hmod]
        rw [hloop]
        simp only [List.length_cons]
        congr 2
        omega
      · intro j
        rw [htbl j]
        simp only [List.length_cons, Nat.add_sub_cancel]
        by_cases hj : s.params_count ≤ j
        · have e : j - (s.params_count - 1) = (j - s.params_count) + 1 := by omega
          rw [e, List.getD_cons_succ]
          by_cases hj2 : j < s.params_count + ts.length ∧ j < H.MAX_TXDAC_TABLE_SIZE
          · rw [if_pos ⟨hj, hj2.1, hj2.2⟩, if_pos ⟨by omega, by omega, hj2.2⟩]
          · rw [if_neg (by tauto), if_neg (by omega)]
            exact Function.update_noteq (by omega) _ _
        · rw [if_neg (by tauto)]
          by_cases hj3 : j = s.params_count - 1
          · subst hj3
            rw [if_pos ⟨le_refl _, by omega, by omega⟩]
            simp
          · rw [if_neg (by omega)]
            exact Function.update_noteq hj3 _ _
    · have hstep : paramStep H s t = .ok s := by
        simp [paramStep, h0, h1, hgt, hv, hidx, hcap]
      obtain ⟨tbl, hloop, htbl⟩ := ih { s with params_count := s.params_count + 1 }
        hv hidx (by show 2 ≤ s.params_count + 1; omega)
        (by show s.params_count + 1 + ts.length < 2 ^ 16; omega)
      refine ⟨tbl, ?_, ?_⟩
      · simp only [paramLoop, hstep, hmod]
        rw [hloop]
        simp only [List.length_cons]
        congr 2
        omega
      · intro j
        rw [htbl j]
        simp only [List.length_cons, Nat.add_sub_cancel]
        rw [if_neg (by omega), if_neg (by omega)]

/-- Inner loop behind the second token of an index-0 pair: token number `c`
(counting the index as 0) goes to `mPGRawData[c - 1]`, whatever `c` is. -/
theorem paramLoop_raw_tail (H : Header) :
    ∀ (ts : List CStr) (s : PairScan), s.var_pair = true → s.index = 0 →
      2 ≤ s.params_count → s.params_count + ts.length < 2 ^ 16 →
      ∃ tbl : Nat → Nat,
        paramLoop H ts s = .ok { s with params_count := s.params_count + ts.length,
                                        param := { s.param with mPGRawData := tbl } } ∧
        ∀ j, tbl j =
          if s.params_count - 1 ≤ j ∧ j < s.params_count - 1 + ts.length then
            toUnsigned 8 (strtoll (ts.getD (j - (s.params_count - 1)) []) 0)
          else s.param.mPGRawData j := by
  intro ts
  induction ts with
  | nil =>
    intro s _ _ _ _
    refine ⟨s.param.mPGRawData, rfl, ?_⟩
    intro j
    have : ¬ (s.params_count - 1 ≤ j ∧ j < s.params_count - 1 + ([] : List CStr).length) := by
      simp only [List.length_nil]; omega
    rw [if_neg this]
  | cons t ts ih =>
    intro s hv hidx hc hlen
    simp only [List.length_cons] at hlen
    have h0 : s.params_count ≠ 0 := by omega
    have h1 : s.params_count ≠ 1 := by omega
    have hgt : s.params_count > 1 := by omega
    have hmod : (s.params_count + 1) % 2 ^ 16 = s.params_count + 1 :=
      Nat.mod_eq_of_lt (by omega)
    have hstep : paramStep H s t = .ok { s with param := { s.param with
        mPGRawData := Function.update s.param.mPGRawData (s.params_count - 1)
          (toUnsigned 8 (strtoll t 0)) } } := by
      simp [paramStep, h0, h1, hgt, hv, hidx]
    obtain ⟨tbl, hloop, htbl⟩ := ih
      { s with params_count := s.params_count + 1,
               param := { s.param with
                 mPGRawData := Function.update s.param.mPGRawData (s.params_count - 1)
                   (toUnsigned 8 (strtoll t 0)) } }
      hv hidx (by show 2 ≤ s.params_count + 1; omega)
      (by show s.params_count + 1 + ts.length < 2 ^ 16; omega)
    refine ⟨tbl, ?_, ?_⟩
    · simp only [paramLoop, hstep, hmod]
      rw [hloop]
      simp only [List.length_cons]
      congr 2
      omega
    · intro j
      rw [htbl j]
      simp only [List.length_cons, Nat.add_sub_cancel]
      by_cases hj : s.params_count ≤ j
      · have e : j - (s.params_count - 1) = (j - s.params_count) + 1 := by omega
        rw [e, List.getD_cons_succ]
        by_cases hj2 : j < s.params_count + ts.length
        · rw [if_pos ⟨hj, hj2⟩, if_pos ⟨by omega, by omega⟩]
        · rw [if_neg (by tauto), if_neg (by omega)]
          exact Function.update_noteq (by omega) _ _
      · rw [if_neg (by tauto)]
        by_cases hj3 : j = s.params_count - 1
        · subst hj3
          rw [if_pos ⟨le_refl _, by omega⟩]
          simp
        · rw [if_neg (by omega)]
          exact Function.update_noteq hj3 _ _


/-- An index-12 pair with at least two value tokens: value token `j` lands in
`TXGainTable[j]` for `j = 0` and for `j < MAX_TXGAIN_TABLE_SIZE`; nothing else
changes, and the outer loop goes on. -/
theorem pairLoop_gain (H : Header) (g ti tv : CStr) (vs rest : List CStr) (idx0 v0 : Int)
    (st : BT_PARAMETER) (hg : tokens H.STR_BT_MP_PARAM_DELIM g = ti :: tv :: vs)
    (hi : toInt32 (strtol H ti).1 = 12) (hne : vs ≠ []) (hlen : vs.length + 2 < 2 ^ 16) :
    ∃ tbl : Nat → Nat,
      pairLoop H (g :: rest) idx0 v0 st =
        pairLoop H rest 12 (strtoll tv 0) { st with TXGainTable := tbl } ∧
      ∀ j, tbl j =
        if j < (tv :: vs).length ∧ (j = 0 ∨ j < H.MAX_TXGAIN_TABLE_SIZE) then
          toUnsigned 8 (strtoll ((tv :: vs).getD j []) 0)
        else st.TXGainTable j := by
  obtain ⟨tbl, hloop, htbl⟩ := paramLoop_gain_tail H vs
    { params_count := 2, index := 12, var_pair := true, value := strtoll tv 0, param := st }
    rfl rfl (le_refl 2) (by show 2 + vs.length < 2 ^ 16; omega)
  have hpos : 0 < vs.length := List.length_pos.mpr hne
  have hfull : paramLoop H (ti :: tv :: vs)
      { params_count := 0, index := idx0, var_pair := false, value := v0, param := st } =
      .ok { params_count := 2 + vs.length, index := 12, var_pair := true,
            value := strtoll tv 0, param := { st with TXGainTable := tbl } } := by
    simp only [paramLoop, paramStep, hi, BT_PARAM_IDX_NUM]
    simpa using hloop
  refine ⟨Function.update tbl 0 (toUnsigned 8 (strtoll tv 0)), ?_, ?_⟩
  · rw [pairLoop, hg, hfull]
    have h3 : 2 + vs.length > 2 := by omega
    simp [h3, bt_index2param]
  · intro j
    by_cases hj : j = 0
    · subst hj
      simp
    · rw [Function.update_noteq hj, htbl j]
      simp only [List.length_cons]
      obtain ⟨k, rfl⟩ : ∃ k, j = k + 1 := ⟨j - 1, by omega⟩
      simp only [List.getD_cons_succ, Nat.add_sub_cancel]
      by_cases hc : k + 1 < vs.length + 1 ∧ k + 1 < H.MAX_TXGAIN_TABLE_SIZE
      · rw [if_pos ⟨by omega, by omega, hc.2⟩, if_pos ⟨hc.1, Or.inr hc.2⟩]
      · rw [if_neg (by omega), if_neg (by omega)]

/-- An index-13 pair with at least two value tokens: value token `j` lands in
`TXDACTable[j]` for `j = 0` and for `j < MAX_TXDAC_TABLE_SIZE`; nothing else
changes, and the outer loop goes on. -/
theorem pairLoop_dac (H : Header) (g ti tv : CStr) (vs rest : List CStr) (idx0 v0 : Int)
    (st : BT_PARAMETER) (hg : tokens H.STR_BT_MP_PARAM_DELIM g = ti :: tv :: vs)
    (hi : toInt32 (strtol H ti).1 = 13) (hne : vs ≠ []) (hlen : vs.length + 2 < 2 ^ 16) :
    ∃ tbl : Nat → Nat,
      pairLoop H (g :: rest) idx0 v0 st =
        pairLoop H rest 13 (strtoll tv 0) { st with TXDACTable := tbl } ∧
      ∀ j, tbl j =
        if j < (tv :: vs).length ∧ (j = 0 ∨ j < H.MAX_TXDAC_TABLE_SIZE) then
          toUnsigned 8 (strtoll ((tv :: vs).getD j []) 0)
        else st.TXDACTable j := by
  obtain ⟨tbl, hloop, htbl⟩ := paramLoop_dac_tail H vs
    { params_count := 2, index := 13, var_pair := true, value := strtoll tv 0, param := st }
    rfl rfl (le_refl 2) (by show 2 + vs.length < 2 ^ 16; omega)
  have hpos : 0 < vs.length := List.length_pos.mpr hne
  have hfull : paramLoop H (ti :: tv :: vs)
      { params_count := 0, index := idx0, var_pair := false, value := v0, param := st } =
      .ok { params_count := 2 + vs.length, index := 13, var_pair := true,
            value := strtoll tv 0, param := { st with TXDACTable := tbl } } := by
    simp only [paramLoop, paramStep, hi, BT_PARAM_IDX_NUM]
    simpa using hloop
  refine ⟨Function.update tbl 0 (toUnsigned 8 (strtoll tv 0)), ?_, ?_⟩
  · rw [pairLoop, hg, hfull]
    have h3 : 2 + vs.length > 2 := by omega
    simp [h3, bt_index2param]
  · intro j
    by_cases hj : j = 0
    · subst hj
      simp
    · rw [Function.update_noteq hj, htbl j]
      simp only [List.length_cons]
      obtain ⟨k, rfl⟩ : ∃ k, j = k + 1 := ⟨j - 1, by omega⟩
      simp only [List.getD_cons_succ, Nat.add_sub_cancel]
      by_cases hc : k + 1 < vs.length + 1 ∧ k + 1 < H.MAX_TXDAC_TABLE_SIZE
      · rw [if_pos ⟨by omega, by omega, hc.2⟩, if_pos ⟨hc.1, Or.inr hc.2⟩]
      · rw [if_neg (by omega), if_neg (by omega)]

/-- An index-0 pair with at least two value tokens: value token `j` lands in
`mPGRawData[j]` for every `j`; nothing else changes, and the outer loop goes on. -/
theorem pairLoop_raw (H : Header) (g ti tv : CStr) (vs rest : List CStr) (idx0 v0 : Int)
    (st : BT_PARAMETER) (hg : tokens H.STR_BT_MP_PARAM_DELIM g = ti :: tv :: vs)
    (hi : toInt32 (strtol H ti).1 = 0) (hne : vs ≠ []) (hlen : vs.length + 2 < 2 ^ 16) :
    ∃ tbl : Nat → Nat,
      pairLoop H (g :: rest) idx0 v0 st =
        pairLoop H rest 0 (strtoll tv 0) { st with mPGRawData := tbl } ∧
      ∀ j, tbl j =
        if j < (tv :: vs).length then toUnsigned 8 (strtoll ((tv :: vs).getD j []) 0)
        else st.mPGRawData j := by
  obtain ⟨tbl, hloop, htbl⟩ := paramLoop_raw_tail H vs
    { params_count := 2, index := 0, var_pair := true, value := strtoll tv 0, param := st }
    rfl rfl (le_refl 2) (by show 2 + vs.length < 2 ^ 16; omega)
  have hpos : 0 < vs.length := List.length_pos.mpr hne
  have hfull : paramLoop H (ti :: tv :: vs)
      { params_count := 0, index := idx0, var_pair := false, value := v0, param := st } =
      .ok { params_count := 2 + vs.length, index := 0, var_pair := true,
            value := strtoll tv 0, param := { st with mPGRawData := tbl } } := by
    simp only [paramLoop, paramStep, hi, BT_PARAM_IDX_NUM]
    simpa using hloop
  refine ⟨Function.update tbl 0 (toUnsigned 8 (strtoll tv 0)), ?_, ?_⟩
  · rw [pairLoop, hg, hfull]
    have h3 : 2 + vs.length > 2 := by omega
    simp [h3, bt_index2param]
  · intro j
    by_cases hj : j = 0
    · subst hj
      simp
    · rw [Function.update_noteq hj, htbl j]
      simp only [List.length_cons]
      obtain ⟨k, rfl⟩ : ∃ k, j = k + 1 := ⟨j - 1, by omega⟩
      simp only [List.getD_cons_succ, Nat.add_sub_cancel]
      by_cases hc : k + 1 < vs.length + 1
      · rw [if_pos ⟨by omega, by omega⟩, if_pos hc]
      · rw [if_neg (by omega), if_neg hc]


/-! ## C5: writes to the gain and DAC tables are clipped -/

/-- C5. A single pair with index 12 (gain table) or 13 (DAC table) that carries
more value tokens than the table has entries (capacity at least 1; fewer than
`2 ^ 16` tokens, `params_count` being a `uint16_t`): `BT_SetParam` succeeds,
entry `k` of the table holds value token `k` truncated to 8 bits for every `k`
below the capacity, entries at or above the capacity keep their content, and
no other field of the parameter block changes. -/
theorem C5_table_write_clipped (H : Header) (st : BT_PARAMETER) (p g ti : CStr)
    (vals : List CStr) (i : Int)
    (hp : tokens H.STR_BT_MP_PAIR_DELIM p = [g])
    (hg : tokens H.STR_BT_MP_PARAM_DELIM g = ti :: vals)
    (hi : toInt32 (strtol H ti).1 = i)
    (hidx : i = 12 ∨ i = 13)
    (hcap : 0 < tableCap H i)
    (hmore : tableCap H i < vals.length)
    (hlen : vals.length + 1 < 2 ^ 16) :
    (BT_SetParam H st p).rtn = H.BT_FUNCTION_SUCCESS ∧
    (∀ k, k < tableCap H i →
      tableOf (BT_SetParam H st p).param i k = toUnsigned 8 (strtoll (vals.getD k []) 0)) ∧
    (∀ k, tableCap H i ≤ k → tableOf (BT_SetParam H st p).param i k = tableOf st i k) ∧
    (BT_SetParam H st p).param = withTable st i (tableOf (BT_SetParam H st p).param i) := by
  obtain ⟨tv, vs, rfl⟩ : ∃ tv vs, vals = tv :: vs := by
    cases vals with
    | nil => simp at hmore
    | cons tv vs => exact ⟨tv, vs, rfl⟩
  have hne : vs ≠ [] := by
    intro h
    subst h
    simp at hmore
    omega
  have hlen2 : vs.length + 2 < 2 ^ 16 := by
    simp only [List.length_cons] at hlen
    omega
  rcases hidx with rfl | rfl
  · obtain ⟨tbl, hrun, htbl⟩ := pairLoop_gain H g ti tv vs [] (-1) 0 st hg hi hne hlen2
    have hset : BT_SetParam H st p = pairLoop H [] 12 (strtoll tv 0)
        { st with TXGainTable := tbl } := by
      rw [BT_SetParam, hp, hrun]
    simp only [tableCap, if_true] at hcap hmore
    refine ⟨by rw [hset]; rfl, ?_, ?_, by rw [hset]; rfl⟩
    · intro k hk
      simp only [tableCap, if_true] at hk
      rw [hset]
      show tbl k = _
      rw [htbl k, if_pos ⟨by omega, Or.inr hk⟩]
    · intro k hk
      simp only [tableCap, if_true] at hk
      rw [hset]
      show tbl k = st.TXGainTable k
      rw [htbl k, if_neg (by omega)]
  · obtain ⟨tbl, hrun, htbl⟩ := pairLoop_dac H g ti tv vs [] (-1) 0 st hg hi hne hlen2
    have hset : BT_SetParam H st p = pairLoop H [] 13 (strtoll tv 0)
        { st with TXDACTable := tbl } := by
      rw [BT_SetParam, hp, hrun]
    have h13 : ¬ ((13 : Int) = 12) := by decide
    simp only [tableCap, h13, if_false] at hcap hmore
    refine ⟨by rw [hset]; rfl, ?_, ?_, by rw [hset]; rfl⟩
    · intro k hk
      simp only [tableCap, h13, if_false] at hk
      rw [hset]
      show tbl k = _
      rw [htbl k, if_pos ⟨by omega, Or.inr hk⟩]
    · intro k hk
      simp only [tableCap, h13, if_false] at hk
      rw [hset]
      show tbl k = st.TXDACTable k
      rw [htbl k, if_neg (by omega)]

/-- C5, instance: nine value tokens for the gain table of capacity 7. -/
theorem C5_table_write_clipped_witness :
    (BT_SetParam refHeader zeroParam "12,1,2,3,4,5,6,7,8,9".toList).rtn
        = refHeader.BT_FUNCTION_SUCCESS ∧
    (∀ k, k < tableCap refHeader 12 →
      tableOf (BT_SetParam refHeader zeroParam "12,1,2,3,4,5,6,7,8,9".toList).param 12 k =
        toUnsigned 8 (strtoll ((tokens ",".toList "1,2,3,4,5,6,7,8,9".toList).getD k []) 0)) ∧
    (∀ k, tableCap refHeader 12 ≤ k →
      tableOf (BT_SetParam refHeader zeroParam "12,1,2,3,4,5,6,7,8,9".toList).param 12 k =
        tableOf zeroParam 12 k) ∧
    (BT_SetParam refHeader zeroParam "12,1,2,3,4,5,6,7,8,9".toList).param =
      withTable zeroParam 12
        (tableOf (BT_SetParam refHeader zeroParam "12,1,2,3,4,5,6,7,8,9".toList).param 12) :=
  C5_table_write_clipped refHeader zeroParam "12,1,2,3,4,5,6,7,8,9".toList
    "12,1,2,3,4,5,6,7,8,9".toList "12".toList (tokens ",".toList "1,2,3,4,5,6,7,8,9".toList) 12
    (by decide) (by decide) (by decide) (by decide) (by decide) (by decide) (by decide)

/-! ## C6: writes to the raw data array are not bounded -/

/-- C6 (the code departs from the claim). A single pair with index 0 and at
least two value tokens (fewer than `2 ^ 16` tokens): `BT_SetParam` succeeds and
writes value token `k` to `mPGRawData[k]` for every `k`, with no test against
the capacity. When the pair carries more value tokens than the array has
entries, the byte at offset `MAX_PG_RAW_DATA`, behind the array, is written. -/
theorem C6_raw_data_write_unbounded (H : Header) (st : BT_PARAMETER) (p g ti : CStr)
    (vals : List CStr)
    (hp : tokens H.STR_BT_MP_PAIR_DELIM p = [g])
    (hg : tokens H.STR_BT_MP_PARAM_DELIM g = ti :: vals)
    (hi : toInt32 (strtol H ti).1 = 0)
    (h2 : 2 ≤ vals.length)
    (hover : H.MAX_PG_RAW_DATA < vals.length)
    (hlen : vals.length + 1 < 2 ^ 16) :
    (BT_SetParam H st p).rtn = H.BT_FUNCTION_SUCCESS ∧
    (∀ k, k < vals.length →
      (BT_SetParam H st p).param.mPGRawData k = toUnsigned 8 (strtoll (vals.getD k []) 0)) ∧
    (BT_SetParam H st p).param.mPGRawData H.MAX_PG_RAW_DATA =
      toUnsigned 8 (strtoll (vals.getD H.MAX_PG_RAW_DATA []) 0) := by
  obtain ⟨tv, vs, rfl⟩ : ∃ tv vs, vals = tv :: vs := by
    cases vals with
    | nil => simp at h2
    | cons tv vs => exact ⟨tv, vs, rfl⟩
  have hne : vs ≠ [] := by
    intro h
    subst h
    simp at h2
  have hlen2 : vs.length + 2 < 2 ^ 16 := by
    simp only [List.length_cons] at hlen
    omega
  obtain ⟨tbl, hrun, htbl⟩ := pairLoop_raw H g ti tv vs [] (-1) 0 st hg hi hne hlen2
  have hset : BT_SetParam H st p = pairLoop H [] 0 (strtoll tv 0)
      { st with mPGRawData := tbl } := by
    rw [BT_SetParam, hp, hrun]
  have hall : ∀ k, k < (tv :: vs).length →
      (BT_SetParam H st p).param.mPGRawData k =
        toUnsigned 8 (strtoll ((tv :: vs).getD k []) 0) := by
    intro k hk
    rw [hset]
    show tbl k = _
    rw [htbl k, if_pos hk]
  exact ⟨by rw [hset]; rfl, hall, hall _ hover⟩


set_option maxRecDepth 100000

/-- C6, instance: 256 value tokens for an array of 255 entries on the reference
header; offset 255, behind the array, receives the last token. -/
theorem C6_raw_data_write_unbounded_witness :
    (BT_SetParam refHeader zeroParam (rawCommand 256)).rtn = refHeader.BT_FUNCTION_SUCCESS ∧
    (∀ k, k < (List.replicate 256 "7".toList).length →
      (BT_SetParam refHeader zeroParam (rawCommand 256)).param.mPGRawData k =
        toUnsigned 8 (strtoll ((List.replicate 256 "7".toList).getD k []) 0)) ∧
    (BT_SetParam refHeader zeroParam (rawCommand 256)).param.mPGRawData
        refHeader.MAX_PG_RAW_DATA =
      toUnsigned 8 (strtoll ((List.replicate 256 "7".toList).getD refHeader.MAX_PG_RAW_DATA []) 0) :=
  C6_raw_data_write_unbounded refHeader zeroParam (rawCommand 256) (rawCommand 256) "0".toList
    (List.replicate 256 "7".toList)
    (by decide) (by decide) (by decide) (by decide) (by decide) (by decide)


/-! ## C7: no rollback -/

/-- A variable-index pair with fewer than two value tokens is a wrong pair
format: nothing is written. -/
theorem pairLoop_var_short (H : Header) (g ti : CStr) (vals rest : List CStr) (idx0 v0 : Int)
    (st : BT_PARAMETER) (hg : tokens H.STR_BT_MP_PARAM_DELIM g = ti :: vals)
    (hi : toInt32 (strtol H ti).1 = 0 ∨ toInt32 (strtol H ti).1 = 12 ∨
      toInt32 (strtol H ti).1 = 13)
    (hshort : vals.length < 2) :
    pairLoop H (g :: rest) idx0 v0 st =
      { rtn := H.FUNCTION_PARAMETER_ERROR
        notify := codeResponse H H.STR_BT_MP_SET_PARAM H.FUNCTION_PARAMETER_ERROR
        param := st } := by
  have hr : ¬ (toInt32 (strtol H ti).1 < 0 ∨ toInt32 (strtol H ti).1 ≥ BT_PARAM_IDX_NUM) := by
    unfold BT_PARAM_IDX_NUM; omega
  rw [pairLoop, hg]
  match vals, hshort with
  | [], _ => simp [paramLoop, paramStep, hr, hi]
  | [tv], _ => simp [paramLoop, paramStep, hr, hi]

/-- An invalid pair ends the command with a parameter error and writes nothing,
whatever the earlier pairs left in `index`, `value` and the parameter block. -/
theorem pairLoop_wrongPair (H : Header) (g : CStr) (rest : List CStr) (idx0 v0 : Int)
    (st : BT_PARAMETER) (hbad : wrongPair H g) :
    pairLoop H (g :: rest) idx0 v0 st =
      { rtn := H.FUNCTION_PARAMETER_ERROR
        notify := codeResponse H H.STR_BT_MP_SET_PARAM H.FUNCTION_PARAMETER_ERROR
        param := st } := by
  unfold wrongPair at hbad
  split at hbad
  · exact hbad.elim
  · rename_i ti vals hg
    rcases hbad with hidx | ⟨hlen, ⟨hsc, hne⟩ | ⟨hvar, hshort⟩⟩
    · exact pairLoop_bad_index H g ti vals rest idx0 v0 st hg hidx
    · exact pairLoop_scalar_wrong H g ti vals rest idx0 v0 st hg hsc hlen hne
    · exact pairLoop_var_short H g ti vals rest idx0 v0 st hg hvar hshort

/-- Pairs followed by an invalid pair: the command fails, at the latest at the
invalid pair, and keeps what the pairs in front of it wrote. -/
theorem pairLoop_append_wrongPair (H : Header) (g2 : CStr) (hbad : wrongPair H g2) :
    ∀ (gs : List CStr) (idx0 v0 : Int) (st : BT_PARAMETER),
      pairLoop H (gs ++ [g2]) idx0 v0 st =
        { rtn := H.FUNCTION_PARAMETER_ERROR
          notify := codeResponse H H.STR_BT_MP_SET_PARAM H.FUNCTION_PARAMETER_ERROR
          param := (pairLoop H gs idx0 v0 st).param } := by
  intro gs
  induction gs with
  | nil =>
    intro idx0 v0 st
    exact pairLoop_wrongPair H g2 [] idx0 v0 st hbad
  | cons g gs ih =>
    intro idx0 v0 st
    simp only [List.cons_append, pairLoop]
    cases hrun : paramLoop H (tokens H.STR_BT_MP_PARAM_DELIM g)
        { params_count := 0, index := idx0, var_pair := false, value := v0, param := st } with
    | error st1 => rfl
    | ok s =>
      simp only
      split_ifs with h1 h2 h3
      · exact ih _ _ _
      · exact ih _ _ _
      · exact ih _ _ _
      · rfl

/-- C7. A command of two pairs `g1`, `g2` where `g2` is invalid (bad index or
wrong number of value tokens): `BT_SetParam` returns `FUNCTION_PARAMETER_ERROR`
and the parameter block is the one that applying `g1` alone produces; so the
writes of a valid `g1` stay applied. -/
theorem C7_set_param_no_rollback (H : Header) (st : BT_PARAMETER) (p p1 g1 g2 : CStr)
    (hp : tokens H.STR_BT_MP_PAIR_DELIM p = [g1, g2])
    (hp1 : tokens H.STR_BT_MP_PAIR_DELIM p1 = [g1])
    (hbad : wrongPair H g2) :
    (BT_SetParam H st p).rtn = H.FUNCTION_PARAMETER_ERROR ∧
    (BT_SetParam H st p).param = (BT_SetParam H st p1).param := by
  simp only [BT_SetParam, hp, hp1]
  have h := pairLoop_append_wrongPair H g2 hbad [g1] (-1) 0 st
  simp only [List.singleton_append] at h
  rw [h]
  exact ⟨rfl, rfl⟩

/-- C7, instance: in `1,10|99,5` the first pair is valid (alone it succeeds and
sets the channel to 10), the second has a bad index; the command fails and the
channel stays written. -/
theorem C7_set_param_no_rollback_witness :
    ((BT_SetParam refHeader zeroParam "1,10".toList).rtn = refHeader.BT_FUNCTION_SUCCESS ∧
      (BT_SetParam refHeader zeroParam "1,10".toList).param.mChannelNumber = 10) ∧
    (BT_SetParam refHeader zeroParam "1,10|99,5".toList).rtn
        = refHeader.FUNCTION_PARAMETER_ERROR ∧
    (BT_SetParam refHeader zeroParam "1,10|99,5".toList).param =
      (BT_SetParam refHeader zeroParam "1,10".toList).param :=
  ⟨by decide,
   C7_set_param_no_rollback refHeader zeroParam "1,10|99,5".toList "1,10".toList
    "1,10".toList "99,5".toList (by decide) (by decide) (by decide)⟩


/-! ## The register command -/

theorem regParse_type (H : Header) (ts : List CStr) : (regParse H ts).type = regType H ts := by
  rcases ts with _ | ⟨t0, _ | ⟨t1, _ | ⟨t2, _ | ⟨t3, _ | ⟨t4, _ | ⟨t5, _ | ⟨t6, _ | ⟨t7, ts⟩⟩⟩⟩⟩⟩⟩⟩ <;>
    simp only [regParse, regRw, regPage, regAddress, regMsb, regLsb, regData, regEnd, regType,
      tok8] <;> split_ifs <;> rfl

theorem regParse_rw (H : Header) (ts : List CStr) : (regParse H ts).rw = regFlag H ts := by
  rcases ts with _ | ⟨t0, _ | ⟨t1, _ | ⟨t2, _ | ⟨t3, _ | ⟨t4, _ | ⟨t5, _ | ⟨t6, _ | ⟨t7, ts⟩⟩⟩⟩⟩⟩⟩⟩ <;>
    simp only [regParse, regRw, regPage, regAddress, regMsb, regLsb, regData, regEnd, regFlag,
      tok8] <;> split_ifs <;> rfl

theorem REGRW_PARAM_COUNT_eq (H : Header) (ts : List CStr) :
    REGRW_PARAM_COUNT H (regParse H ts) = regFieldCount H ts := by
  simp only [REGRW_PARAM_COUNT, regFieldCount, regParse_type, regParse_rw]
  omega

/-- The counter of `BT_RegRW` equals the required count exactly when the number of
tokens does. -/
theorem regParse_count_iff (H : Header) (ts : List CStr) :
    (regParse H ts).params_count = regFieldCount H ts ↔ ts.length = regFieldCount H ts := by
  rcases ts with _ | ⟨t0, _ | ⟨t1, _ | ⟨t2, _ | ⟨t3, _ | ⟨t4, _ | ⟨t5, _ | ⟨t6, _ | ⟨t7, ts⟩⟩⟩⟩⟩⟩⟩⟩ <;>
    simp only [regParse, regRw, regPage, regAddress, regMsb, regLsb, regData, regEnd,
      regFieldCount, regType, regFlag, tok8, List.length_cons, List.length_nil] <;>
    split_ifs <;> simp_all


/-- A wrong number of fields: `BT_RegRW` writes the parameter-error response,
calls no accessor, and returns `rtn` as initialised, `BT_FUNCTION_SUCCESS`. -/
theorem BT_RegRW_wrong_count {δ : Type} (H : Header) (M : RegAccess δ) (dev : δ) (p : CStr)
    (h : (tokens H.STR_BT_MP_PARAM_DELIM p).length ≠
      regFieldCount H (tokens H.STR_BT_MP_PARAM_DELIM p)) :
    BT_RegRW H M dev p =
      { rtn := H.BT_FUNCTION_SUCCESS
        notify := codeResponse H H.STR_BT_MP_REG_RW H.FUNCTION_PARAMETER_ERROR
        dev := dev } := by
  have hc : (regParse H (tokens H.STR_BT_MP_PARAM_DELIM p)).params_count ≠
      REGRW_PARAM_COUNT H (regParse H (tokens H.STR_BT_MP_PARAM_DELIM p)) := by
    rw [REGRW_PARAM_COUNT_eq]
    exact fun hh ↦ h ((regParse_count_iff H _).mp hh)
  simp only [BT_RegRW]
  rw [if_pos hc]

/-- The right number of fields: `BT_RegRW` calls `GetRegMaskBits` when the flag is
0 and `SetRegMaskBits` otherwise, with the decoded locals. -/
theorem BT_RegRW_right_count {δ : Type} (H : Header) (M : RegAccess δ) (dev : δ) (p : CStr)
    (h : (tokens H.STR_BT_MP_PARAM_DELIM p).length =
      regFieldCount H (tokens H.STR_BT_MP_PARAM_DELIM p)) :
    BT_RegRW H M dev p =
      (if (regParse H (tokens H.STR_BT_MP_PARAM_DELIM p)).rw = 0 then
        { rtn := (M.GetRegMaskBits dev
              (regParse H (tokens H.STR_BT_MP_PARAM_DELIM p)).type
              (regParse H (tokens H.STR_BT_MP_PARAM_DELIM p)).page
              (regParse H (tokens H.STR_BT_MP_PARAM_DELIM p)).address
              (regParse H (tokens H.STR_BT_MP_PARAM_DELIM p)).msb
              (regParse H (tokens H.STR_BT_MP_PARAM_DELIM p)).lsb
              (regParse H (tokens H.STR_BT_MP_PARAM_DELIM p)).data).1
          notify := H.STR_BT_MP_REG_RW ++ H.STR_BT_MP_RESULT_DELIM ++
            fmt_x_int (M.GetRegMaskBits dev
              (regParse H (tokens H.STR_BT_MP_PARAM_DELIM p)).type
              (regParse H (tokens H.STR_BT_MP_PARAM_DELIM p)).page
              (regParse H (tokens H.STR_BT_MP_PARAM_DELIM p)).address
              (regParse H (tokens H.STR_BT_MP_PARAM_DELIM p)).msb
              (regParse H (tokens H.STR_BT_MP_PARAM_DELIM p)).lsb
              (regParse H (tokens H.STR_BT_MP_PARAM_DELIM p)).data).1 ++
            H.STR_BT_MP_RESULT_DELIM ++
            fmt_0x 8 ((M.GetRegMaskBits dev
              (regParse H (tokens H.STR_BT_MP_PARAM_DELIM p)).type
              (regParse H (tokens H.STR_BT_MP_PARAM_DELIM p)).page
              (regParse H (tokens H.STR_BT_MP_PARAM_DELIM p)).address
              (regParse H (tokens H.STR_BT_MP_PARAM_DELIM p)).msb
              (regParse H (tokens H.STR_BT_MP_PARAM_DELIM p)).lsb
              (regParse H (tokens H.STR_BT_MP_PARAM_DELIM p)).data).2.1 % 2 ^ 32)
          dev := (M.GetRegMaskBits dev
              (regParse H (tokens H.STR_BT_MP_PARAM_DELIM p)).type
              (regParse H (tokens H.STR_BT_MP_PARAM_DELIM p)).page
              (regParse H (tokens H.STR_BT_MP_PARAM_DELIM p)).address
              (regParse H (tokens H.STR_BT_MP_PARAM_DELIM p)).msb
              (regParse H (tokens H.STR_BT_MP_PARAM_DELIM p)).lsb
              (regParse H (tokens H.STR_BT_MP_PARAM_DELIM p)).data).2.2 }
      else
        { rtn := (M.SetRegMaskBits dev
              (regParse H (tokens H.STR_BT_MP_PARAM_DELIM p)).type
              (regParse H (tokens H.STR_BT_MP_PARAM_DELIM p)).page
              (regParse H (tokens H.STR_BT_MP_PARAM_DELIM p)).address
              (regParse H (tokens H.STR_BT_MP_PARAM_DELIM p)).msb
              (regParse H (tokens H.STR_BT_MP_PARAM_DELIM p)).lsb
              (regParse H (tokens H.STR_BT_MP_PARAM_DELIM p)).data).1
          notify := codeResponse H H.STR_BT_MP_REG_RW (M.SetRegMaskBits dev
              (regParse H (tokens H.STR_BT_MP_PARAM_DELIM p)).type
              (regParse H (tokens H.STR_BT_MP_PARAM_DELIM p)).page
              (regParse H (tokens H.STR_BT_MP_PARAM_DELIM p)).address
              (regParse H (tokens H.STR_BT_MP_PARAM_DELIM p)).msb
              (regParse H (tokens H.STR_BT_MP_PARAM_DELIM p)).lsb
              (regParse H (tokens H.STR_BT_MP_PARAM_DELIM p)).data).1
          dev := (M.SetRegMaskBits dev
              (regParse H (tokens H.STR_BT_MP_PARAM_DELIM p)).type
              (regParse H (tokens H.STR_BT_MP_PARAM_DELIM p)).page
              (regParse H (tokens H.STR_BT_MP_PARAM_DELIM p)).address
              (regParse H (tokens H.STR_BT_MP_PARAM_DELIM p)).msb
              (regParse H (tokens H.STR_BT_MP_PARAM_DELIM p)).lsb
              (regParse H (tokens H.STR_BT_MP_PARAM_DELIM p)).data).2 }) := by
  have hc : ¬ ((regParse H (tokens H.STR_BT_MP_PARAM_DELIM p)).params_count ≠
      REGRW_PARAM_COUNT H (regParse H (tokens H.STR_BT_MP_PARAM_DELIM p))) := by
    rw [REGRW_PARAM_COUNT_eq, not_not]
    exact (regParse_count_iff H _).mpr h
  simp only [BT_RegRW]
  rw [if_neg hc]

/-! ## C8: the field count gates the register access -/

/-- C8. With the accessor that records its calls: `BT_RegRW` calls the register
accessor if and only if the number of field tokens equals 5, plus 1 when the
type token selects `BB_REG`, plus 1 when the flag token is 1 (write). For every
other count, and with any accessor, it writes the response
`<name><delim><FUNCTION_PARAMETER_ERROR>` and leaves the device untouched. -/
theorem C8_regrw_field_count (H : Header) (getCode : Int) (getData : Nat) (setCode : Int)
    (p : CStr) :
    ((BT_RegRW H (recorder getCode getData setCode) [] p).dev ≠ [] ↔
      (tokens H.STR_BT_MP_PARAM_DELIM p).length =
        regFieldCount H (tokens H.STR_BT_MP_PARAM_DELIM p)) ∧
    ((tokens H.STR_BT_MP_PARAM_DELIM p).length ≠
        regFieldCount H (tokens H.STR_BT_MP_PARAM_DELIM p) →
      ∀ (δ : Type) (M : RegAccess δ) (dev : δ),
        (BT_RegRW H M dev p).notify =
          codeResponse H H.STR_BT_MP_REG_RW H.FUNCTION_PARAMETER_ERROR ∧
        (BT_RegRW H M dev p).dev = dev) := by
  constructor
  · constructor
    · intro hcall
      by_contra hne
      rw [BT_RegRW_wrong_count H _ _ p hne] at hcall
      exact hcall rfl
    · intro heq
      rw [BT_RegRW_right_count H _ _ p heq]
      split_ifs <;> simp [recorder]
  · intro hne δ M dev
    rw [BT_RegRW_wrong_count H M dev p hne]
    exact ⟨rfl, rfl⟩

/-- C8, instances on the reference header (type 1 is not `BB_REG`): a read with 4
or with 6 fields makes no call and answers with the parameter error; a write
with 6 fields is forwarded. -/
theorem C8_regrw_field_count_witness :
    ((BT_RegRW refHeader (recorder 0 0 0) [] "1,0,0x10,7".toList).dev = [] ∧
      (BT_RegRW refHeader (recorder 0 0 0) [] "1,0,0x10,7".toList).notify =
        codeResponse refHeader refHeader.STR_BT_MP_REG_RW refHeader.FUNCTION_PARAMETER_ERROR) ∧
    ((BT_RegRW refHeader (recorder 0 0 0) [] "1,0,0x10,7,0,5".toList).dev = [] ∧
      (BT_RegRW refHeader (recorder 0 0 0) [] "1,0,0x10,7,0,5".toList).notify =
        codeResponse refHeader refHeader.STR_BT_MP_REG_RW refHeader.FUNCTION_PARAMETER_ERROR) ∧
    (BT_RegRW refHeader (recorder 0 0 0) [] "1,1,0x10,7,0,5".toList).dev ≠ [] :=
  ⟨⟨((C8_regrw_field_count refHeader 0 0 0 "1,0,0x10,7".toList).2 (by decide)
        _ (recorder 0 0 0) []).2,
     ((C8_regrw_field_count refHeader 0 0 0 "1,0,0x10,7".toList).2 (by decide)
        _ (recorder 0 0 0) []).1⟩,
   ⟨((C8_regrw_field_count refHeader 0 0 0 "1,0,0x10,7,0,5".toList).2 (by decide)
        _ (recorder 0 0 0) []).2,
     ((C8_regrw_field_count refHeader 0 0 0 "1,0,0x10,7,0,5".toList).2 (by decide)
        _ (recorder 0 0 0) []).1⟩,
   (C8_regrw_field_count refHeader 0 0 0 "1,1,0x10,7,0,5".toList).1.mpr (by decide)⟩

/-! ## C9: returned code and response code of `BT_RegRW` -/

/-- C9 (the code departs from the claim). When the number of fields is wrong,
`BT_RegRW` writes `FUNCTION_PARAMETER_ERROR` into the response but returns
`BT_FUNCTION_SUCCESS`: `rtn` is never assigned on that path. -/
theorem C9_regrw_return_differs_from_response {δ : Type} (H : Header) (M : RegAccess δ)
    (dev : δ) (p : CStr)
    (h : (tokens H.STR_BT_MP_PARAM_DELIM p).length ≠
      regFieldCount H (tokens H.STR_BT_MP_PARAM_DELIM p)) :
    (BT_RegRW H M dev p).rtn = H.BT_FUNCTION_SUCCESS ∧
    (BT_RegRW H M dev p).notify =
      H.STR_BT_MP_REG_RW ++ H.STR_BT_MP_RESULT_DELIM ++ fmt_x_int H.FUNCTION_PARAMETER_ERROR := by
  rw [BT_RegRW_wrong_count H M dev p h]
  exact ⟨rfl, rfl⟩

/-- C9, the failing input `1,0,0x10,7` (a read with four fields) on the reference
header: the response carries code 4, the function returns 0. -/
theorem C9_regrw_return_differs_from_response_witness :
    (BT_RegRW refHeader (recorder 0 0 0) [] "1,0,0x10,7".toList).rtn = 0 ∧
    (BT_RegRW refHeader (recorder 0 0 0) [] "1,0,0x10,7".toList).notify =
      "bt_mp_RegRW".toList ++ ",".toList ++ "4".toList :=
  C9_regrw_return_differs_from_response refHeader (recorder 0 0 0) [] "1,0,0x10,7".toList
    (by decide)


/-! ## C10: what `BT_RegRW` forwards and what it answers -/

theorem fmt_x_length_le (n e : Nat) (he : 0 < e) (hn : n < 16 ^ e) : (fmt_x n).length ≤ e := by
  unfold fmt_x Nat.toDigits
  exact Nat.toDigitsCore_length 16 (by decide) (n + 1) n e hn he

/-- `%08x` of a 32-bit value has exactly 8 characters. -/
theorem fmt_0x_8_length (n : Nat) (hn : n < 2 ^ 32) : (fmt_0x 8 n).length = 8 := by
  have h := fmt_x_length_le n 8 (by decide) (by
    have : (16 : Nat) ^ 8 = 2 ^ 32 := by norm_num
    omega)
  unfold fmt_0x
  rw [List.length_append, List.length_replicate]
  omega

/-- The locals of `BT_RegRW` for a command with the right number of fields:
`page` and `data` are the optional page and data tokens. -/
theorem regParse_fields (H : Header) (tt trw ta tm tl : CStr) (page data : Option CStr)
    (hpage : page.isSome = true ↔ tok8 H tt = H.BB_REG)
    (hdata : data.isSome = true ↔ tok8 H trw = 1) :
    regParse H (tt :: trw :: (page.toList ++ [ta, tm, tl] ++ data.toList)) =
      { params_count := 5 + page.toList.length + data.toList.length
        type := tok8 H tt
        rw := tok8 H trw
        page := (page.map (tok8 H)).getD 0
        address := tok8 H ta
        msb := tok8 H tm
        lsb := tok8 H tl
        data := (data.map (tok32 H)).getD 0 } := by
  cases page with
  | none =>
    have hb : ¬ (tok8 H tt = H.BB_REG) := by simpa using hpage
    cases data with
    | none =>
      have hw : ¬ (tok8 H trw = 1) := by simpa using hdata
      simp only [tok8] at hb hw
      simp [regParse, regRw, regPage, regAddress, regMsb, regLsb, regData, regEnd, tok8, hb, hw]
    | some td =>
      have hw : tok8 H trw = 1 := by simpa using hdata
      simp only [tok8] at hb hw
      simp [regParse, regRw, regPage, regAddress, regMsb, regLsb, regData, regEnd, tok8, tok32,
        hb, hw]
  | some tp =>
    have hb : tok8 H tt = H.BB_REG := by simpa using hpage
    cases data with
    | none =>
      have hw : ¬ (tok8 H trw = 1) := by simpa using hdata
      simp only [tok8] at hb hw
      simp [regParse, regRw, regPage, regAddress, regMsb, regLsb, regData, regEnd, tok8, hb, hw]
    | some td =>
      have hw : tok8 H trw = 1 := by simpa using hdata
      simp only [tok8] at hb hw
      simp [regParse, regRw, regPage, regAddress, regMsb, regLsb, regData, regEnd, tok8, tok32,
        hb, hw]

/-- C10. A register command with the right number of fields, i.e. the tokens
type, rw, page (present exactly for `BB_REG`), address, msb, lsb, data (present
exactly when rw is 1). On a read (rw 0) `BT_RegRW` calls `GetRegMaskBits` with
type, page, address, msb, lsb each decoded and truncated to 8 bits (page 0
without a page token), returns its code, and answers with the name, the code
in hex and the value as exactly 8 hex digits. On a write (rw 1) it calls
`SetRegMaskBits` with the same five arguments and the decoded data, returns
its code, and answers with the name and the code only. -/
theorem C10_regrw_forwarding {δ : Type} (H : Header) (M : RegAccess δ) (dev : δ)
    (p tt trw ta tm tl : CStr) (page data : Option CStr)
    (hts : tokens H.STR_BT_MP_PARAM_DELIM p =
      tt :: trw :: (page.toList ++ [ta, tm, tl] ++ data.toList))
    (hpage : page.isSome = true ↔ tok8 H tt = H.BB_REG)
    (hdata : data.isSome = true ↔ tok8 H trw = 1) :
    (tok8 H trw = 0 →
      BT_RegRW H M dev p =
        { rtn := (M.GetRegMaskBits dev (tok8 H tt) ((page.map (tok8 H)).getD 0) (tok8 H ta)
            (tok8 H tm) (tok8 H tl) 0).1
          notify := H.STR_BT_MP_REG_RW ++ H.STR_BT_MP_RESULT_DELIM ++
            fmt_x_int (M.GetRegMaskBits dev (tok8 H tt) ((page.map (tok8 H)).getD 0) (tok8 H ta)
              (tok8 H tm) (tok8 H tl) 0).1 ++
            H.STR_BT_MP_RESULT_DELIM ++
            fmt_0x 8 ((M.GetRegMaskBits dev (tok8 H tt) ((page.map (tok8 H)).getD 0) (tok8 H ta)
              (tok8 H tm) (tok8 H tl) 0).2.1 % 2 ^ 32)
          dev := (M.GetRegMaskBits dev (tok8 H tt) ((page.map (tok8 H)).getD 0) (tok8 H ta)
            (tok8 H tm) (tok8 H tl) 0).2.2 } ∧
      (fmt_0x 8 ((M.GetRegMaskBits dev (tok8 H tt) ((page.map (tok8 H)).getD 0) (tok8 H ta)
        (tok8 H tm) (tok8 H tl) 0).2.1 % 2 ^ 32)).length = 8 ∧
      scanDigits 16 (fmt_0x 8 ((M.GetRegMaskBits dev (tok8 H tt) ((page.map (tok8 H)).getD 0)
        (tok8 H ta) (tok8 H tm) (tok8 H tl) 0).2.1 % 2 ^ 32)) 0 =
        ((M.GetRegMaskBits dev (tok8 H tt) ((page.map (tok8 H)).getD 0) (tok8 H ta)
          (tok8 H tm) (tok8 H tl) 0).2.1 % 2 ^ 32, [])) ∧
    (tok8 H trw = 1 →
      BT_RegRW H M dev p =
        { rtn := (M.SetRegMaskBits dev (tok8 H tt) ((page.map (tok8 H)).getD 0) (tok8 H ta)
            (tok8 H tm) (tok8 H tl) ((data.map (tok32 H)).getD 0)).1
          notify := H.STR_BT_MP_REG_RW ++ H.STR_BT_MP_RESULT_DELIM ++
            fmt_x_int (M.SetRegMaskBits dev (tok8 H tt) ((page.map (tok8 H)).getD 0) (tok8 H ta)
              (tok8 H tm) (tok8 H tl) ((data.map (tok32 H)).getD 0)).1
          dev := (M.SetRegMaskBits dev (tok8 H tt) ((page.map (tok8 H)).getD 0) (tok8 H ta)
            (tok8 H tm) (tok8 H tl) ((data.map (tok32 H)).getD 0)).2 }) := by
  have hparse := regParse_fields H tt trw ta tm tl page data hpage hdata
  have hlen : (tokens H.STR_BT_MP_PARAM_DELIM p).length =
      regFieldCount H (tokens H.STR_BT_MP_PARAM_DELIM p) := by
    apply (regParse_count_iff H _).mp
    rw [← REGRW_PARAM_COUNT_eq, hts, hparse]
    simp only [REGRW_PARAM_COUNT]
    cases page <;> cases data <;> simp_all
  have hrun := BT_RegRW_right_count H M dev p hlen
  rw [hts, hparse] at hrun
  constructor
  · intro hr
    have hd : (data.map (tok32 H)).getD 0 = 0 := by
      cases data with
      | none => rfl
      | some td =>
        have : tok8 H trw = 1 := hdata.mp rfl
        omega
    refine ⟨?_, fmt_0x_8_length _ (Nat.mod_lt _ (by decide)), scanDigits_fmt_0x _ _⟩
    rw [hrun]
    simp only [hr, hd, if_true]
  · intro hr
    rw [hrun]
    simp [hr, codeResponse]

/-- C10, instances on the reference header with the recording accessor: the read
`1,0,0x10,7,4` and the BB write `3,1,2,0x110,7,4,0x5a` (address truncated to
8 bits). -/
theorem C10_regrw_forwarding_witness :
    (BT_RegRW refHeader (recorder 0 0xabc 0) [] "1,0,0x10,7,4".toList =
        { rtn := 0
          notify := "bt_mp_RegRW,0,00000abc".toList
          dev := [RegCall.get 1 0 16 7 4] }) ∧
    (BT_RegRW refHeader (recorder 0 0xabc 0) [] "3,1,2,0x110,7,4,0x5a".toList =
        { rtn := 0
          notify := "bt_mp_RegRW,0".toList
          dev := [RegCall.set 3 2 16 7 4 90] }) :=
  ⟨((C10_regrw_forwarding refHeader (recorder 0 0xabc 0) [] "1,0,0x10,7,4".toList
      "1".toList "0".toList "0x10".toList "7".toList "4".toList none none
      (by decide) (by decide) (by decide)).1 (by decide)).1,
   (C10_regrw_forwarding refHeader (recorder 0 0xabc 0) [] "3,1,2,0x110,7,4,0x5a".toList
      "3".toList "1".toList "0x110".toList "7".toList "4".toList (some "2".toList)
      (some "0x5a".toList) (by decide) (by decide) (by decide)).2 (by decide)⟩


/-! ## C11: the bit range is not checked -/

/-- C11 (fails as stated). On the reference header the read `1,0,0x10,3,7`, whose
msb 3 is smaller than its lsb 7, reaches `GetRegMaskBits` with msb 3 and lsb 7,
and the response is not the parameter-error response. -/
theorem C11_msb_below_lsb_reaches_accessor :
    (BT_RegRW refHeader (recorder 0 0 0) [] "1,0,0x10,3,7".toList).dev =
        [RegCall.get 1 0 16 3 7] ∧
    (BT_RegRW refHeader (recorder 0 0 0) [] "1,0,0x10,3,7".toList).notify ≠
        codeResponse refHeader refHeader.STR_BT_MP_REG_RW refHeader.FUNCTION_PARAMETER_ERROR := by
  decide

/-- C11 (amended). `BT_RegRW` does not compare msb with lsb: a register command
with the right number of fields whose msb token decodes below its lsb token is
forwarded like any other, `GetRegMaskBits` (rw 0) or `SetRegMaskBits` (rw 1)
being called once with that msb and lsb, and the accessor's code is returned.
Stated with the accessor that records its calls. -/
theorem C11_regrw_bit_range_unchecked (H : Header) (getCode : Int) (getData : Nat)
    (setCode : Int) (p tt trw ta tm tl : CStr) (page data : Option CStr)
    (hts : tokens H.STR_BT_MP_PARAM_DELIM p =
      tt :: trw :: (page.toList ++ [ta, tm, tl] ++ data.toList))
    (hpage : page.isSome = true ↔ tok8 H tt = H.BB_REG)
    (hdata : data.isSome = true ↔ tok8 H trw = 1)
    (_hlt : tok8 H tm < tok8 H tl) :
    (tok8 H trw = 0 →
      (BT_RegRW H (recorder getCode getData setCode) [] p).dev =
        [RegCall.get (tok8 H tt) ((page.map (tok8 H)).getD 0) (tok8 H ta) (tok8 H tm)
          (tok8 H tl)] ∧
      (BT_RegRW H (recorder getCode getData setCode) [] p).rtn = getCode) ∧
    (tok8 H trw = 1 →
      (BT_RegRW H (recorder getCode getData setCode) [] p).dev =
        [RegCall.set (tok8 H tt) ((page.map (tok8 H)).getD 0) (tok8 H ta) (tok8 H tm)
          (tok8 H tl) ((data.map (tok32 H)).getD 0)] ∧
      (BT_RegRW H (recorder getCode getData setCode) [] p).rtn = setCode) := by
  have hparse := regParse_fields H tt trw ta tm tl page data hpage hdata
  have hlen : (tokens H.STR_BT_MP_PARAM_DELIM p).length =
      regFieldCount H (tokens H.STR_BT_MP_PARAM_DELIM p) := by
    apply (regParse_count_iff H _).mp
    rw [← REGRW_PARAM_COUNT_eq, hts, hparse]
    simp only [REGRW_PARAM_COUNT]
    cases page <;> cases data <;> simp_all
  have hrun := BT_RegRW_right_count H (recorder getCode getData setCode) [] p hlen
  rw [hts, hparse] at hrun
  constructor
  · intro hr
    rw [hrun]
    simp [hr, recorder]
  · intro hr
    rw [hrun]
    simp [hr, recorder]

/-- C11 (amended), instances on the reference header: a read and a write with
msb 3 below lsb 7. -/
theorem C11_regrw_bit_range_unchecked_witness :
    ((BT_RegRW refHeader (recorder 0 0 0) [] "1,0,0x10,3,7".toList).dev =
        [RegCall.get 1 0 16 3 7] ∧
      (BT_RegRW refHeader (recorder 0 0 0) [] "1,0,0x10,3,7".toList).rtn = 0) ∧
    ((BT_RegRW refHeader (recorder 0 0 0) [] "1,1,0x10,3,7,0xff".toList).dev =
        [RegCall.set 1 0 16 3 7 255] ∧
      (BT_RegRW refHeader (recorder 0 0 0) [] "1,1,0x10,3,7,0xff".toList).rtn = 0) :=
  ⟨(C11_regrw_bit_range_unchecked refHeader 0 0 0 "1,0,0x10,3,7".toList "1".toList "0".toList
      "0x10".toList "3".toList "7".toList none none (by decide) (by decide) (by decide)
      (by decide)).1 (by decide),
   (C11_regrw_bit_range_unchecked refHeader 0 0 0 "1,1,0x10,3,7,0xff".toList "1".toList
      "1".toList "0x10".toList "3".toList "7".toList none (some "0xff".toList) (by decide)
      (by decide) (by decide) (by decide)).2 (by decide)⟩


/-! ## The raw HCI command -/

/-- The data loop with enough tokens: it takes exactly the declared number of
tokens and does not look at the rest. -/
theorem hciData_enough (H : Header) :
    ∀ (n : Nat) (data extra : List CStr) (arr : List Nat) (pc : Nat),
      data.length = n → pc < 2 ^ 8 →
      hciData H n (data ++ extra) arr pc =
        some (arr ++ data.map (tok8 H), (pc + n) % 2 ^ 8) := by
  intro n
  induction n with
  | zero =>
    intro data extra arr pc hlen hpc
    have hd : data = [] := List.length_eq_zero.mp hlen
    subst hd
    simp only [List.nil_append, hciData, List.map_nil, List.append_nil, Nat.add_zero,
      Nat.mod_eq_of_lt hpc]
  | succ n ih =>
    intro data extra arr pc hlen hpc
    cases data with
    | nil => simp at hlen
    | cons t ts =>
      simp only [List.length_cons, Nat.add_right_cancel_iff] at hlen
      show hciData H n (ts ++ extra) (arr ++ [toUnsigned 8 (strtol H t).1])
        ((pc + 1) % 2 ^ 8) = _
      rw [ih ts extra (arr ++ [toUnsigned 8 (strtol H t).1]) ((pc + 1) % 2 ^ 8) hlen
        (Nat.mod_lt _ (by decide))]
      simp only [tok8, List.map_cons, List.append_assoc, List.singleton_append]
      congr 2
      omega

/-- The data loop with too few tokens leaves through `goto EXIT`. -/
theorem hciData_short (H : Header) :
    ∀ (n : Nat) (data : List CStr) (arr : List Nat) (pc : Nat),
      data.length < n → hciData H n data arr pc = none := by
  intro n
  induction n with
  | zero => intro data arr pc h; omega
  | succ n ih =>
    intro data arr pc hlen
    cases data with
    | nil => rfl
    | cons t ts =>
      simp only [List.length_cons, Nat.add_lt_add_iff_right] at hlen
      simp only [hciData]
      exact ih ts _ _ hlen

/-- `BT_SendHciCmd` on a command that carries at least the declared number of
data tokens, the declared length being at most 253: the exchange is made with
the first `length` tokens as payload. -/
theorem BT_SendHciCmd_forward {δ : Type} (H : Header) (M : HciAccess δ) (dev : δ)
    (p t0 t1 : CStr) (data extra : List CStr)
    (hts : tokens H.STR_BT_MP_PARAM_DELIM p = t0 :: t1 :: (data ++ extra))
    (hlen : data.length = tok8 H t1) (h253 : tok8 H t1 ≤ 253) :
    BT_SendHciCmd H M dev p =
      (if (M.SendHciCommandWithEvent dev (tok16 H t0) (tok8 H t1) (data.map (tok8 H)) 0x0E).1
          = H.BT_FUNCTION_SUCCESS then
        (if (M.SendHciCommandWithEvent dev (tok16 H t0) (tok8 H t1)
            (data.map (tok8 H)) 0x0E).2.2.1 < 2 ^ 8 then
          some { rtn := (M.SendHciCommandWithEvent dev (tok16 H t0) (tok8 H t1)
                   (data.map (tok8 H)) 0x0E).1
                 notify := H.STR_BT_MP_HCI_CMD ++ printEvent H
                   (M.SendHciCommandWithEvent dev (tok16 H t0) (tok8 H t1)
                     (data.map (tok8 H)) 0x0E).2.1
                   (M.SendHciCommandWithEvent dev (tok16 H t0) (tok8 H t1)
                     (data.map (tok8 H)) 0x0E).2.2.1
                 dev := (M.SendHciCommandWithEvent dev (tok16 H t0) (tok8 H t1)
                   (data.map (tok8 H)) 0x0E).2.2.2 }
        else none)
      else
        some (hciExit H
          (M.SendHciCommandWithEvent dev (tok16 H t0) (tok8 H t1) (data.map (tok8 H)) 0x0E).1
          (M.SendHciCommandWithEvent dev (tok16 H t0) (tok8 H t1)
            (data.map (tok8 H)) 0x0E).2.2.2)) := by
  have hd := hciData_enough H (tok8 H t1) data extra [] 2 hlen (by decide)
  have hmod : (2 + tok8 H t1) % 2 ^ 8 = tok8 H t1 + 2 := by
    rw [Nat.mod_eq_of_lt (by omega)]
    omega
  simp only [tok8] at hd hmod
  simp only [BT_SendHciCmd, hts, tok8, tok16, hd, hmod, List.nil_append, ne_eq,
    not_true_eq_false, if_false]

/-! ## C12: declared length against supplied data tokens -/

/-- C12 (the code departs from the claim). With the exchange that records what is
sent: when fewer data tokens than the declared length are supplied,
`BT_SendHciCmd` returns `FUNCTION_PARAMETER_ERROR` and sends nothing; but when
more are supplied (declared length at most 253), the command is sent all the
same, with the first `length` data tokens as payload, and the surplus tokens
are never looked at. -/
theorem C12_hci_surplus_tokens_forwarded (H : Header) (code : Int) (ev : List Nat)
    (p t0 t1 : CStr) (data extra : List CStr)
    (hts : tokens H.STR_BT_MP_PARAM_DELIM p = t0 :: t1 :: (data ++ extra))
    (hev : ev.length < 2 ^ 8) :
    ((data ++ extra).length < tok8 H t1 →
      BT_SendHciCmd H (hciRecorder code ev) [] p =
        some (hciExit H H.FUNCTION_PARAMETER_ERROR [])) ∧
    (data.length = tok8 H t1 → tok8 H t1 ≤ 253 → extra ≠ [] →
      ∃ r, BT_SendHciCmd H (hciRecorder code ev) [] p = some r ∧
        r.rtn = code ∧ r.dev = [(tok16 H t0, tok8 H t1, data.map (tok8 H))]) := by
  constructor
  · intro hshort
    have hd := hciData_short H (tok8 H t1) (data ++ extra) [] 2 hshort
    simp only [tok8] at hd
    simp only [BT_SendHciCmd, hts, hd]
  · intro hlen h253 _
    rw [BT_SendHciCmd_forward H _ [] p t0 t1 data extra hts hlen h253]
    simp only [hciRecorder, hciExit, hev, if_true, List.nil_append]
    by_cases hc : code = H.BT_FUNCTION_SUCCESS
    · rw [if_pos hc]
      exact ⟨_, rfl, rfl, rfl⟩
    · rw [if_neg hc]
      exact ⟨_, rfl, rfl, rfl⟩

/-- C12, the failing input `0xfc01,1,5,6` on the reference header: declared
length 1, two data tokens; opcode `0xfc01` is sent with the payload `[5]`. -/
theorem C12_hci_surplus_tokens_forwarded_witness :
    ∃ r, BT_SendHciCmd refHeader (hciRecorder 0 [14, 4]) [] "0xfc01,1,5,6".toList = some r ∧
      r.rtn = 0 ∧ r.dev = [(0xfc01, 1, [5])] :=
  (C12_hci_surplus_tokens_forwarded refHeader 0 [14, 4] "0xfc01,1,5,6".toList "0xfc01".toList
    "1".toList ["5".toList] ["6".toList] (by decide) (by decide)).2 (by decide) (by decide)
    (by decide)

/-! ## C13: returned code and response code of `BT_SendHciCmd` -/

/-- C13 (the code departs from the claim). When a well-formed command is sent and
the device exchange fails with a code `c`, `BT_SendHciCmd` returns `c` but the
response it writes at `EXIT` carries `FUNCTION_PARAMETER_ERROR`, not `c`. -/
theorem C13_hci_failure_response_code {δ : Type} (H : Header) (M : HciAccess δ) (dev : δ)
    (p t0 t1 : CStr) (data : List CStr)
    (hts : tokens H.STR_BT_MP_PARAM_DELIM p = t0 :: t1 :: data)
    (hlen : data.length = tok8 H t1) (h253 : tok8 H t1 ≤ 253)
    (hfail : (M.SendHciCommandWithEvent dev (tok16 H t0) (tok8 H t1) (data.map (tok8 H)) 0x0E).1
      ≠ H.BT_FUNCTION_SUCCESS) :
    BT_SendHciCmd H M dev p =
      some { rtn := (M.SendHciCommandWithEvent dev (tok16 H t0) (tok8 H t1)
               (data.map (tok8 H)) 0x0E).1
             notify := H.STR_BT_MP_HCI_CMD ++ H.STR_BT_MP_RESULT_DELIM ++
               fmt_x_int H.FUNCTION_PARAMETER_ERROR
             dev := (M.SendHciCommandWithEvent dev (tok16 H t0) (tok8 H t1)
               (data.map (tok8 H)) 0x0E).2.2.2 } := by
  have hts2 : tokens H.STR_BT_MP_PARAM_DELIM p = t0 :: t1 :: (data ++ []) := by
    rw [List.append_nil]; exact hts
  rw [BT_SendHciCmd_forward H M dev p t0 t1 data [] hts2 hlen h253, if_neg hfail]
  rfl

/-- C13, the failing input: `0x0c03,0` on the reference header with a device that
fails with code 9; the function returns 9, the response carries 4. -/
theorem C13_hci_failure_response_code_witness :
    BT_SendHciCmd refHeader (hciRecorder 9 []) [] "0x0c03,0".toList =
      some { rtn := 9
             notify := "bt_mp_HciCmd,4".toList
             dev := [(0x0c03, 0, [])] } :=
  C13_hci_failure_response_code refHeader (hciRecorder 9 []) [] "0x0c03,0".toList
    "0x0c03".toList "0".toList [] (by decide) (by decide) (by decide) (by decide)


/-! ## C14: ordinals outside the action range -/

/-- C14. A command made of one action token that decodes to an ordinal
`idx ≤ NOTTHING` or `idx ≥ NUMBEROFBT_ACTIONCONTROL_TAG`: whatever the dispatcher
is, `BT_Exec` leaves the whole module (parameter block with its stored
ordinal, session report, device) as it was, so the dispatcher is not invoked,
and writes the response `<name><delim><text of p><delim><FUNCTION_PARAMETER_ERROR>`. -/
theorem C14_exec_out_of_range {δ : Type} (H : Header) (A : ActionTags)
    (ActionControlExcute : BT_MODULE δ → Int × BT_MODULE δ) (m : BT_MODULE δ)
    (p buf token : CStr)
    (ht : tokens H.STR_BT_MP_PARAM_DELIM p = [token])
    (hout : toInt32 (strtol H token).1 ≤ A.NOTTHING ∨
      toInt32 (strtol H token).1 ≥ A.NUMBEROFBT_ACTIONCONTROL_TAG) :
    (BT_Exec H A ActionControlExcute m p buf).module = m ∧
    (BT_Exec H A ActionControlExcute m p buf).module.pBtParam.ParameterIndex =
      m.pBtParam.ParameterIndex ∧
    (BT_Exec H A ActionControlExcute m p buf).notify =
      H.STR_BT_MP_EXEC ++ H.STR_BT_MP_RESULT_DELIM ++
        cutAtFirstToken H.STR_BT_MP_PARAM_DELIM p ++
        H.STR_BT_MP_RESULT_DELIM ++ fmt_x_int H.FUNCTION_PARAMETER_ERROR := by
  have hc : ¬ (toInt32 (strtol H token).1 > A.NOTTHING ∧
      toInt32 (strtol H token).1 < A.NUMBEROFBT_ACTIONCONTROL_TAG) := by omega
  simp only [BT_Exec, ht, hc, if_false, and_self]

/-- C14, instance: the ordinal 99 on the reference tags with a dispatcher that
counts its invocations; the count stays 0. -/
theorem C14_exec_out_of_range_witness :
    (BT_Exec refHeader refActions (tickDispatcher 7) (zeroModule 0) "99".toList []).module
        = zeroModule 0 ∧
    (BT_Exec refHeader refActions (tickDispatcher 7) (zeroModule 0) "99".toList []).module.pBtParam.ParameterIndex
        = (zeroModule 0).pBtParam.ParameterIndex ∧
    (BT_Exec refHeader refActions (tickDispatcher 7) (zeroModule 0) "99".toList []).notify =
      refHeader.STR_BT_MP_EXEC ++ refHeader.STR_BT_MP_RESULT_DELIM ++
        cutAtFirstToken refHeader.STR_BT_MP_PARAM_DELIM "99".toList ++
        refHeader.STR_BT_MP_RESULT_DELIM ++ fmt_x_int refHeader.FUNCTION_PARAMETER_ERROR :=
  C14_exec_out_of_range refHeader refActions (tickDispatcher 7) (zeroModule 0) "99".toList []
    "99".toList (by decide) (by decide)

/-! ## C15: returned code and response of `BT_Exec` -/

/-- C15 (the code departs from the claim). `BT_Exec` with no token or with a
redundant second token returns `FUNCTION_PARAMETER_ERROR` and writes nothing:
`pNotifyBuffer` keeps its prior content. With one token that decodes outside
the action range it writes the response carrying `FUNCTION_PARAMETER_ERROR`
but returns `BT_FUNCTION_SUCCESS`. -/
theorem C15_exec_response_not_consistent {δ : Type} (H : Header) (A : ActionTags)
    (ActionControlExcute : BT_MODULE δ → Int × BT_MODULE δ) (m : BT_MODULE δ)
    (p buf : CStr) :
    ((tokens H.STR_BT_MP_PARAM_DELIM p).length ≠ 1 →
      (BT_Exec H A ActionControlExcute m p buf).rtn = H.FUNCTION_PARAMETER_ERROR ∧
      (BT_Exec H A ActionControlExcute m p buf).notify = buf) ∧
    (∀ token, tokens H.STR_BT_MP_PARAM_DELIM p = [token] →
      (toInt32 (strtol H token).1 ≤ A.NOTTHING ∨
        toInt32 (strtol H token).1 ≥ A.NUMBEROFBT_ACTIONCONTROL_TAG) →
      (BT_Exec H A ActionControlExcute m p buf).rtn = H.BT_FUNCTION_SUCCESS ∧
      (BT_Exec H A ActionControlExcute m p buf).notify =
        H.STR_BT_MP_EXEC ++ H.STR_BT_MP_RESULT_DELIM ++
          cutAtFirstToken H.STR_BT_MP_PARAM_DELIM p ++
          H.STR_BT_MP_RESULT_DELIM ++ fmt_x_int H.FUNCTION_PARAMETER_ERROR) := by
  constructor
  · intro hlen
    match hts : tokens H.STR_BT_MP_PARAM_DELIM p with
    | [] => simp only [BT_Exec, hts, and_self]
    | [t] => rw [hts] at hlen; exact absurd rfl hlen
    | t :: t2 :: ts => simp only [BT_Exec, hts, and_self]
  · intro token ht hout
    have hc : ¬ (toInt32 (strtol H token).1 > A.NOTTHING ∧
        toInt32 (strtol H token).1 < A.NUMBEROFBT_ACTIONCONTROL_TAG) := by omega
    simp only [BT_Exec, ht, hc, if_false, and_self]

/-- C15, the failing inputs on the reference header and tags: the empty command
and `1,2` return 4 and leave the buffer (`old`) untouched; `99` writes the
response with code 4 and returns 0. -/
theorem C15_exec_response_not_consistent_witness :
    ((BT_Exec refHeader refActions (tickDispatcher 7) (zeroModule 0) [] "old".toList).rtn = 4 ∧
      (BT_Exec refHeader refActions (tickDispatcher 7) (zeroModule 0) [] "old".toList).notify
        = "old".toList) ∧
    ((BT_Exec refHeader refActions (tickDispatcher 7) (zeroModule 0) "1,2".toList
        "old".toList).rtn = 4 ∧
      (BT_Exec refHeader refActions (tickDispatcher 7) (zeroModule 0) "1,2".toList
        "old".toList).notify = "old".toList) ∧
    ((BT_Exec refHeader refActions (tickDispatcher 7) (zeroModule 0) "99".toList
        "old".toList).rtn = 0 ∧
      (BT_Exec refHeader refActions (tickDispatcher 7) (zeroModule 0) "99".toList
        "old".toList).notify = "bt_mp_Exec,99,4".toList) :=
  ⟨(C15_exec_response_not_consistent refHeader refActions (tickDispatcher 7) (zeroModule 0) []
      "old".toList).1 (by decide),
   (C15_exec_response_not_consistent refHeader refActions (tickDispatcher 7) (zeroModule 0)
      "1,2".toList "old".toList).1 (by decide),
   (C15_exec_response_not_consistent refHeader refActions (tickDispatcher 7) (zeroModule 0)
      "99".toList "old".toList).2 "99".toList (by decide) (by decide)⟩

/-! ## C16: a valid action ordinal -/

/-- C16. A command made of one action token that decodes to an ordinal `idx` with
`NOTTHING < idx < NUMBEROFBT_ACTIONCONTROL_TAG`: `BT_Exec` stores `idx` in
`pBtParam->ParameterIndex`, runs the dispatcher on that module, returns the
dispatcher's code and module, and writes the response name, `idx` in hex, code
in hex. With the dispatcher that counts its invocations the count goes up by
exactly one, and the ordinal `idx` is the stored one. -/
theorem C16_exec_valid_ordinal {δ : Type} (H : Header) (A : ActionTags)
    (ActionControlExcute : BT_MODULE δ → Int × BT_MODULE δ) (m : BT_MODULE δ)
    (p buf token : CStr)
    (ht : tokens H.STR_BT_MP_PARAM_DELIM p = [token])
    (hin : A.NOTTHING < toInt32 (strtol H token).1 ∧
      toInt32 (strtol H token).1 < A.NUMBEROFBT_ACTIONCONTROL_TAG) :
    (BT_Exec H A ActionControlExcute m p buf).rtn =
      (ActionControlExcute { m with pBtParam :=
        { m.pBtParam with ParameterIndex := toInt32 (strtol H token).1 } }).1 ∧
    (BT_Exec H A ActionControlExcute m p buf).module =
      (ActionControlExcute { m with pBtParam :=
        { m.pBtParam with ParameterIndex := toInt32 (strtol H token).1 } }).2 ∧
    (BT_Exec H A ActionControlExcute m p buf).notify =
      H.STR_BT_MP_EXEC ++ H.STR_BT_MP_RESULT_DELIM ++ fmt_x_int (toInt32 (strtol H token).1) ++
        H.STR_BT_MP_RESULT_DELIM ++
        fmt_x_int (ActionControlExcute { m with pBtParam :=
          { m.pBtParam with ParameterIndex := toInt32 (strtol H token).1 } }).1 ∧
    (∀ (code : Int) (mc : BT_MODULE Nat),
      (BT_Exec H A (tickDispatcher code) mc p buf).module.pBtDevice = mc.pBtDevice + 1 ∧
      (BT_Exec H A (tickDispatcher code) mc p buf).module.pBtParam.ParameterIndex =
        toInt32 (strtol H token).1 ∧
      (BT_Exec H A (tickDispatcher code) mc p buf).rtn = code) := by
  have hc : toInt32 (strtol H token).1 > A.NOTTHING ∧
      toInt32 (strtol H token).1 < A.NUMBEROFBT_ACTIONCONTROL_TAG := ⟨hin.1, hin.2⟩
  refine ⟨?_, ?_, ?_, ?_⟩
  · simp only [BT_Exec, ht, hc, and_self, if_true]
  · simp only [BT_Exec, ht, hc, and_self, if_true]
  · simp only [BT_Exec, ht, hc, and_self, if_true]
  · intro code mc
    simp only [BT_Exec, ht, hc, and_self, if_true, tickDispatcher]

/-- C16, instance: the ordinal 15 on the reference tags with the counting
dispatcher that returns 7. -/
theorem C16_exec_valid_ordinal_witness :
    (BT_Exec refHeader refActions (tickDispatcher 7) (zeroModule 0) "15".toList []).rtn = 7 ∧
    (BT_Exec refHeader refActions (tickDispatcher 7) (zeroModule 0) "15".toList []).module.pBtDevice
      = 1 ∧
    (BT_Exec refHeader refActions (tickDispatcher 7) (zeroModule 0) "15".toList []).notify =
      "bt_mp_Exec,f,7".toList :=
  ⟨(C16_exec_valid_ordinal refHeader refActions (tickDispatcher 7) (zeroModule 0) "15".toList []
      "15".toList (by decide) (by decide)).1,
   ((C16_exec_valid_ordinal refHeader refActions (tickDispatcher 7) (zeroModule 0) "15".toList []
      "15".toList (by decide) (by decide)).2.2.2 7 (zeroModule 0)).1,
   (C16_exec_valid_ordinal refHeader refActions (tickDispatcher 7) (zeroModule 0) "15".toList []
      "15".toList (by decide) (by decide)).2.2.1⟩


/-! ## The action dispatcher -/

theorem nodup_index_ne {α : Type} (l : List α) (h : l.Nodup) (i j : Nat) (a b : α)
    (hi : l[i]? = some a) (hj : l[j]? = some b) (hij : i < j) : b ≠ a ∧ a ≠ b := by
  have hjl : j < l.length := by
    by_contra hge
    rw [List.getElem?_eq_none (by omega)] at hj
    exact Option.noConfusion hj
  have hne := (List.nodup_iff_getElem?_ne_getElem?.mp h) i j hij hjl
  rw [hi, hj] at hne
  constructor
  · intro e
    exact hne (by rw [e])
  · intro e
    exact hne (by rw [e])

/-- With distinct case labels, `HCI_RESET` differs from the labels of the cases
in front of it. -/
theorem hci_reset_ne_earlier (A : ActionTags) (h : A.labels.Nodup) :
    A.HCI_RESET ≠ A.MODULE_INIT ∧
    A.HCI_RESET ≠ A.SETTXGAINTABLE ∧
    A.HCI_RESET ≠ A.SETTXDACTABLE ∧
    A.HCI_RESET ≠ A.SET_TXCHANNEL ∧
    A.HCI_RESET ≠ A.SET_RXCHANNEL ∧
    A.HCI_RESET ≠ A.SET_POWERGAININDEX ∧
    A.HCI_RESET ≠ A.SET_POWERGAIN ∧
    A.HCI_RESET ≠ A.SET_POWERDAC ∧
    A.HCI_RESET ≠ A.SET_PAYLOADTYPE ∧
    A.HCI_RESET ≠ A.SET_WHITENINGCOFFENABLE ∧
    A.HCI_RESET ≠ A.SET_PACKETTYPE ∧
    A.HCI_RESET ≠ A.SET_HITTARGET ∧
    A.HCI_RESET ≠ A.SET_TESTMODE ∧
    A.HCI_RESET ≠ A.SET_MUTIRXENABLE :=
  ⟨(nodup_index_ne A.labels h 0 14 _ _ rfl rfl (by decide)).1,
   (nodup_index_ne A.labels h 1 14 _ _ rfl rfl (by decide)).1,
   (nodup_index_ne A.labels h 2 14 _ _ rfl rfl (by decide)).1,
   (nodup_index_ne A.labels h 3 14 _ _ rfl rfl (by decide)).1,
   (nodup_index_ne A.labels h 4 14 _ _ rfl rfl (by decide)).1,
   (nodup_index_ne A.labels h 5 14 _ _ rfl rfl (by decide)).1,
   (nodup_index_ne A.labels h 6 14 _ _ rfl rfl (by decide)).1,
   (nodup_index_ne A.labels h 7 14 _ _ rfl rfl (by decide)).1,
   (nodup_index_ne A.labels h 8 14 _ _ rfl rfl (by decide)).1,
   (nodup_index_ne A.labels h 9 14 _ _ rfl rfl (by decide)).1,
   (nodup_index_ne A.labels h 10 14 _ _ rfl rfl (by decide)).1,
   (nodup_index_ne A.labels h 11 14 _ _ rfl rfl (by decide)).1,
   (nodup_index_ne A.labels h 12 14 _ _ rfl rfl (by decide)).1,
   (nodup_index_ne A.labels h 13 14 _ _ rfl rfl (by decide)).1⟩

/-- With distinct case labels, `REPORT_CLEAR` differs from the labels of the
cases in front of it. -/
theorem report_clear_ne_earlier (A : ActionTags) (h : A.labels.Nodup) :
    A.REPORT_CLEAR ≠ A.MODULE_INIT ∧
    A.REPORT_CLEAR ≠ A.SETTXGAINTABLE ∧
    A.REPORT_CLEAR ≠ A.SETTXDACTABLE ∧
    A.REPORT_CLEAR ≠ A.SET_TXCHANNEL ∧
    A.REPORT_CLEAR ≠ A.SET_RXCHANNEL ∧
    A.REPORT_CLEAR ≠ A.SET_POWERGAININDEX ∧
    A.REPORT_CLEAR ≠ A.SET_POWERGAIN ∧
    A.REPORT_CLEAR ≠ A.SET_POWERDAC ∧
    A.REPORT_CLEAR ≠ A.SET_PAYLOADTYPE ∧
    A.REPORT_CLEAR ≠ A.SET_WHITENINGCOFFENABLE ∧
    A.REPORT_CLEAR ≠ A.SET_PACKETTYPE ∧
    A.REPORT_CLEAR ≠ A.SET_HITTARGET ∧
    A.REPORT_CLEAR ≠ A.SET_TESTMODE ∧
    A.REPORT_CLEAR ≠ A.SET_MUTIRXENABLE ∧
    A.REPORT_CLEAR ≠ A.HCI_RESET ∧
    A.REPORT_CLEAR ≠ A.PACKET_TX_START ∧
    A.REPORT_CLEAR ≠ A.PACKET_TX_START_SET_CHANNEL_PKTTYPE ∧
    A.REPORT_CLEAR ≠ A.PACKET_TX_UPDATE ∧
    A.REPORT_CLEAR ≠ A.PACKET_TX_SEND_ONE ∧
    A.REPORT_CLEAR ≠ A.PACKET_TX_STOP ∧
    A.REPORT_CLEAR ≠ A.PACKET_RX_START ∧
    A.REPORT_CLEAR ≠ A.PACKET_RX_START_SET_CHANNEL_PKTTYPE ∧
    A.REPORT_CLEAR ≠ A.PACKET_RX_UPDATE ∧
    A.REPORT_CLEAR ≠ A.PACKET_RX_STOP ∧
    A.REPORT_CLEAR ≠ A.CONTINUE_TX_LE_START ∧
    A.REPORT_CLEAR ≠ A.CONTINUE_TX_START ∧
    A.REPORT_CLEAR ≠ A.CONTINUE_TX_LE_STOP ∧
    A.REPORT_CLEAR ≠ A.CONTINUE_TX_STOP ∧
    A.REPORT_CLEAR ≠ A.CONTINUE_TX_LE_UPDATE ∧
    A.REPORT_CLEAR ≠ A.CONTINUE_TX_UPDATE ∧
    A.REPORT_CLEAR ≠ A.HOPPING_DWELL_TIME :=
  ⟨(nodup_index_ne A.labels h 0 31 _ _ rfl rfl (by decide)).1,
   (nodup_index_ne A.labels h 1 31 _ _ rfl rfl (by decide)).1,
   (nodup_index_ne A.labels h 2 31 _ _ rfl rfl (by decide)).1,
   (nodup_index_ne A.labels h 3 31 _ _ rfl rfl (by decide)).1,
   (nodup_index_ne A.labels h 4 31 _ _ rfl rfl (by decide)).1,
   (nodup_index_ne A.labels h 5 31 _ _ rfl rfl (by decide)).1,
   (nodup_index_ne A.labels h 6 31 _ _ rfl rfl (by decide)).1,
   (nodup_index_ne A.labels h 7 31 _ _ rfl rfl (by decide)).1,
   (nodup_index_ne A.labels h 8 31 _ _ rfl rfl (by decide)).1,
   (nodup_index_ne A.labels h 9 31 _ _ rfl rfl (by decide)).1,
   (nodup_index_ne A.labels h 10 31 _ _ rfl rfl (by decide)).1,
   (nodup_index_ne A.labels h 11 31 _ _ rfl rfl (by decide)).1,
   (nodup_index_ne A.labels h 12 31 _ _ rfl rfl (by decide)).1,
   (nodup_index_ne A.labels h 13 31 _ _ rfl rfl (by decide)).1,
   (nodup_index_ne A.labels h 14 31 _ _ rfl rfl (by decide)).1,
   (nodup_index_ne A.labels h 15 31 _ _ rfl rfl (by decide)).1,
   (nodup_index_ne A.labels h 16 31 _ _ rfl rfl (by decide)).1,
   (nodup_index_ne A.labels h 17 31 _ _ rfl rfl (by decide)).1,
   (nodup_index_ne A.labels h 18 31 _ _ rfl rfl (by decide)).1,
   (nodup_index_ne A.labels h 19 31 _ _ rfl rfl (by decide)).1,
   (nodup_index_ne A.labels h 20 31 _ _ rfl rfl (by decide)).1,
   (nodup_index_ne A.labels h 21 31 _ _ rfl rfl (by decide)).1,
   (nodup_index_ne A.labels h 22 31 _ _ rfl rfl (by decide)).1,
   (nodup_index_ne A.labels h 23 31 _ _ rfl rfl (by decide)).1,
   (nodup_index_ne A.labels h 24 31 _ _ rfl rfl (by decide)).1,
   (nodup_index_ne A.labels h 25 31 _ _ rfl rfl (by decide)).1,
   (nodup_index_ne A.labels h 26 31 _ _ rfl rfl (by decide)).1,
   (nodup_index_ne A.labels h 27 31 _ _ rfl rfl (by decide)).1,
   (nodup_index_ne A.labels h 28 31 _ _ rfl rfl (by decide)).1,
   (nodup_index_ne A.labels h 29 31 _ _ rfl rfl (by decide)).1,
   (nodup_index_ne A.labels h 30 31 _ _ rfl rfl (by decide)).1⟩

/-- The case `HCI_RESET` of the dispatcher: `SetHciReset(700)`, the eleven
assignments to the session report, `SetRestMDCount`, whose code is returned. -/
theorem excute_HCI_RESET {δ : Type} (H : Header) (A : ActionTags) (D : BT_DEVICE δ)
    (m : BT_MODULE δ) (h : A.labels.Nodup) (hItem : m.pBtParam.ParameterIndex = A.HCI_RESET) :
    BTModule_ActionControlExcute H A D m =
      ((D.call (D.call m.pBtDevice (DeviceCall.SetHciReset 700)).2 DeviceCall.SetRestMDCount).1,
       { m with
         pModuleBtReport := { m.pModuleBtReport with
        TotalTXBits := 0
        TXUpdateBits := 0
        TotalTxCounts := 0
        TXPktUpdateCnts := 0
        TotalRXBits := 0
        RXUpdateBits := 0
        RXPktUpdateCnts := 0
        TotalRxCounts := 0
        TotalRxErrorBits := 0
        IsRxRssi := -90
        RXRecvPktCnts := 0 }
         pBtDevice :=
           (D.call (D.call m.pBtDevice (DeviceCall.SetHciReset 700)).2
             DeviceCall.SetRestMDCount).2 }) := by
  obtain ⟨h0, h1, h2, h3, h4, h5, h6, h7, h8, h9, h10, h11, h12, h13⟩ :=
    hci_reset_ne_earlier A h
  simp only [BTModule_ActionControlExcute, hItem, h0, h1, h2, h3, h4, h5, h6, h7, h8, h9, h10,
    h11, h12, h13, if_false, if_true]

/-- The case `REPORT_CLEAR` of the dispatcher: the eleven assignments to the
session report, then `SetRestMDCount`, whose code is returned. -/
theorem excute_REPORT_CLEAR {δ : Type} (H : Header) (A : ActionTags) (D : BT_DEVICE δ)
    (m : BT_MODULE δ) (h : A.labels.Nodup)
    (hItem : m.pBtParam.ParameterIndex = A.REPORT_CLEAR) :
    BTModule_ActionControlExcute H A D m =
      ((D.call m.pBtDevice DeviceCall.SetRestMDCount).1,
       { m with
         pModuleBtReport := { m.pModuleBtReport with
        TotalTXBits := 0
        TXUpdateBits := 0
        TotalTxCounts := 0
        TXPktUpdateCnts := 0
        TotalRXBits := 0
        RXUpdateBits := 0
        RXPktUpdateCnts := 0
        TotalRxCounts := 0
        TotalRxErrorBits := 0
        IsRxRssi := -90
        RXRecvPktCnts := 0 }
         pBtDevice := (D.call m.pBtDevice DeviceCall.SetRestMDCount).2 }) := by
  obtain ⟨h0, h1, h2, h3, h4, h5, h6, h7, h8, h9, h10, h11, h12, h13, h14, h15, h16, h17, h18,
    h19, h20, h21, h22, h23, h24, h25, h26, h27, h28, h29, h30⟩ := report_clear_ne_earlier A h
  simp only [BTModule_ActionControlExcute, hItem, h0, h1, h2, h3, h4, h5, h6, h7, h8, h9, h10,
    h11, h12, h13, h14, h15, h16, h17, h18, h19, h20, h21, h22, h23, h24, h25, h26, h27, h28,
    h29, h30, if_false, if_true, or_self]

/-- The `default` case of the dispatcher: an ordinal that is none of the case
labels changes nothing and gives `BT_FUNCTION_SUCCESS`. -/
theorem excute_default {δ : Type} (H : Header) (A : ActionTags) (D : BT_DEVICE δ)
    (m : BT_MODULE δ) (hItem : m.pBtParam.ParameterIndex ∉ A.labels) :
    BTModule_ActionControlExcute H A D m = (H.BT_FUNCTION_SUCCESS, m) := by
  simp only [ActionTags.labels, List.mem_cons, List.mem_singleton, List.not_mem_nil, not_or,
    or_false] at hItem
  obtain ⟨h0, h1, h2, h3, h4, h5, h6, h7, h8, h9, h10, h11, h12, h13, h14, h15, h16, h17, h18,
    h19, h20, h21, h22, h23, h24, h25, h26, h27, h28, h29, h30, h31⟩ := hItem
  simp only [BTModule_ActionControlExcute, h0, h1, h2, h3, h4, h5, h6, h7, h8, h9, h10,
    h11, h12, h13, h14, h15, h16, h17, h18, h19, h20, h21, h22, h23, h24, h25, h26, h27, h28,
    h29, h30, h31, if_false, or_self]


/-! ## C17: what `HCI_RESET` and `REPORT_CLEAR` do to the session report -/

/-- C17. With distinct case labels, for every module state and every device:
after the dispatcher runs `HCI_RESET` or `REPORT_CLEAR` the session report has
RSSI -90 and TX bits, TX count, RX bits, RX count, RX error bits, the count of
received packets and the four update deltas all 0. -/
theorem C17_reset_zeroes_report {δ : Type} (H : Header) (A : ActionTags) (D : BT_DEVICE δ)
    (m : BT_MODULE δ) (h : A.labels.Nodup)
    (hItem : m.pBtParam.ParameterIndex = A.HCI_RESET ∨
      m.pBtParam.ParameterIndex = A.REPORT_CLEAR) :
    (BTModule_ActionControlExcute H A D m).2.pModuleBtReport.IsRxRssi = -90 ∧
    (BTModule_ActionControlExcute H A D m).2.pModuleBtReport.TotalTXBits = 0 ∧
    (BTModule_ActionControlExcute H A D m).2.pModuleBtReport.TotalTxCounts = 0 ∧
    (BTModule_ActionControlExcute H A D m).2.pModuleBtReport.TotalRXBits = 0 ∧
    (BTModule_ActionControlExcute H A D m).2.pModuleBtReport.TotalRxCounts = 0 ∧
    (BTModule_ActionControlExcute H A D m).2.pModuleBtReport.TotalRxErrorBits = 0 ∧
    (BTModule_ActionControlExcute H A D m).2.pModuleBtReport.RXRecvPktCnts = 0 ∧
    (BTModule_ActionControlExcute H A D m).2.pModuleBtReport.TXUpdateBits = 0 ∧
    (BTModule_ActionControlExcute H A D m).2.pModuleBtReport.TXPktUpdateCnts = 0 ∧
    (BTModule_ActionControlExcute H A D m).2.pModuleBtReport.RXUpdateBits = 0 ∧
    (BTModule_ActionControlExcute H A D m).2.pModuleBtReport.RXPktUpdateCnts = 0 := by
  rcases hItem with hI | hI
  · rw [excute_HCI_RESET H A D m h hI]
    simp only [and_self]
  · rw [excute_REPORT_CLEAR H A D m h hI]
    simp only [and_self]

/-- C17, instance: `HCI_RESET` on a report that a session has filled, with a
device whose calls all fail with code 3. -/
theorem C17_reset_zeroes_report_witness :
    (BTModule_ActionControlExcute refHeader refActions (logDevice 3) (usedModule refActions.HCI_RESET 5)).2.pModuleBtReport.IsRxRssi = -90 ∧
    (BTModule_ActionControlExcute refHeader refActions (logDevice 3) (usedModule refActions.HCI_RESET 5)).2.pModuleBtReport.TotalTXBits = 0 ∧
    (BTModule_ActionControlExcute refHeader refActions (logDevice 3) (usedModule refActions.HCI_RESET 5)).2.pModuleBtReport.TotalTxCounts = 0 ∧
    (BTModule_ActionControlExcute refHeader refActions (logDevice 3) (usedModule refActions.HCI_RESET 5)).2.pModuleBtReport.TotalRXBits = 0 ∧
    (BTModule_ActionControlExcute refHeader refActions (logDevice 3) (usedModule refActions.HCI_RESET 5)).2.pModuleBtReport.TotalRxCounts = 0 ∧
    (BTModule_ActionControlExcute refHeader refActions (logDevice 3) (usedModule refActions.HCI_RESET 5)).2.pModuleBtReport.TotalRxErrorBits = 0 ∧
    (BTModule_ActionControlExcute refHeader refActions (logDevice 3) (usedModule refActions.HCI_RESET 5)).2.pModuleBtReport.RXRecvPktCnts = 0 ∧
    (BTModule_ActionControlExcute refHeader refActions (logDevice 3) (usedModule refActions.HCI_RESET 5)).2.pModuleBtReport.TXUpdateBits = 0 ∧
    (BTModule_ActionControlExcute refHeader refActions (logDevice 3) (usedModule refActions.HCI_RESET 5)).2.pModuleBtReport.TXPktUpdateCnts = 0 ∧
    (BTModule_ActionControlExcute refHeader refActions (logDevice 3) (usedModule refActions.HCI_RESET 5)).2.pModuleBtReport.RXUpdateBits = 0 ∧
    (BTModule_ActionControlExcute refHeader refActions (logDevice 3) (usedModule refActions.HCI_RESET 5)).2.pModuleBtReport.RXPktUpdateCnts = 0 :=
  C17_reset_zeroes_report refHeader refActions (logDevice 3) (usedModule refActions.HCI_RESET 5)
    (by decide) (by decide)

/-! ## C18: `REPORT_CLEAR` against `HCI_RESET` -/

/-- C18. With distinct case labels: from the same prior session report,
`HCI_RESET` and `REPORT_CLEAR` leave the same session report, whatever the
devices do. With the device that records its calls, `REPORT_CLEAR` makes the
single call `SetRestMDCount` and no `SetHciReset`, while `HCI_RESET` calls
`SetHciReset(700)` and then `SetRestMDCount`. -/
theorem C18_report_clear_like_hci_reset {δ : Type} (H : Header) (A : ActionTags)
    (D D' : BT_DEVICE δ) (m m' : BT_MODULE δ) (h : A.labels.Nodup)
    (hreset : m.pBtParam.ParameterIndex = A.HCI_RESET)
    (hclear : m'.pBtParam.ParameterIndex = A.REPORT_CLEAR)
    (hsame : m.pModuleBtReport = m'.pModuleBtReport) :
    (BTModule_ActionControlExcute H A D m).2.pModuleBtReport =
      (BTModule_ActionControlExcute H A D' m').2.pModuleBtReport ∧
    (∀ (code : Int) (mc : BT_MODULE (List DeviceCall)),
      mc.pBtParam.ParameterIndex = A.REPORT_CLEAR →
      (BTModule_ActionControlExcute H A (logDevice code) mc).2.pBtDevice =
        mc.pBtDevice ++ [DeviceCall.SetRestMDCount]) ∧
    (∀ (code : Int) (mc : BT_MODULE (List DeviceCall)),
      mc.pBtParam.ParameterIndex = A.HCI_RESET →
      (BTModule_ActionControlExcute H A (logDevice code) mc).2.pBtDevice =
        mc.pBtDevice ++ [DeviceCall.SetHciReset 700, DeviceCall.SetRestMDCount]) := by
  refine ⟨?_, ?_, ?_⟩
  · rw [excute_HCI_RESET H A D m h hreset, excute_REPORT_CLEAR H A D' m' h hclear, hsame]
  · intro code mc hc
    rw [excute_REPORT_CLEAR H A _ mc h hc]
    rfl
  · intro code mc hc
    rw [excute_HCI_RESET H A _ mc h hc]
    simp [logDevice]

/-- C18, instance on the reference tags, from the same filled report. -/
theorem C18_report_clear_like_hci_reset_witness :
    (BTModule_ActionControlExcute refHeader refActions (logDevice 0)
        (usedModule refActions.HCI_RESET 5)).2.pModuleBtReport =
      (BTModule_ActionControlExcute refHeader refActions (logDevice 3)
        (usedModule refActions.REPORT_CLEAR 5)).2.pModuleBtReport ∧
    (BTModule_ActionControlExcute refHeader refActions (logDevice 3)
        (usedModule refActions.REPORT_CLEAR 5)).2.pBtDevice =
      (usedModule refActions.REPORT_CLEAR 5).pBtDevice ++ [DeviceCall.SetRestMDCount] :=
  ⟨(C18_report_clear_like_hci_reset refHeader refActions (logDevice 0) (logDevice 3)
      (usedModule refActions.HCI_RESET 5) (usedModule refActions.REPORT_CLEAR 5)
      (by decide) (by decide) (by decide) (by decide)).1,
   (C18_report_clear_like_hci_reset refHeader refActions (logDevice 0) (logDevice 3)
      (usedModule refActions.HCI_RESET 5) (usedModule refActions.REPORT_CLEAR 5)
      (by decide) (by decide) (by decide) (by decide)).2.1 3
      (usedModule refActions.REPORT_CLEAR 5) (by decide)⟩

/-! ## C19: the baseline after a reset -/

/-- The `REPORT_ALL` case of `BTModule_ActionReport`, with distinct case labels:
the eight fields are copied from the session report. -/
theorem report_REPORT_ALL {δ : Type} (H : Header) (R : ReportTags) (D : BT_DEVICE δ)
    (m : BT_MODULE δ) (pReport : BT_DEVICE_REPORT) (h : R.labels.Nodup) :
    BTModule_ActionReport H R D m R.REPORT_ALL pReport =
      (H.BT_FUNCTION_SUCCESS,
       { pReport with
         TotalTXBits := m.pModuleBtReport.TotalTXBits
         TotalTxCounts := m.pModuleBtReport.TotalTxCounts
         TotalRXBits := m.pModuleBtReport.TotalRXBits
         TotalRxCounts := m.pModuleBtReport.TotalRxCounts
         TotalRxErrorBits := m.pModuleBtReport.TotalRxErrorBits
         ber := m.pModuleBtReport.ber
         IsRxRssi := m.pModuleBtReport.IsRxRssi
         RXRecvPktCnts := m.pModuleBtReport.RXRecvPktCnts }, m) := by
  have h0 : R.REPORT_ALL ≠ R.NO_THING :=
    (nodup_index_ne R.labels h 0 4 _ _ rfl rfl (by decide)).1
  have h1 : R.REPORT_ALL ≠ R.REPORT_TX :=
    (nodup_index_ne R.labels h 1 4 _ _ rfl rfl (by decide)).1
  have h2 : R.REPORT_ALL ≠ R.REPORT_RX :=
    (nodup_index_ne R.labels h 2 4 _ _ rfl rfl (by decide)).1
  have h3 : R.REPORT_ALL ≠ R.REPORT_CHIP :=
    (nodup_index_ne R.labels h 3 4 _ _ rfl rfl (by decide)).1
  simp only [BTModule_ActionReport, h0, h1, h2, h3, if_false]

/-- C19 (fails as stated). On the reference tags, two modules whose session
reports differ only in the bit error rate (patterns 1 and 2): after `HCI_RESET`
the ALL view of `BTModule_ActionReport` still shows different bit error rates. -/
theorem C19_ber_differs_after_reset :
    (BTModule_ActionReport refHeader refReports (logDevice 0) (BTModule_ActionControlExcute refHeader refActions (logDevice 0) (usedModule refActions.HCI_RESET 1)).2 refReports.REPORT_ALL zeroReport).2.1.ber ≠
      (BTModule_ActionReport refHeader refReports (logDevice 0) (BTModule_ActionControlExcute refHeader refActions (logDevice 0) (usedModule refActions.HCI_RESET 2)).2 refReports.REPORT_ALL zeroReport).2.1.ber := by
  decide

/-- C19 (amended). With distinct case labels, for any two prior module states and
devices: after `HCI_RESET` or `REPORT_CLEAR`, the ALL view of
`BTModule_ActionReport` shows the same TX bits, TX count, RX bits, RX count, RX
error bits, RSSI and count of received packets in both; the bit error rate is
not reset and shows what each report held before. -/
theorem C19_reset_baseline_except_ber {δ : Type} (H : Header) (A : ActionTags) (R : ReportTags)
    (D D' : BT_DEVICE δ) (m m' : BT_MODULE δ) (out out' : BT_DEVICE_REPORT)
    (hA : A.labels.Nodup) (hR : R.labels.Nodup)
    (hItem : m.pBtParam.ParameterIndex = A.HCI_RESET ∨
      m.pBtParam.ParameterIndex = A.REPORT_CLEAR)
    (hItem' : m'.pBtParam.ParameterIndex = A.HCI_RESET ∨
      m'.pBtParam.ParameterIndex = A.REPORT_CLEAR) :
    (BTModule_ActionReport H R D (BTModule_ActionControlExcute H A D m).2 R.REPORT_ALL out).2.1.TotalTXBits =
      (BTModule_ActionReport H R D' (BTModule_ActionControlExcute H A D' m').2 R.REPORT_ALL out').2.1.TotalTXBits ∧
    (BTModule_ActionReport H R D (BTModule_ActionControlExcute H A D m).2 R.REPORT_ALL out).2.1.TotalTxCounts =
      (BTModule_ActionReport H R D' (BTModule_ActionControlExcute H A D' m').2 R.REPORT_ALL out').2.1.TotalTxCounts ∧
    (BTModule_ActionReport H R D (BTModule_ActionControlExcute H A D m).2 R.REPORT_ALL out).2.1.TotalRXBits =
      (BTModule_ActionReport H R D' (BTModule_ActionControlExcute H A D' m').2 R.REPORT_ALL out').2.1.TotalRXBits ∧
    (BTModule_ActionReport H R D (BTModule_ActionControlExcute H A D m).2 R.REPORT_ALL out).2.1.TotalRxCounts =
      (BTModule_ActionReport H R D' (BTModule_ActionControlExcute H A D' m').2 R.REPORT_ALL out').2.1.TotalRxCounts ∧
    (BTModule_ActionReport H R D (BTModule_ActionControlExcute H A D m).2 R.REPORT_ALL out).2.1.TotalRxErrorBits =
      (BTModule_ActionReport H R D' (BTModule_ActionControlExcute H A D' m').2 R.REPORT_ALL out').2.1.TotalRxErrorBits ∧
    (BTModule_ActionReport H R D (BTModule_ActionControlExcute H A D m).2 R.REPORT_ALL out).2.1.IsRxRssi =
      (BTModule_ActionReport H R D' (BTModule_ActionControlExcute H A D' m').2 R.REPORT_ALL out').2.1.IsRxRssi ∧
    (BTModule_ActionReport H R D (BTModule_ActionControlExcute H A D m).2 R.REPORT_ALL out).2.1.RXRecvPktCnts =
      (BTModule_ActionReport H R D' (BTModule_ActionControlExcute H A D' m').2 R.REPORT_ALL out').2.1.RXRecvPktCnts ∧
    (BTModule_ActionReport H R D (BTModule_ActionControlExcute H A D m).2 R.REPORT_ALL out).2.1.ber = m.pModuleBtReport.ber ∧
    (BTModule_ActionReport H R D' (BTModule_ActionControlExcute H A D' m').2 R.REPORT_ALL out').2.1.ber = m'.pModuleBtReport.ber := by
  simp only [report_REPORT_ALL H R _ _ _ hR]
  rcases hItem with hI | hI <;> rcases hItem' with hI' | hI'
  · rw [excute_HCI_RESET H A D m hA hI, excute_HCI_RESET H A D' m' hA hI']
    simp only [and_self]
  · rw [excute_HCI_RESET H A D m hA hI, excute_REPORT_CLEAR H A D' m' hA hI']
    simp only [and_self]
  · rw [excute_REPORT_CLEAR H A D m hA hI, excute_HCI_RESET H A D' m' hA hI']
    simp only [and_self]
  · rw [excute_REPORT_CLEAR H A D m hA hI, excute_REPORT_CLEAR H A D' m' hA hI']
    simp only [and_self]

/-- C19 (amended), instance: `HCI_RESET` and `REPORT_CLEAR` from reports with
bit error rate patterns 1 and 2. -/
theorem C19_reset_baseline_except_ber_witness :
    (BTModule_ActionReport refHeader refReports (logDevice 0)
        (BTModule_ActionControlExcute refHeader refActions (logDevice 0)
          (usedModule refActions.HCI_RESET 1)).2 refReports.REPORT_ALL zeroReport).2.1.TotalTXBits =
      (BTModule_ActionReport refHeader refReports (logDevice 0)
        (BTModule_ActionControlExcute refHeader refActions (logDevice 0)
          (usedModule refActions.REPORT_CLEAR 2)).2 refReports.REPORT_ALL zeroReport).2.1.TotalTXBits ∧
    (BTModule_ActionReport refHeader refReports (logDevice 0)
        (BTModule_ActionControlExcute refHeader refActions (logDevice 0)
          (usedModule refActions.HCI_RESET 1)).2 refReports.REPORT_ALL zeroReport).2.1.TotalTxCounts =
      (BTModule_ActionReport refHeader refReports (logDevice 0)
        (BTModule_ActionControlExcute refHeader refActions (logDevice 0)
          (usedModule refActions.REPORT_CLEAR 2)).2 refReports.REPORT_ALL zeroReport).2.1.TotalTxCounts ∧
    (BTModule_ActionReport refHeader refReports (logDevice 0)
        (BTModule_ActionControlExcute refHeader refActions (logDevice 0)
          (usedModule refActions.HCI_RESET 1)).2 refReports.REPORT_ALL zeroReport).2.1.TotalRXBits =
      (BTModule_ActionReport refHeader refReports (logDevice 0)
        (BTModule_ActionControlExcute refHeader refActions (logDevice 0)
          (usedModule refActions.REPORT_CLEAR 2)).2 refReports.REPORT_ALL zeroReport).2.1.TotalRXBits ∧
    (BTModule_ActionReport refHeader refReports (logDevice 0)
        (BTModule_ActionControlExcute refHeader refActions (logDevice 0)
          (usedModule refActions.HCI_RESET 1)).2 refReports.REPORT_ALL zeroReport).2.1.TotalRxCounts =
      (BTModule_ActionReport refHeader refReports (logDevice 0)
        (BTModule_ActionControlExcute refHeader refActions (logDevice 0)
          (usedModule refActions.REPORT_CLEAR 2)).2 refReports.REPORT_ALL zeroReport).2.1.TotalRxCounts ∧
    (BTModule_ActionReport refHeader refReports (logDevice 0)
        (BTModule_ActionControlExcute refHeader refActions (logDevice 0)
          (usedModule refActions.HCI_RESET 1)).2 refReports.REPORT_ALL zeroReport).2.1.TotalRxErrorBits =
      (BTModule_ActionReport refHeader refReports (logDevice 0)
        (BTModule_ActionControlExcute refHeader refActions (logDevice 0)
          (usedModule refActions.REPORT_CLEAR 2)).2 refReports.REPORT_ALL zeroReport).2.1.TotalRxErrorBits ∧
    (BTModule_ActionReport refHeader refReports (logDevice 0)
        (BTModule_ActionControlExcute refHeader refActions (logDevice 0)
          (usedModule refActions.HCI_RESET 1)).2 refReports.REPORT_ALL zeroReport).2.1.IsRxRssi =
      (BTModule_ActionReport refHeader refReports (logDevice 0)
        (BTModule_ActionControlExcute refHeader refActions (logDevice 0)
          (usedModule refActions.REPORT_CLEAR 2)).2 refReports.REPORT_ALL zeroReport).2.1.IsRxRssi ∧
    (BTModule_ActionReport refHeader refReports (logDevice 0)
        (BTModule_ActionControlExcute refHeader refActions (logDevice 0)
          (usedModule refActions.HCI_RESET 1)).2 refReports.REPORT_ALL zeroReport).2.1.RXRecvPktCnts =
      (BTModule_ActionReport refHeader refReports (logDevice 0)
        (BTModule_ActionControlExcute refHeader refActions (logDevice 0)
          (usedModule refActions.REPORT_CLEAR 2)).2 refReports.REPORT_ALL zeroReport).2.1.RXRecvPktCnts ∧
    (BTModule_ActionReport refHeader refReports (logDevice 0)
        (BTModule_ActionControlExcute refHeader refActions (logDevice 0)
          (usedModule refActions.HCI_RESET 1)).2 refReports.REPORT_ALL zeroReport).2.1.ber =
      (usedModule refActions.HCI_RESET 1).pModuleBtReport.ber ∧
    (BTModule_ActionReport refHeader refReports (logDevice 0)
        (BTModule_ActionControlExcute refHeader refActions (logDevice 0)
          (usedModule refActions.REPORT_CLEAR 2)).2 refReports.REPORT_ALL zeroReport).2.1.ber =
      (usedModule refActions.REPORT_CLEAR 2).pModuleBtReport.ber :=
  C19_reset_baseline_except_ber refHeader refActions refReports (logDevice 0) (logDevice 0)
    (usedModule refActions.HCI_RESET 1) (usedModule refActions.REPORT_CLEAR 2) zeroReport
    zeroReport (by decide) (by decide) (by decide) (by decide)

/-! ## C20: ordinals that the dispatcher does not handle -/

/-- C20. For an action ordinal that is none of the case labels of the dispatcher,
whatever the device is: `BTModule_ActionControlExcute` returns
`BT_FUNCTION_SUCCESS` and leaves the module (parameter block, session report,
device state) as it was; with the device that records its calls, no call is
recorded. -/
theorem C20_unknown_ordinal_noop {δ : Type} (H : Header) (A : ActionTags) (D : BT_DEVICE δ)
    (m : BT_MODULE δ) (hItem : m.pBtParam.ParameterIndex ∉ A.labels) :
    (BTModule_ActionControlExcute H A D m).1 = H.BT_FUNCTION_SUCCESS ∧
    (BTModule_ActionControlExcute H A D m).2 = m ∧
    (∀ (code : Int) (mc : BT_MODULE (List DeviceCall)),
      mc.pBtParam.ParameterIndex ∉ A.labels →
      (BTModule_ActionControlExcute H A (logDevice code) mc).2.pBtDevice = mc.pBtDevice) := by
  refine ⟨?_, ?_, ?_⟩
  · rw [excute_default H A D m hItem]
  · rw [excute_default H A D m hItem]
  · intro code mc hc
    rw [excute_default H A _ mc hc]

/-- C20, instance: the ordinal 77 on the reference tags. -/
theorem C20_unknown_ordinal_noop_witness :
    (BTModule_ActionControlExcute refHeader refActions (logDevice 3) (usedModule 77 5)).1
        = refHeader.BT_FUNCTION_SUCCESS ∧
    (BTModule_ActionControlExcute refHeader refActions (logDevice 3) (usedModule 77 5)).2
        = usedModule 77 5 :=
  ⟨(C20_unknown_ordinal_noop refHeader refActions (logDevice 3) (usedModule 77 5)
      (by decide)).1,
   (C20_unknown_ordinal_noop refHeader refActions (logDevice 3) (usedModule 77 5)
      (by decide)).2.1⟩


/-! ## C21: device calls of the dispatcher and the code it returns -/

/-- A property of both branches of an `if` holds of the `if`. -/
theorem ite_cases {α : Type} {P : α → Prop} {c : Prop} [Decidable c] {a b : α}
    (ha : c → P a) (hb : ¬ c → P b) : P (if c then a else b) := by
  by_cases hc : c
  · rw [if_pos hc]
    exact ha hc
  · rw [if_neg hc]
    exact hb hc

/-- An action ordinal that is a case label other than `MODULE_INIT` and
`HCI_RESET` runs a case that makes exactly one call through the function table
and returns the code of that call. -/
theorem excute_one_call {δ : Type} (H : Header) (A : ActionTags) (D : BT_DEVICE δ)
    (m : BT_MODULE δ) (hmem : m.pBtParam.ParameterIndex ∈ A.labels)
    (hinit : m.pBtParam.ParameterIndex ≠ A.MODULE_INIT)
    (hreset : m.pBtParam.ParameterIndex ≠ A.HCI_RESET) :
    oneDeviceCall D m (BTModule_ActionControlExcute H A D m) := by
  simp only [ActionTags.labels, List.mem_cons, List.mem_singleton, List.not_mem_nil,
    or_false] at hmem
  show oneDeviceCall D m (if m.pBtParam.ParameterIndex = A.MODULE_INIT then _ else _)
  repeat' first
    | refine ite_cases (P := oneDeviceCall D m) (fun _ ↦ ?_) (fun _ ↦ ?_)
    | exact Or.inl ⟨_, rfl, rfl⟩
    | exact Or.inr ⟨_, rfl, rfl⟩
    | exact absurd (by assumption) hinit
    | exact absurd (by assumption) hreset
    | (exfalso; tauto)

/-- With distinct case labels, each of the thirteen "set" cases of the dispatcher
is one call through the function table with one field of the parameter block. -/
theorem excute_set {δ : Type} (H : Header) (A : ActionTags) (D : BT_DEVICE δ)
    (m : BT_MODULE δ) (h : A.labels.Nodup) :
    (m.pBtParam.ParameterIndex = A.SETTXGAINTABLE →
      BTModule_ActionControlExcute H A D m =
        deviceCall D m (DeviceCall.SetTxGainTable m.pBtParam.TXGainTable)) ∧
    (m.pBtParam.ParameterIndex = A.SETTXDACTABLE →
      BTModule_ActionControlExcute H A D m =
        deviceCall D m (DeviceCall.SetTxDACTable m.pBtParam.TXDACTable)) ∧
    (m.pBtParam.ParameterIndex = A.SET_TXCHANNEL →
      BTModule_ActionControlExcute H A D m =
        deviceCall D m (DeviceCall.SetTxChannel m.pBtParam.mChannelNumber)) ∧
    (m.pBtParam.ParameterIndex = A.SET_RXCHANNEL →
      BTModule_ActionControlExcute H A D m =
        deviceCall D m (DeviceCall.SetRxChannel m.pBtParam.mChannelNumber)) ∧
    (m.pBtParam.ParameterIndex = A.SET_POWERGAININDEX →
      BTModule_ActionControlExcute H A D m =
        deviceCall D m (DeviceCall.SetPowerGainIndex m.pBtParam.mTxGainIndex)) ∧
    (m.pBtParam.ParameterIndex = A.SET_POWERGAIN →
      BTModule_ActionControlExcute H A D m =
        deviceCall D m (DeviceCall.SetPowerGain m.pBtParam.mTxGainValue)) ∧
    (m.pBtParam.ParameterIndex = A.SET_POWERDAC →
      BTModule_ActionControlExcute H A D m =
        deviceCall D m (DeviceCall.SetPowerDac m.pBtParam.mTxDAC)) ∧
    (m.pBtParam.ParameterIndex = A.SET_PAYLOADTYPE →
      BTModule_ActionControlExcute H A D m =
        deviceCall D m (DeviceCall.SetPayloadType m.pBtParam.mPayloadType)) ∧
    (m.pBtParam.ParameterIndex = A.SET_WHITENINGCOFFENABLE →
      BTModule_ActionControlExcute H A D m =
        deviceCall D m (DeviceCall.SetWhiteningCoeffEnable m.pBtParam.mWhiteningCoeffEnable)) ∧
    (m.pBtParam.ParameterIndex = A.SET_PACKETTYPE →
      BTModule_ActionControlExcute H A D m =
        deviceCall D m (DeviceCall.SetPacketType m.pBtParam.mPacketType)) ∧
    (m.pBtParam.ParameterIndex = A.SET_HITTARGET →
      BTModule_ActionControlExcute H A D m =
        deviceCall D m (DeviceCall.SetHitTarget m.pBtParam.mHitTarget)) ∧
    (m.pBtParam.ParameterIndex = A.SET_TESTMODE →
      BTModule_ActionControlExcute H A D m =
        deviceCall D m (DeviceCall.SetTestMode m.pBtParam.mTestMode)) ∧
    (m.pBtParam.ParameterIndex = A.SET_MUTIRXENABLE →
      BTModule_ActionControlExcute H A D m =
        deviceCall D m (DeviceCall.SetMutiRxEnable m.pBtParam.mMutiRxEnable)) := by
  refine ⟨?_, ?_, ?_, ?_, ?_, ?_, ?_, ?_, ?_, ?_, ?_, ?_, ?_⟩
  · intro hItem
    have e0 : A.SETTXGAINTABLE ≠ A.MODULE_INIT :=
      (nodup_index_ne A.labels h 0 1 _ _ rfl rfl (by decide)).1
    simp only [BTModule_ActionControlExcute, hItem, e0, if_false, if_true]
  · intro hItem
    have e0 : A.SETTXDACTABLE ≠ A.MODULE_INIT :=
      (nodup_index_ne A.labels h 0 2 _ _ rfl rfl (by decide)).1
    have e1 : A.SETTXDACTABLE ≠ A.SETTXGAINTABLE :=
      (nodup_index_ne A.labels h 1 2 _ _ rfl rfl (by decide)).1
    simp only [BTModule_ActionControlExcute, hItem, e0, e1, if_false, if_true]
  · intro hItem
    have e0 : A.SET_TXCHANNEL ≠ A.MODULE_INIT :=
      (nodup_index_ne A.labels h 0 3 _ _ rfl rfl (by decide)).1
    have e1 : A.SET_TXCHANNEL ≠ A.SETTXGAINTABLE :=
      (nodup_index_ne A.labels h 1 3 _ _ rfl rfl (by decide)).1
    have e2 : A.SET_TXCHANNEL ≠ A.SETTXDACTABLE :=
      (nodup_index_ne A.labels h 2 3 _ _ rfl rfl (by decide)).1
    simp only [BTModule_ActionControlExcute, hItem, e0, e1, e2, if_false, if_true]
  · intro hItem
    have e0 : A.SET_RXCHANNEL ≠ A.MODULE_INIT :=
      (nodup_index_ne A.labels h 0 4 _ _ rfl rfl (by decide)).1
    have e1 : A.SET_RXCHANNEL ≠ A.SETTXGAINTABLE :=
      (nodup_index_ne A.labels h 1 4 _ _ rfl rfl (by decide)).1
    have e2 : A.SET_RXCHANNEL ≠ A.SETTXDACTABLE :=
      (nodup_index_ne A.labels h 2 4 _ _ rfl rfl (by decide)).1
    have e3 : A.SET_RXCHANNEL ≠ A.SET_TXCHANNEL :=
      (nodup_index_ne A.labels h 3 4 _ _ rfl rfl (by decide)).1
    simp only [BTModule_ActionControlExcute, hItem, e0, e1, e2, e3, if_false, if_true]
  · intro hItem
    have e0 : A.SET_POWERGAININDEX ≠ A.MODULE_INIT :=
      (nodup_index_ne A.labels h 0 5 _ _ rfl rfl (by decide)).1
    have e1 : A.SET_POWERGAININDEX ≠ A.SETTXGAINTABLE :=
      (nodup_index_ne A.labels h 1 5 _ _ rfl rfl (by decide)).1
    have e2 : A.SET_POWERGAININDEX ≠ A.SETTXDACTABLE :=
      (nodup_index_ne A.labels h 2 5 _ _ rfl rfl (by decide)).1
    have e3 : A.SET_POWERGAININDEX ≠ A.SET_TXCHANNEL :=
      (nodup_index_ne A.labels h 3 5 _ _ rfl rfl (by decide)).1
    have e4 : A.SET_POWERGAININDEX ≠ A.SET_RXCHANNEL :=
      (nodup_index_ne A.labels h 4 5 _ _ rfl rfl (by decide)).1
    simp only [BTModule_ActionControlExcute, hItem, e0, e1, e2, e3, e4, if_false, if_true]
  · intro hItem
    have e0 : A.SET_POWERGAIN ≠ A.MODULE_INIT :=
      (nodup_index_ne A.labels h 0 6 _ _ rfl rfl (by decide)).1
    have e1 : A.SET_POWERGAIN ≠ A.SETTXGAINTABLE :=
      (nodup_index_ne A.labels h 1 6 _ _ rfl rfl (by decide)).1
    have e2 : A.SET_POWERGAIN ≠ A.SETTXDACTABLE :=
      (nodup_index_ne A.labels h 2 6 _ _ rfl rfl (by decide)).1
    have e3 : A.SET_POWERGAIN ≠ A.SET_TXCHANNEL :=
      (nodup_index_ne A.labels h 3 6 _ _ rfl rfl (by decide)).1
    have e4 : A.SET_POWERGAIN ≠ A.SET_RXCHANNEL :=
      (nodup_index_ne A.labels h 4 6 _ _ rfl rfl (by decide)).1
    have e5 : A.SET_POWERGAIN ≠ A.SET_POWERGAININDEX :=
      (nodup_index_ne A.labels h 5 6 _ _ rfl rfl (by decide)).1
    simp only [BTModule_ActionControlExcute, hItem, e0, e1, e2, e3, e4, e5, if_false, if_true]
  · intro hItem
    have e0 : A.SET_POWERDAC ≠ A.MODULE_INIT :=
      (nodup_index_ne A.labels h 0 7 _ _ rfl rfl (by decide)).1
    have e1 : A.SET_POWERDAC ≠ A.SETTXGAINTABLE :=
      (nodup_index_ne A.labels h 1 7 _ _ rfl rfl (by decide)).1
    have e2 : A.SET_POWERDAC ≠ A.SETTXDACTABLE :=
      (nodup_index_ne A.labels h 2 7 _ _ rfl rfl (by decide)).1
    have e3 : A.SET_POWERDAC ≠ A.SET_TXCHANNEL :=
      (nodup_index_ne A.labels h 3 7 _ _ rfl rfl (by decide)).1
    have e4 : A.SET_POWERDAC ≠ A.SET_RXCHANNEL :=
      (nodup_index_ne A.labels h 4 7 _ _ rfl rfl (by decide)).1
    have e5 : A.SET_POWERDAC ≠ A.SET_POWERGAININDEX :=
      (nodup_index_ne A.labels h 5 7 _ _ rfl rfl (by decide)).1
    have e6 : A.SET_POWERDAC ≠ A.SET_POWERGAIN :=
      (nodup_index_ne A.labels h 6 7 _ _ rfl rfl (by decide)).1
    simp only [BTModule_ActionControlExcute, hItem, e0, e1, e2, e3, e4, e5, e6, if_false, if_true]
  · intro hItem
    have e0 : A.SET_PAYLOADTYPE ≠ A.MODULE_INIT :=
      (nodup_index_ne A.labels h 0 8 _ _ rfl rfl (by decide)).1
    have e1 : A.SET_PAYLOADTYPE ≠ A.SETTXGAINTABLE :=
      (nodup_index_ne A.labels h 1 8 _ _ rfl rfl (by decide)).1
    have e2 : A.SET_PAYLOADTYPE ≠ A.SETTXDACTABLE :=
      (nodup_index_ne A.labels h 2 8 _ _ rfl rfl (by decide)).1
    have e3 : A.SET_PAYLOADTYPE ≠ A.SET_TXCHANNEL :=
      (nodup_index_ne A.labels h 3 8 _ _ rfl rfl (by decide)).1
    have e4 : A.SET_PAYLOADTYPE ≠ A.SET_RXCHANNEL :=
      (nodup_index_ne A.labels h 4 8 _ _ rfl rfl (by decide)).1
    have e5 : A.SET_PAYLOADTYPE ≠ A.SET_POWERGAININDEX :=
      (nodup_index_ne A.labels h 5 8 _ _ rfl rfl (by decide)).1
    have e6 : A.SET_PAYLOADTYPE ≠ A.SET_POWERGAIN :=
      (nodup_index_ne A.labels h 6 8 _ _ rfl rfl (by decide)).1
    have e7 : A.SET_PAYLOADTYPE ≠ A.SET_POWERDAC :=
      (nodup_index_ne A.labels h 7 8 _ _ rfl rfl (by decide)).1
    simp only [BTModule_ActionControlExcute, hItem, e0, e1, e2, e3, e4, e5, e6, e7, if_false, if_true]
  · intro hItem
    have e0 : A.SET_WHITENINGCOFFENABLE ≠ A.MODULE_INIT :=
      (nodup_index_ne A.labels h 0 9 _ _ rfl rfl (by decide)).1
    have e1 : A.SET_WHITENINGCOFFENABLE ≠ A.SETTXGAINTABLE :=
      (nodup_index_ne A.labels h 1 9 _ _ rfl rfl (by decide)).1
    have e2 : A.SET_WHITENINGCOFFENABLE ≠ A.SETTXDACTABLE :=
      (nodup_index_ne A.labels h 2 9 _ _ rfl rfl (by decide)).1
    have e3 : A.SET_WHITENINGCOFFENABLE ≠ A.SET_TXCHANNEL :=
      (nodup_index_ne A.labels h 3 9 _ _ rfl rfl (by decide)).1
    have e4 : A.SET_WHITENINGCOFFENABLE ≠ A.SET_RXCHANNEL :=
      (nodup_index_ne A.labels h 4 9 _ _ rfl rfl (by decide)).1
    have e5 : A.SET_WHITENINGCOFFENABLE ≠ A.SET_POWERGAININDEX :=
      (nodup_index_ne A.labels h 5 9 _ _ rfl rfl (by decide)).1
    have e6 : A.SET_WHITENINGCOFFENABLE ≠ A.SET_POWERGAIN :=
      (nodup_index_ne A.labels h 6 9 _ _ rfl rfl (by decide)).1
    have e7 : A.SET_WHITENINGCOFFENABLE ≠ A.SET_POWERDAC :=
      (nodup_index_ne A.labels h 7 9 _ _ rfl rfl (by decide)).1
    have e8 : A.SET_WHITENINGCOFFENABLE ≠ A.SET_PAYLOADTYPE :=
      (nodup_index_ne A.labels h 8 9 _ _ rfl rfl (by decide)).1
    simp only [BTModule_ActionControlExcute, hItem, e0, e1, e2, e3, e4, e5, e6, e7, e8, if_false, if_true]
  · intro hItem
    have e0 : A.SET_PACKETTYPE ≠ A.MODULE_INIT :=
      (nodup_index_ne A.labels h 0 10 _ _ rfl rfl (by decide)).1
    have e1 : A.SET_PACKETTYPE ≠ A.SETTXGAINTABLE :=
      (nodup_index_ne A.labels h 1 10 _ _ rfl rfl (by decide)).1
    have e2 : A.SET_PACKETTYPE ≠ A.SETTXDACTABLE :=
      (nodup_index_ne A.labels h 2 10 _ _ rfl rfl (by decide)).1
    have e3 : A.SET_PACKETTYPE ≠ A.SET_TXCHANNEL :=
      (nodup_index_ne A.labels h 3 10 _ _ rfl rfl (by decide)).1
    have e4 : A.SET_PACKETTYPE ≠ A.SET_RXCHANNEL :=
      (nodup_index_ne A.labels h 4 10 _ _ rfl rfl (by decide)).1
    have e5 : A.SET_PACKETTYPE ≠ A.SET_POWERGAININDEX :=
      (nodup_index_ne A.labels h 5 10 _ _ rfl rfl (by decide)).1
    have e6 : A.SET_PACKETTYPE ≠ A.SET_POWERGAIN :=
      (nodup_index_ne A.labels h 6 10 _ _ rfl rfl (by decide)).1
    have e7 : A.SET_PACKETTYPE ≠ A.SET_POWERDAC :=
      (nodup_index_ne A.labels h 7 10 _ _ rfl rfl (by decide)).1
    have e8 : A.SET_PACKETTYPE ≠ A.SET_PAYLOADTYPE :=
      (nodup_index_ne A.labels h 8 10 _ _ rfl rfl (by decide)).1
    have e9 : A.SET_PACKETTYPE ≠ A.SET_WHITENINGCOFFENABLE :=
      (nodup_index_ne A.labels h 9 10 _ _ rfl rfl (by decide)).1
    simp only [BTModule_ActionControlExcute, hItem, e0, e1, e2, e3, e4, e5, e6, e7, e8, e9, if_false, if_true]
  · intro hItem
    have e0 : A.SET_HITTARGET ≠ A.MODULE_INIT :=
      (nodup_index_ne A.labels h 0 11 _ _ rfl rfl (by decide)).1
    have e1 : A.SET_HITTARGET ≠ A.SETTXGAINTABLE :=
      (nodup_index_ne A.labels h 1 11 _ _ rfl rfl (by decide)).1
    have e2 : A.SET_HITTARGET ≠ A.SETTXDACTABLE :=
      (nodup_index_ne A.labels h 2 11 _ _ rfl rfl (by decide)).1
    have e3 : A.SET_HITTARGET ≠ A.SET_TXCHANNEL :=
      (nodup_index_ne A.labels h 3 11 _ _ rfl rfl (by decide)).1
    have e4 : A.SET_HITTARGET ≠ A.SET_RXCHANNEL :=
      (nodup_index_ne A.labels h 4 11 _ _ rfl rfl (by decide)).1
    have e5 : A.SET_HITTARGET ≠ A.SET_POWERGAININDEX :=
      (nodup_index_ne A.labels h 5 11 _ _ rfl rfl (by decide)).1
    have e6 : A.SET_HITTARGET ≠ A.SET_POWERGAIN :=
      (nodup_index_ne A.labels h 6 11 _ _ rfl rfl (by decide)).1
    have e7 : A.SET_HITTARGET ≠ A.SET_POWERDAC :=
      (nodup_index_ne A.labels h 7 11 _ _ rfl rfl (by decide)).1
    have e8 : A.SET_HITTARGET ≠ A.SET_PAYLOADTYPE :=
      (nodup_index_ne A.labels h 8 11 _ _ rfl rfl (by decide)).1
    have e9 : A.SET_HITTARGET ≠ A.SET_WHITENINGCOFFENABLE :=
      (nodup_index_ne A.labels h 9 11 _ _ rfl rfl (by decide)).1
    have e10 : A.SET_HITTARGET ≠ A.SET_PACKETTYPE :=
      (nodup_index_ne A.labels h 10 11 _ _ rfl rfl (by decide)).1
    simp only [BTModule_ActionControlExcute, hItem, e0, e1, e2, e3, e4, e5, e6, e7, e8, e9, e10, if_false, if_true]
  · intro hItem
    have e0 : A.SET_TESTMODE ≠ A.MODULE_INIT :=
      (nodup_index_ne A.labels h 0 12 _ _ rfl rfl (by decide)).1
    have e1 : A.SET_TESTMODE ≠ A.SETTXGAINTABLE :=
      (nodup_index_ne A.labels h 1 12 _ _ rfl rfl (by decide)).1
    have e2 : A.SET_TESTMODE ≠ A.SETTXDACTABLE :=
      (nodup_index_ne A.labels h 2 12 _ _ rfl rfl (by decide)).1
    have e3 : A.SET_TESTMODE ≠ A.SET_TXCHANNEL :=
      (nodup_index_ne A.labels h 3 12 _ _ rfl rfl (by decide)).1
    have e4 : A.SET_TESTMODE ≠ A.SET_RXCHANNEL :=
      (nodup_index_ne A.labels h 4 12 _ _ rfl rfl (by decide)).1
    have e5 : A.SET_TESTMODE ≠ A.SET_POWERGAININDEX :=
      (nodup_index_ne A.labels h 5 12 _ _ rfl rfl (by decide)).1
    have e6 : A.SET_TESTMODE ≠ A.SET_POWERGAIN :=
      (nodup_index_ne A.labels h 6 12 _ _ rfl rfl (by decide)).1
    have e7 : A.SET_TESTMODE ≠ A.SET_POWERDAC :=
      (nodup_index_ne A.labels h 7 12 _ _ rfl rfl (by decide)).1
    have e8 : A.SET_TESTMODE ≠ A.SET_PAYLOADTYPE :=
      (nodup_index_ne A.labels h 8 12 _ _ rfl rfl (by decide)).1
    have e9 : A.SET_TESTMODE ≠ A.SET_WHITENINGCOFFENABLE :=
      (nodup_index_ne A.labels h 9 12 _ _ rfl rfl (by decide)).1
    have e10 : A.SET_TESTMODE ≠ A.SET_PACKETTYPE :=
      (nodup_index_ne A.labels h 10 12 _ _ rfl rfl (by decide)).1
    have e11 : A.SET_TESTMODE ≠ A.SET_HITTARGET :=
      (nodup_index_ne A.labels h 11 12 _ _ rfl rfl (by decide)).1
    simp only [BTModule_ActionControlExcute, hItem, e0, e1, e2, e3, e4, e5, e6, e7, e8, e9, e10, e11, if_false, if_true]
  · intro hItem
    have e0 : A.SET_MUTIRXENABLE ≠ A.MODULE_INIT :=
      (nodup_index_ne A.labels h 0 13 _ _ rfl rfl (by decide)).1
    have e1 : A.SET_MUTIRXENABLE ≠ A.SETTXGAINTABLE :=
      (nodup_index_ne A.labels h 1 13 _ _ rfl rfl (by decide)).1
    have e2 : A.SET_MUTIRXENABLE ≠ A.SETTXDACTABLE :=
      (nodup_index_ne A.labels h 2 13 _ _ rfl rfl (by decide)).1
    have e3 : A.SET_MUTIRXENABLE ≠ A.SET_TXCHANNEL :=
      (nodup_index_ne A.labels h 3 13 _ _ rfl rfl (by decide)).1
    have e4 : A.SET_MUTIRXENABLE ≠ A.SET_RXCHANNEL :=
      (nodup_index_ne A.labels h 4 13 _ _ rfl rfl (by decide)).1
    have e5 : A.SET_MUTIRXENABLE ≠ A.SET_POWERGAININDEX :=
      (nodup_index_ne A.labels h 5 13 _ _ rfl rfl (by decide)).1
    have e6 : A.SET_MUTIRXENABLE ≠ A.SET_POWERGAIN :=
      (nodup_index_ne A.labels h 6 13 _ _ rfl rfl (by decide)).1
    have e7 : A.SET_MUTIRXENABLE ≠ A.SET_POWERDAC :=
      (nodup_index_ne A.labels h 7 13 _ _ rfl rfl (by decide)).1
    have e8 : A.SET_MUTIRXENABLE ≠ A.SET_PAYLOADTYPE :=
      (nodup_index_ne A.labels h 8 13 _ _ rfl rfl (by decide)).1
    have e9 : A.SET_MUTIRXENABLE ≠ A.SET_WHITENINGCOFFENABLE :=
      (nodup_index_ne A.labels h 9 13 _ _ rfl rfl (by decide)).1
    have e10 : A.SET_MUTIRXENABLE ≠ A.SET_PACKETTYPE :=
      (nodup_index_ne A.labels h 10 13 _ _ rfl rfl (by decide)).1
    have e11 : A.SET_MUTIRXENABLE ≠ A.SET_HITTARGET :=
      (nodup_index_ne A.labels h 11 13 _ _ rfl rfl (by decide)).1
    have e12 : A.SET_MUTIRXENABLE ≠ A.SET_TESTMODE :=
      (nodup_index_ne A.labels h 12 13 _ _ rfl rfl (by decide)).1
    simp only [BTModule_ActionControlExcute, hItem, e0, e1, e2, e3, e4, e5, e6, e7, e8, e9, e10, e11, e12, if_false, if_true]


/-- C21 (fails as stated). On the reference tags, with a device whose
`SetHciReset` fails with code 3 while its other calls succeed: `HCI_RESET` makes
two device calls (the codes 3 and 0 are recorded) and the dispatcher returns
`BT_FUNCTION_SUCCESS`, not the failure code of the reset. -/
theorem C21_hci_reset_two_calls_code_lost :
    (BTModule_ActionControlExcute refHeader refActions (resetFails 3)
        (actionModule refActions.HCI_RESET [])).2.pBtDevice = [3, 0] ∧
    (BTModule_ActionControlExcute refHeader refActions (resetFails 3)
        (actionModule refActions.HCI_RESET [])).1 = refHeader.BT_FUNCTION_SUCCESS ∧
    (BTModule_ActionControlExcute refHeader refActions (resetFails 3)
        (actionModule refActions.HCI_RESET [])).1 ≠ 3 := by
  decide

/-- C21 (amended). For every action ordinal that is a case label of the
dispatcher other than `MODULE_INIT` (no device call) and `HCI_RESET`: the
dispatcher makes exactly one call through the function table of the device and
returns the code of that call unchanged, so a failure of that call is returned;
with the device that counts its calls the count grows by one and the returned
code is the code of the device. With distinct case labels, `HCI_RESET` makes two
calls, `SetHciReset(700)` and then `SetRestMDCount`. -/
theorem C21_one_call_code_unchanged {δ : Type} (H : Header) (A : ActionTags) (D : BT_DEVICE δ)
    (m : BT_MODULE δ) (hmem : m.pBtParam.ParameterIndex ∈ A.labels)
    (hinit : m.pBtParam.ParameterIndex ≠ A.MODULE_INIT)
    (hreset : m.pBtParam.ParameterIndex ≠ A.HCI_RESET) :
    oneDeviceCall D m (BTModule_ActionControlExcute H A D m) ∧
    (∀ (code : Int) (mc : BT_MODULE Nat),
      mc.pBtParam.ParameterIndex ∈ A.labels →
      mc.pBtParam.ParameterIndex ≠ A.MODULE_INIT →
      mc.pBtParam.ParameterIndex ≠ A.HCI_RESET →
      (BTModule_ActionControlExcute H A (countDevice code) mc).1 = code ∧
      (BTModule_ActionControlExcute H A (countDevice code) mc).2.pBtDevice = mc.pBtDevice + 1) ∧
    (∀ mr : BT_MODULE δ, A.labels.Nodup → mr.pBtParam.ParameterIndex = A.HCI_RESET →
      (BTModule_ActionControlExcute H A D mr).2.pBtDevice =
        (D.call (D.call mr.pBtDevice (DeviceCall.SetHciReset 700)).2
          DeviceCall.SetRestMDCount).2) := by
  refine ⟨excute_one_call H A D m hmem hinit hreset, ?_, ?_⟩
  · intro code mc h1 h2 h3
    rcases excute_one_call H A (countDevice code) mc h1 h2 h3 with ⟨c, hc1, hc2⟩ | ⟨s, hs1, hs2⟩
    · exact ⟨hc1, hc2⟩
    · exact ⟨hs1, hs2⟩
  · intro mr hnd hr
    rw [excute_HCI_RESET H A D mr hnd hr]

/-- C21 (amended), instance: `SET_TXCHANNEL` and `PACKET_RX_UPDATE` on the
reference tags with a counting device whose calls fail with code 3. -/
theorem C21_one_call_code_unchanged_witness :
    oneDeviceCall (countDevice 3) (actionModule refActions.SET_TXCHANNEL 0)
      (BTModule_ActionControlExcute refHeader refActions (countDevice 3)
        (actionModule refActions.SET_TXCHANNEL 0)) ∧
    (BTModule_ActionControlExcute refHeader refActions (countDevice 3)
        (actionModule refActions.PACKET_RX_UPDATE 0)).1 = 3 ∧
    (BTModule_ActionControlExcute refHeader refActions (countDevice 3)
        (actionModule refActions.PACKET_RX_UPDATE 0)).2.pBtDevice =
      (actionModule refActions.PACKET_RX_UPDATE 0).pBtDevice + 1 :=
  ⟨(C21_one_call_code_unchanged refHeader refActions (countDevice 3)
      (actionModule refActions.SET_TXCHANNEL 0) (by decide) (by decide) (by decide)).1,
   (C21_one_call_code_unchanged refHeader refActions (countDevice 3)
      (actionModule refActions.SET_TXCHANNEL 0) (by decide) (by decide) (by decide)).2.1 3
      (actionModule refActions.PACKET_RX_UPDATE 0) (by decide) (by decide) (by decide)⟩

/-! ## C22: the "set" actions -/

/-- C22. With distinct case labels, for every module state and device: each of
the thirteen "set" actions (gain table, DAC table, TX channel, RX channel, power
gain index, power gain value, power DAC, payload type, whitening, packet type,
hit target, test mode, multi-RX) is one call through the function table of the
device with one field of the parameter block as its argument, the code of that
call is returned, and the dispatcher leaves the parameter block and the session
report as they were. The two table setters receive the table of the parameter
block; the device is taken to read it only. -/
theorem C22_set_actions_frame {δ : Type} (H : Header) (A : ActionTags) (D : BT_DEVICE δ)
    (m : BT_MODULE δ) (h : A.labels.Nodup) :
    (m.pBtParam.ParameterIndex = A.SETTXGAINTABLE →
      BTModule_ActionControlExcute H A D m =
        deviceCall D m (DeviceCall.SetTxGainTable m.pBtParam.TXGainTable)) ∧
    (m.pBtParam.ParameterIndex = A.SETTXDACTABLE →
      BTModule_ActionControlExcute H A D m =
        deviceCall D m (DeviceCall.SetTxDACTable m.pBtParam.TXDACTable)) ∧
    (m.pBtParam.ParameterIndex = A.SET_TXCHANNEL →
      BTModule_ActionControlExcute H A D m =
        deviceCall D m (DeviceCall.SetTxChannel m.pBtParam.mChannelNumber)) ∧
    (m.pBtParam.ParameterIndex = A.SET_RXCHANNEL →
      BTModule_ActionControlExcute H A D m =
        deviceCall D m (DeviceCall.SetRxChannel m.pBtParam.mChannelNumber)) ∧
    (m.pBtParam.ParameterIndex = A.SET_POWERGAININDEX →
      BTModule_ActionControlExcute H A D m =
        deviceCall D m (DeviceCall.SetPowerGainIndex m.pBtParam.mTxGainIndex)) ∧
    (m.pBtParam.ParameterIndex = A.SET_POWERGAIN →
      BTModule_ActionControlExcute H A D m =
        deviceCall D m (DeviceCall.SetPowerGain m.pBtParam.mTxGainValue)) ∧
    (m.pBtParam.ParameterIndex = A.SET_POWERDAC →
      BTModule_ActionControlExcute H A D m =
        deviceCall D m (DeviceCall.SetPowerDac m.pBtParam.mTxDAC)) ∧
    (m.pBtParam.ParameterIndex = A.SET_PAYLOADTYPE →
      BTModule_ActionControlExcute H A D m =
        deviceCall D m (DeviceCall.SetPayloadType m.pBtParam.mPayloadType)) ∧
    (m.pBtParam.ParameterIndex = A.SET_WHITENINGCOFFENABLE →
      BTModule_ActionControlExcute H A D m =
        deviceCall D m (DeviceCall.SetWhiteningCoeffEnable m.pBtParam.mWhiteningCoeffEnable)) ∧
    (m.pBtParam.ParameterIndex = A.SET_PACKETTYPE →
      BTModule_ActionControlExcute H A D m =
        deviceCall D m (DeviceCall.SetPacketType m.pBtParam.mPacketType)) ∧
    (m.pBtParam.ParameterIndex = A.SET_HITTARGET →
      BTModule_ActionControlExcute H A D m =
        deviceCall D m (DeviceCall.SetHitTarget m.pBtParam.mHitTarget)) ∧
    (m.pBtParam.ParameterIndex = A.SET_TESTMODE →
      BTModule_ActionControlExcute H A D m =
        deviceCall D m (DeviceCall.SetTestMode m.pBtParam.mTestMode)) ∧
    (m.pBtParam.ParameterIndex = A.SET_MUTIRXENABLE →
      BTModule_ActionControlExcute H A D m =
        deviceCall D m (DeviceCall.SetMutiRxEnable m.pBtParam.mMutiRxEnable)) ∧
    (m.pBtParam.ParameterIndex ∈ A.setLabels →
      oneDeviceCall D m (BTModule_ActionControlExcute H A D m) ∧
      (BTModule_ActionControlExcute H A D m).2.pBtParam = m.pBtParam ∧
      (BTModule_ActionControlExcute H A D m).2.pModuleBtReport = m.pModuleBtReport) := by
  obtain ⟨s1, s2, s3, s4, s5, s6, s7, s8, s9, s10, s11, s12, s13⟩ := excute_set H A D m h
  refine ⟨s1, s2, s3, s4, s5, s6, s7, s8, s9, s10, s11, s12, s13, ?_⟩
  intro hmem
  simp only [ActionTags.setLabels, List.mem_cons, List.mem_singleton, List.not_mem_nil,
    or_false] at hmem
  have hd : ∀ c : DeviceCall, oneDeviceCall D m (deviceCall D m c) ∧
      (deviceCall D m c).2.pBtParam = m.pBtParam ∧
      (deviceCall D m c).2.pModuleBtReport = m.pModuleBtReport :=
    fun c ↦ ⟨Or.inl ⟨c, rfl, rfl⟩, rfl, rfl⟩
  rcases hmem with e | e | e | e | e | e | e | e | e | e | e | e | e
  · rw [s1 e]; exact hd _
  · rw [s2 e]; exact hd _
  · rw [s3 e]; exact hd _
  · rw [s4 e]; exact hd _
  · rw [s5 e]; exact hd _
  · rw [s6 e]; exact hd _
  · rw [s7 e]; exact hd _
  · rw [s8 e]; exact hd _
  · rw [s9 e]; exact hd _
  · rw [s10 e]; exact hd _
  · rw [s11 e]; exact hd _
  · rw [s12 e]; exact hd _
  · rw [s13 e]; exact hd _

/-- C22, instance: `SET_HITTARGET` on the reference tags, on a module whose
session report a session has filled, with a device whose calls fail with code 3. -/
theorem C22_set_actions_frame_witness :
    oneDeviceCall (logDevice 3) (usedModule refActions.SET_HITTARGET 5)
      (BTModule_ActionControlExcute refHeader refActions (logDevice 3)
        (usedModule refActions.SET_HITTARGET 5)) ∧
    (BTModule_ActionControlExcute refHeader refActions (logDevice 3)
        (usedModule refActions.SET_HITTARGET 5)).2.pBtParam =
      (usedModule refActions.SET_HITTARGET 5).pBtParam ∧
    (BTModule_ActionControlExcute refHeader refActions (logDevice 3)
        (usedModule refActions.SET_HITTARGET 5)).2.pModuleBtReport =
      (usedModule refActions.SET_HITTARGET 5).pModuleBtReport :=
  (C22_set_actions_frame refHeader refActions (logDevice 3)
    (usedModule refActions.SET_HITTARGET 5) (by decide)).2.2.2.2.2.2.2.2.2.2.2.2.2 (by decide)


/-! ## C23: the shape of the error responses -/

theorem setExit_error (H : Header) (name : CStr) (required params_count : Nat)
    (st : BT_PARAMETER)
    (h : (setExit H name required params_count st).rtn ≠ H.BT_FUNCTION_SUCCESS) :
    (setExit H name required params_count st).notify =
      codeResponse H name H.FUNCTION_PARAMETER_ERROR := by
  unfold setExit at h ⊢
  by_cases hc : params_count ≠ required
  · rw [if_pos hc]
  · rw [if_neg hc] at h
    exact absurd rfl h

/-- Every path of `BT_SetParam1` ends at the label `EXIT`. -/
theorem BT_SetParam1_exit (H : Header) (st : BT_PARAMETER) (p : CStr) :
    ∃ (n : Nat) (st1 : BT_PARAMETER),
      BT_SetParam1 H st p = setExit H H.STR_BT_MP_SET_PARAM1 6 n st1 := by
  unfold BT_SetParam1
  split <;> exact ⟨_, _, rfl⟩

/-- Every path of `BT_SetParam2` ends at the label `EXIT`. -/
theorem BT_SetParam2_exit (H : Header) (st : BT_PARAMETER) (p : CStr) :
    ∃ (n : Nat) (st1 : BT_PARAMETER),
      BT_SetParam2 H st p = setExit H H.STR_BT_MP_SET_PARAM2 5 n st1 := by
  unfold BT_SetParam2
  split <;> exact ⟨_, _, rfl⟩

/-- A failing `BT_SetParam` has written the parameter-error response. -/
theorem pairLoop_error_response (H : Header) :
    ∀ (pairs : List CStr) (index value : Int) (st : BT_PARAMETER),
      (pairLoop H pairs index value st).rtn ≠ H.BT_FUNCTION_SUCCESS →
      (pairLoop H pairs index value st).notify =
        codeResponse H H.STR_BT_MP_SET_PARAM H.FUNCTION_PARAMETER_ERROR := by
  intro pairs
  induction pairs with
  | nil =>
    intro index value st h
    exact absurd rfl h
  | cons g rest ih =>
    intro index value st h
    unfold pairLoop at h ⊢
    split
    · rfl
    · rename_i s hs
      rw [hs] at h
      dsimp only at h
      split_ifs at h ⊢
      · exact ih _ _ _ h
      · exact ih _ _ _ h
      · exact ih _ _ _ h
      · rfl

/-- A failing `BT_SendHciCmd` has left through the label `EXIT`. -/
theorem BT_SendHciCmd_error {δ : Type} (H : Header) (M : HciAccess δ) (dev : δ) (p : CStr)
    (r : HciResult δ) (hr : BT_SendHciCmd H M dev p = some r)
    (hne : r.rtn ≠ H.BT_FUNCTION_SUCCESS) :
    r.notify = codeResponse H H.STR_BT_MP_HCI_CMD H.FUNCTION_PARAMETER_ERROR := by
  unfold BT_SendHciCmd at hr
  split at hr
  · cases hr; rfl
  · cases hr; rfl
  · dsimp only at hr
    split at hr
    · cases hr; rfl
    · split_ifs at hr with h1 h2 h3
      · cases hr; rfl
      · cases hr
        exact absurd h2 hne
      · cases hr; rfl


/-- C23 (fails as stated). On the reference header, `BT_GetParam` on the index
`99` returns `FUNCTION_PARAMETER_ERROR` and writes `bt_mp_GetParam,15,0x04`: the
command name, the index count 15 and the code, three fields and not the two of
name and code. -/
theorem C23_getparam_error_has_index_field :
    (BT_GetParam refHeader zeroParam "99".toList []).rtn = refHeader.FUNCTION_PARAMETER_ERROR ∧
    (BT_GetParam refHeader zeroParam "99".toList []).notify = "bt_mp_GetParam,15,0x04".toList ∧
    (tokens refHeader.STR_BT_MP_RESULT_DELIM
      (BT_GetParam refHeader zeroParam "99".toList []).notify).length = 3 ∧
    (BT_GetParam refHeader zeroParam "99".toList []).notify ≠
      codeResponse refHeader refHeader.STR_BT_MP_GET_PARAM refHeader.FUNCTION_PARAMETER_ERROR := by
  decide

/-- C23 (amended). When they return an error, `BT_SetParam`, `BT_SetParam1` and
`BT_SetParam2` have written exactly the command name, one result delimiter and
the parameter-error code, and `BT_SendHciCmd` the command name, one result
delimiter and a code. `BT_RegRW` writes name, delimiter and the parameter-error
code on a field-count mismatch, and name, delimiter and the returned code after
a write; after a read, failed or not, it writes name, delimiter, the returned
code, a delimiter and the 8-digit data word. `BT_GetParam` on error writes
name, delimiter, the index count 15 in decimal, a delimiter and the code as
`0x%02x`. `BT_Exec` on an out-of-range ordinal writes name, delimiter, the
command text up to the end of its first token, a delimiter and the code. -/
theorem C23_error_response_shapes {δ ε ζ : Type} (H : Header) (A : ActionTags)
    (st : BT_PARAMETER) (p buf : CStr) (M : RegAccess δ) (Mh : HciAccess ε) (dev : δ)
    (hdev : ε) (ActionControlExcute : BT_MODULE ζ → Int × BT_MODULE ζ) (m : BT_MODULE ζ) :
    ((BT_SetParam H st p).rtn ≠ H.BT_FUNCTION_SUCCESS →
      (BT_SetParam H st p).notify =
        codeResponse H H.STR_BT_MP_SET_PARAM H.FUNCTION_PARAMETER_ERROR) ∧
    ((BT_SetParam1 H st p).rtn ≠ H.BT_FUNCTION_SUCCESS →
      (BT_SetParam1 H st p).notify =
        codeResponse H H.STR_BT_MP_SET_PARAM1 H.FUNCTION_PARAMETER_ERROR) ∧
    ((BT_SetParam2 H st p).rtn ≠ H.BT_FUNCTION_SUCCESS →
      (BT_SetParam2 H st p).notify =
        codeResponse H H.STR_BT_MP_SET_PARAM2 H.FUNCTION_PARAMETER_ERROR) ∧
    (∀ r : HciResult ε, BT_SendHciCmd H Mh hdev p = some r →
      r.rtn ≠ H.BT_FUNCTION_SUCCESS →
      ∃ code : Int, r.notify = codeResponse H H.STR_BT_MP_HCI_CMD code) ∧
    ((regParse H (tokens H.STR_BT_MP_PARAM_DELIM p)).params_count ≠
        REGRW_PARAM_COUNT H (regParse H (tokens H.STR_BT_MP_PARAM_DELIM p)) →
      (BT_RegRW H M dev p).notify =
        codeResponse H H.STR_BT_MP_REG_RW H.FUNCTION_PARAMETER_ERROR) ∧
    ((regParse H (tokens H.STR_BT_MP_PARAM_DELIM p)).params_count =
        REGRW_PARAM_COUNT H (regParse H (tokens H.STR_BT_MP_PARAM_DELIM p)) →
      (regParse H (tokens H.STR_BT_MP_PARAM_DELIM p)).rw ≠ 0 →
      (BT_RegRW H M dev p).notify =
        codeResponse H H.STR_BT_MP_REG_RW (BT_RegRW H M dev p).rtn) ∧
    ((regParse H (tokens H.STR_BT_MP_PARAM_DELIM p)).params_count =
        REGRW_PARAM_COUNT H (regParse H (tokens H.STR_BT_MP_PARAM_DELIM p)) →
      (regParse H (tokens H.STR_BT_MP_PARAM_DELIM p)).rw = 0 →
      ∃ data : Nat, data < 2 ^ 32 ∧
        (BT_RegRW H M dev p).notify =
          codeResponse H H.STR_BT_MP_REG_RW (BT_RegRW H M dev p).rtn ++
            H.STR_BT_MP_RESULT_DELIM ++ fmt_0x 8 data) ∧
    ((BT_GetParam H st p buf).rtn ≠ H.BT_FUNCTION_SUCCESS →
      (BT_GetParam H st p buf).notify =
        H.STR_BT_MP_GET_PARAM ++ H.STR_BT_MP_RESULT_DELIM ++ fmt_d 15 ++
          H.STR_BT_MP_RESULT_DELIM ++ hexLead ++
          fmt_0x 2 (toUnsigned 32 H.FUNCTION_PARAMETER_ERROR)) ∧
    (∀ token : CStr, tokens H.STR_BT_MP_PARAM_DELIM p = [token] →
      ¬ (toInt32 (strtol H token).1 > A.NOTTHING ∧
          toInt32 (strtol H token).1 < A.NUMBEROFBT_ACTIONCONTROL_TAG) →
      (BT_Exec H A ActionControlExcute m p buf).notify =
        H.STR_BT_MP_EXEC ++ H.STR_BT_MP_RESULT_DELIM ++
          cutAtFirstToken H.STR_BT_MP_PARAM_DELIM p ++
          H.STR_BT_MP_RESULT_DELIM ++ fmt_x_int H.FUNCTION_PARAMETER_ERROR) := by
  refine ⟨?_, ?_, ?_, ?_, ?_, ?_, ?_, ?_, ?_⟩
  · exact pairLoop_error_response H _ _ _ _
  · obtain ⟨n, st1, he⟩ := BT_SetParam1_exit H st p
    rw [he]
    exact setExit_error H _ _ _ _
  · obtain ⟨n, st1, he⟩ := BT_SetParam2_exit H st p
    rw [he]
    exact setExit_error H _ _ _ _
  · intro r hr hne
    exact ⟨_, BT_SendHciCmd_error H Mh hdev p r hr hne⟩
  · intro hc
    simp only [BT_RegRW, hc, ne_eq, not_false_eq_true, if_true]
  · intro hc hrw
    simp only [BT_RegRW, hc, hrw, ne_eq, not_true_eq_false, if_false]
  · intro hc hrw
    refine ⟨(M.GetRegMaskBits dev (regParse H (tokens H.STR_BT_MP_PARAM_DELIM p)).type
      (regParse H (tokens H.STR_BT_MP_PARAM_DELIM p)).page
      (regParse H (tokens H.STR_BT_MP_PARAM_DELIM p)).address
      (regParse H (tokens H.STR_BT_MP_PARAM_DELIM p)).msb
      (regParse H (tokens H.STR_BT_MP_PARAM_DELIM p)).lsb
      (regParse H (tokens H.STR_BT_MP_PARAM_DELIM p)).data).2.1 % 2 ^ 32,
      Nat.mod_lt _ (by decide), ?_⟩
    simp only [BT_RegRW, hc, hrw, ne_eq, not_true_eq_false, if_false, if_true, codeResponse]
  · intro hne
    unfold BT_GetParam at hne ⊢
    split at hne
    · dsimp only at hne ⊢
      split_ifs at hne ⊢ with hc
      · simp only [hexLead, BT_PARAM_IDX_NUM, List.append_assoc]
      · exact absurd rfl hne
    · exact absurd rfl hne
  · intro token ht hrange
    simp only [BT_Exec, ht, hrange, if_false]

/-- C23 (amended), instance on the reference header: the command `99` as a set
command, as a get command and as an action command. -/
theorem C23_error_response_shapes_witness :
    (BT_SetParam refHeader zeroParam "99".toList).notify =
      codeResponse refHeader refHeader.STR_BT_MP_SET_PARAM refHeader.FUNCTION_PARAMETER_ERROR ∧
    (BT_SetParam1 refHeader zeroParam "99".toList).notify =
      codeResponse refHeader refHeader.STR_BT_MP_SET_PARAM1 refHeader.FUNCTION_PARAMETER_ERROR ∧
    (BT_GetParam refHeader zeroParam "99".toList []).notify =
      refHeader.STR_BT_MP_GET_PARAM ++ refHeader.STR_BT_MP_RESULT_DELIM ++ fmt_d 15 ++
        refHeader.STR_BT_MP_RESULT_DELIM ++ hexLead ++
        fmt_0x 2 (toUnsigned 32 refHeader.FUNCTION_PARAMETER_ERROR) ∧
    (BT_Exec refHeader refActions (tickDispatcher 0) (zeroModule 0) "99".toList []).notify =
      refHeader.STR_BT_MP_EXEC ++ refHeader.STR_BT_MP_RESULT_DELIM ++
        cutAtFirstToken refHeader.STR_BT_MP_PARAM_DELIM "99".toList ++
        refHeader.STR_BT_MP_RESULT_DELIM ++ fmt_x_int refHeader.FUNCTION_PARAMETER_ERROR :=
  ⟨(C23_error_response_shapes refHeader refActions zeroParam "99".toList []
      (recorder 0 0 0) (hciRecorder 0 []) [] [] (tickDispatcher 0) (zeroModule 0)).1
      (by decide),
   (C23_error_response_shapes refHeader refActions zeroParam "99".toList []
      (recorder 0 0 0) (hciRecorder 0 []) [] [] (tickDispatcher 0) (zeroModule 0)).2.1
      (by decide),
   (C23_error_response_shapes refHeader refActions zeroParam "99".toList []
      (recorder 0 0 0) (hciRecorder 0 []) [] [] (tickDispatcher 0) (zeroModule 0)).2.2.2.2.2.2.2.1
      (by decide),
   (C23_error_response_shapes refHeader refActions zeroParam "99".toList []
      (recorder 0 0 0) (hciRecorder 0 []) [] [] (tickDispatcher 0) (zeroModule 0)).2.2.2.2.2.2.2.2
      "99".toList (by decide) (by decide)⟩


/-! ## C24: arity and stores of `BT_SetParam1` -/

/-- C24. With distinct success and parameter-error codes: `BT_SetParam1` returns
`BT_FUNCTION_SUCCESS` exactly when the command has six tokens; with fewer or
with more than six it returns `FUNCTION_PARAMETER_ERROR`. With six tokens the
channel number, packet type, payload type, TX packet count, TX gain value and
whitening coefficient hold the six decoded tokens in that order, each converted
to the type of its field (8, 32, 32, 16, 8 and 8 bits), the other fields are as
before, and the response is the command name, a delimiter and the success code. -/
theorem C24_setparam1_arity (H : Header) (st : BT_PARAMETER) (p : CStr)
    (hcodes : H.BT_FUNCTION_SUCCESS ≠ H.FUNCTION_PARAMETER_ERROR) :
    ((BT_SetParam1 H st p).rtn = H.BT_FUNCTION_SUCCESS ↔
      (tokens H.STR_BT_MP_PARAM_DELIM p).length = 6) ∧
    ((tokens H.STR_BT_MP_PARAM_DELIM p).length < 6 ∨
        6 < (tokens H.STR_BT_MP_PARAM_DELIM p).length →
      (BT_SetParam1 H st p).rtn = H.FUNCTION_PARAMETER_ERROR) ∧
    (∀ t1 t2 t3 t4 t5 t6 : CStr,
      tokens H.STR_BT_MP_PARAM_DELIM p = [t1, t2, t3, t4, t5, t6] →
      (BT_SetParam1 H st p).param =
        { st with mChannelNumber := tok8 H t1
                  mPacketType := tok32 H t2
                  mPayloadType := tok32 H t3
                  mTxPacketCount := tok16 H t4
                  mTxGainValue := tok8 H t5
                  mWhiteningCoeffValue := tok8 H t6 } ∧
      (BT_SetParam1 H st p).notify =
        codeResponse H H.STR_BT_MP_SET_PARAM1 H.BT_FUNCTION_SUCCESS) := by
  have hc2 : H.FUNCTION_PARAMETER_ERROR ≠ H.BT_FUNCTION_SUCCESS := fun e ↦ hcodes e.symm
  refine ⟨?_, ?_, ?_⟩
  · unfold BT_SetParam1
    generalize tokens H.STR_BT_MP_PARAM_DELIM p = ts
    rcases ts with _ | ⟨t1, _ | ⟨t2, _ | ⟨t3, _ | ⟨t4, _ | ⟨t5, _ | ⟨t6, _ | ⟨t7, r⟩⟩⟩⟩⟩⟩⟩ <;>
      simp [setExit, hc2]
  · unfold BT_SetParam1
    generalize tokens H.STR_BT_MP_PARAM_DELIM p = ts
    rcases ts with _ | ⟨t1, _ | ⟨t2, _ | ⟨t3, _ | ⟨t4, _ | ⟨t5, _ | ⟨t6, _ | ⟨t7, r⟩⟩⟩⟩⟩⟩⟩ <;>
      simp [setExit]
  · intro t1 t2 t3 t4 t5 t6 ht
    simp only [BT_SetParam1, ht, setExit, ne_eq, not_true_eq_false, if_false, tok8, tok16, tok32,
      and_self]

/-- C24, instance on the reference header: `1,2,3,4,5,6` succeeds, `1,2,3,4,5`
and `1,2,3,4,5,6,7` are rejected. -/
theorem C24_setparam1_arity_witness :
    (BT_SetParam1 refHeader zeroParam "1,2,3,4,5,6".toList).rtn =
      refHeader.BT_FUNCTION_SUCCESS ∧
    (BT_SetParam1 refHeader zeroParam "1,2,3,4,5".toList).rtn =
      refHeader.FUNCTION_PARAMETER_ERROR ∧
    (BT_SetParam1 refHeader zeroParam "1,2,3,4,5,6,7".toList).rtn =
      refHeader.FUNCTION_PARAMETER_ERROR :=
  ⟨(C24_setparam1_arity refHeader zeroParam "1,2,3,4,5,6".toList (by decide)).1.mpr (by decide),
   (C24_setparam1_arity refHeader zeroParam "1,2,3,4,5".toList (by decide)).2.1 (by decide),
   (C24_setparam1_arity refHeader zeroParam "1,2,3,4,5,6,7".toList (by decide)).2.1 (by decide)⟩

/-! ## C25: decoding of the hit target -/

/-- C25 (the code at the failing input). On the reference header, the pair
`11,10` of `BT_SetParam` succeeds and stores the hit target 10: the value token
is read by `strtoll` with base 0, as a decimal literal. The same token as the
fifth field of `BT_SetParam2` stores 16. -/
theorem C25_setparam_hit_target_base_zero :
    (BT_SetParam refHeader zeroParam "11,10".toList).rtn = refHeader.BT_FUNCTION_SUCCESS ∧
    (BT_SetParam refHeader zeroParam "11,10".toList).param.mHitTarget = 10 ∧
    (BT_SetParam2 refHeader zeroParam "0,0,0,0,10".toList).rtn = refHeader.BT_FUNCTION_SUCCESS ∧
    (BT_SetParam2 refHeader zeroParam "0,0,0,0,10".toList).param.mHitTarget = 16 := by
  decide


/-! ## C26: width of the rendered scalar slots -/

theorem fmt_0x_length_ge (w n : Nat) : w ≤ (fmt_0x w n).length := by
  unfold fmt_0x
  rw [List.length_append, List.length_replicate]
  omega

/-- `%0Wx` of a value below `16 ^ W` has exactly `W` characters. -/
theorem fmt_0x_length (w n : Nat) (hw : 0 < w) (hn : n < 16 ^ w) : (fmt_0x w n).length = w := by
  have h := fmt_x_length_le n w hw hn
  unfold fmt_0x
  rw [List.length_append, List.length_replicate]
  omega

/-- `%0Wx` of a value below `16 ^ e` has at most `max W e` characters. -/
theorem fmt_0x_length_le (w n e : Nat) (he : 0 < e) (hwe : w ≤ e) (hn : n < 16 ^ e) :
    (fmt_0x w n).length ≤ e := by
  have h := fmt_x_length_le n e he hn
  unfold fmt_0x
  rw [List.length_append, List.length_replicate]
  omega

theorem strtoull_lt (s : CStr) (base : Nat) : strtoull s base < 2 ^ 64 := by
  unfold strtoull
  dsimp only
  split_ifs with h1 h2
  · decide
  · exact Nat.mod_lt _ (by decide)
  · omega

theorem bt_index2param_inRange (st : BT_PARAMETER) (index value : Int) (h : inRange st) :
    inRange (bt_index2param st index value) := by
  obtain ⟨h1, h2, h3, h4, h5, h6, h7, h8, h9, h10, h11, h12⟩ := h
  show inRange (if index = 0 then _ else _)
  repeat' refine ite_cases (P := inRange) (fun _ ↦ ?_) (fun _ ↦ ?_)
  all_goals refine ⟨?_, ?_, ?_, ?_, ?_, ?_, ?_, ?_, ?_, ?_, ?_, ?_⟩
  all_goals first
    | assumption
    | exact toUnsigned_lt _ _

/-- One step of the inner loop of `BT_SetParam` writes array elements only. -/
theorem paramStep_inRange (H : Header) (s : PairScan) (t : CStr) (h : inRange s.param) :
    scanInRange (paramStep H s t) := by
  show scanInRange (if s.params_count = 0 then _ else _)
  repeat' refine ite_cases (P := scanInRange) (fun _ ↦ ?_) (fun _ ↦ ?_)
  all_goals exact h

theorem paramLoop_inRange (H : Header) :
    ∀ (ts : List CStr) (s : PairScan), inRange s.param → scanInRange (paramLoop H ts s) := by
  intro ts
  induction ts with
  | nil =>
    intro s h
    exact h
  | cons t ts ih =>
    intro s h
    have hstep := paramStep_inRange H s t h
    unfold paramLoop
    cases hs : paramStep H s t with
    | error st1 =>
      rw [hs] at hstep
      exact hstep
    | ok s1 =>
      rw [hs] at hstep
      exact ih { s1 with params_count := (s1.params_count + 1) % 2 ^ 16 } hstep

theorem pairLoop_inRange (H : Header) :
    ∀ (pairs : List CStr) (index value : Int) (st : BT_PARAMETER), inRange st →
      inRange (pairLoop H pairs index value st).param := by
  intro pairs
  induction pairs with
  | nil =>
    intro index value st h
    exact h
  | cons g rest ih =>
    intro index value st h
    have hl := paramLoop_inRange H (tokens H.STR_BT_MP_PARAM_DELIM g)
      { params_count := 0, index := index, var_pair := false, value := value, param := st } h
    unfold pairLoop
    cases hs : paramLoop H (tokens H.STR_BT_MP_PARAM_DELIM g)
        { params_count := 0, index := index, var_pair := false, value := value, param := st } with
    | error st1 =>
      rw [hs] at hl
      exact hl
    | ok s =>
      rw [hs] at hl
      dsimp only
      split_ifs
      · exact ih _ _ _ (bt_index2param_inRange _ _ _ hl)
      · exact ih _ _ _ (bt_index2param_inRange _ _ _ hl)
      · exact ih _ _ _ hl
      · exact hl

theorem setExit_param (H : Header) (name : CStr) (required params_count : Nat)
    (st : BT_PARAMETER) : (setExit H name required params_count st).param = st := by
  unfold setExit
  split_ifs <;> rfl

theorem BT_SetParam1_inRange (H : Header) (st : BT_PARAMETER) (p : CStr) (h : inRange st) :
    inRange (BT_SetParam1 H st p).param := by
  obtain ⟨h1, h2, h3, h4, h5, h6, h7, h8, h9, h10, h11, h12⟩ := h
  unfold BT_SetParam1
  split <;> rw [setExit_param] <;> refine ⟨?_, ?_, ?_, ?_, ?_, ?_, ?_, ?_, ?_, ?_, ?_, ?_⟩
  all_goals first
    | assumption
    | exact toUnsigned_lt _ _

theorem BT_SetParam2_inRange (H : Header) (st : BT_PARAMETER) (p : CStr) (h : inRange st) :
    inRange (BT_SetParam2 H st p).param := by
  obtain ⟨h1, h2, h3, h4, h5, h6, h7, h8, h9, h10, h11, h12⟩ := h
  unfold BT_SetParam2
  split <;> rw [setExit_param] <;> refine ⟨?_, ?_, ?_, ?_, ?_, ?_, ?_, ?_, ?_, ?_, ?_, ?_⟩
  all_goals first
    | assumption
    | exact toUnsigned_lt _ _
    | exact strtoull_lt _ _


/-- `BT_GetParam` on a valid scalar index renders the head and the slot with the
minimal width of its format. -/
theorem BT_GetParam_scalar (H : Header) (st : BT_PARAMETER) (q buf tq : CStr)
    (rest : List CStr) (i : Int)
    (hq : tokens H.STR_BT_MP_PARAM_DELIM q = tq :: rest)
    (hqe : (strtol H tq).2 = [])
    (hqi : toInt32 (strtol H tq).1 = i)
    (hscalar : isScalarIndex i) :
    BT_GetParam H st q buf =
      { rtn := H.BT_FUNCTION_SUCCESS
        notify := printHead H i ++ fmt_0x (slotDigits i) (slotValue st i)
        param := st } := by
  have hc := isScalarIndex_cases hscalar
  have hr : ¬ (toInt32 (strtol H tq).1 < 0 ∨ toInt32 (strtol H tq).1 ≥ BT_PARAM_IDX_NUM) := by
    unfold BT_PARAM_IDX_NUM; omega
  simp only [BT_GetParam, hq, hqe, hr, ne_eq, not_true_eq_false, false_or, if_false]
  rw [hqi, bt_index2print_scalar H st _ hscalar]
  rfl

/-- C26 (fails as stated). On the reference header, after the set command
`11,0x1000000000000` (which succeeds), `BT_GetParam` on index 11 renders the hit
target with 13 hex digits. -/
theorem C26_hit_target_thirteen_digits :
    (BT_SetParam refHeader zeroParam "11,0x1000000000000".toList).rtn =
      refHeader.BT_FUNCTION_SUCCESS ∧
    (BT_GetParam refHeader (BT_SetParam refHeader zeroParam "11,0x1000000000000".toList).param
      "11".toList []).notify = printHead refHeader 11 ++ "1000000000000".toList ∧
    "1000000000000".toList.length = 13 := by
  decide

/-- C26 (amended). For a parameter block whose scalar fields hold values of
their C types (which `BT_SetParam`, `BT_SetParam1` and `BT_SetParam2` preserve)
and a valid scalar index, `BT_GetParam` succeeds and renders, behind the head
`<name><delim><index><delim>0x`, exactly 2 hex digits for each 8-bit slot
(indices 1, 5, 6, 7, 8, 10), exactly 4 for each 16-bit slot (4, 9), exactly 8
for the crystal value (14); for the hit target (11), a 64-bit slot, between 12
and 16 digits, and exactly 12 when the stored value is below `2 ^ 48`; for the
packet and payload type (2, 3), which have the width of `int`, between 2 and 8. -/
theorem C26_scalar_render_width (H : Header) (st : BT_PARAMETER) (q buf tq : CStr)
    (rest : List CStr) (i : Int)
    (hin : inRange st)
    (hq : tokens H.STR_BT_MP_PARAM_DELIM q = tq :: rest)
    (hqe : (strtol H tq).2 = [])
    (hqi : toInt32 (strtol H tq).1 = i)
    (hscalar : isScalarIndex i) :
    (∀ p : CStr, inRange (BT_SetParam H st p).param ∧ inRange (BT_SetParam1 H st p).param ∧
      inRange (BT_SetParam2 H st p).param) ∧
    (BT_GetParam H st q buf).rtn = H.BT_FUNCTION_SUCCESS ∧
    ∃ digits : CStr,
      (BT_GetParam H st q buf).notify = printHead H i ++ digits ∧
      (i = 1 ∨ i = 5 ∨ i = 6 ∨ i = 7 ∨ i = 8 ∨ i = 10 → digits.length = 2) ∧
      (i = 4 ∨ i = 9 → digits.length = 4) ∧
      (i = 14 → digits.length = 8) ∧
      (i = 11 → 12 ≤ digits.length ∧ digits.length ≤ 16 ∧
        (st.mHitTarget < 2 ^ 48 → digits.length = 12)) ∧
      (i = 2 ∨ i = 3 → 2 ≤ digits.length ∧ digits.length ≤ 8) := by
  obtain ⟨h1, h2, h3, h4, h5, h6, h7, h8, h9, h10, h11, h14⟩ := hin
  have e8 : (2 : Nat) ^ 8 = 16 ^ 2 := by norm_num
  have e16 : (2 : Nat) ^ 16 = 16 ^ 4 := by norm_num
  have e32 : (2 : Nat) ^ 32 = 16 ^ 8 := by norm_num
  have e48 : (2 : Nat) ^ 48 = 16 ^ 12 := by norm_num
  have e64 : (2 : Nat) ^ 64 = 16 ^ 16 := by norm_num
  rw [e8] at h1 h5 h6 h7 h8 h10
  rw [e16] at h4 h9
  rw [e32] at h2 h3 h14
  rw [e64] at h11
  refine ⟨fun p ↦ ⟨pairLoop_inRange H _ _ _ st ⟨by omega, by omega, by omega, by omega, by omega,
      by omega, by omega, by omega, by omega, by omega, by omega, by omega⟩,
    BT_SetParam1_inRange H st p ⟨by omega, by omega, by omega, by omega, by omega,
      by omega, by omega, by omega, by omega, by omega, by omega, by omega⟩,
    BT_SetParam2_inRange H st p ⟨by omega, by omega, by omega, by omega, by omega,
      by omega, by omega, by omega, by omega, by omega, by omega, by omega⟩⟩, ?_, ?_⟩
  · rw [BT_GetParam_scalar H st q buf tq rest i hq hqe hqi hscalar]
  · refine ⟨fmt_0x (slotDigits i) (slotValue st i), ?_, ?_⟩
    · rw [BT_GetParam_scalar H st q buf tq rest i hq hqe hqi hscalar]
    · rcases isScalarIndex_cases hscalar with
        rfl | rfl | rfl | rfl | rfl | rfl | rfl | rfl | rfl | rfl | rfl | rfl
      · refine ⟨fun _ ↦ fmt_0x_length 2 _ (by decide) h1, ?_, ?_, ?_, ?_⟩ <;> intro h <;> omega
      · refine ⟨?_, ?_, ?_, ?_, fun _ ↦ ⟨fmt_0x_length_ge 2 _,
          fmt_0x_length_le 2 _ 8 (by decide) (by decide) h2⟩⟩ <;> intro h <;> omega
      · refine ⟨?_, ?_, ?_, ?_, fun _ ↦ ⟨fmt_0x_length_ge 2 _,
          fmt_0x_length_le 2 _ 8 (by decide) (by decide) h3⟩⟩ <;> intro h <;> omega
      · refine ⟨?_, fun _ ↦ fmt_0x_length 4 _ (by decide) h4, ?_, ?_, ?_⟩ <;> intro h <;> omega
      · refine ⟨fun _ ↦ fmt_0x_length 2 _ (by decide) h5, ?_, ?_, ?_, ?_⟩ <;> intro h <;> omega
      · refine ⟨fun _ ↦ fmt_0x_length 2 _ (by decide) h6, ?_, ?_, ?_, ?_⟩ <;> intro h <;> omega
      · refine ⟨fun _ ↦ fmt_0x_length 2 _ (by decide) h7, ?_, ?_, ?_, ?_⟩ <;> intro h <;> omega
      · refine ⟨fun _ ↦ fmt_0x_length 2 _ (by decide) h8, ?_, ?_, ?_, ?_⟩ <;> intro h <;> omega
      · refine ⟨?_, fun _ ↦ fmt_0x_length 4 _ (by decide) h9, ?_, ?_, ?_⟩ <;> intro h <;> omega
      · refine ⟨fun _ ↦ fmt_0x_length 2 _ (by decide) h10, ?_, ?_, ?_, ?_⟩ <;> intro h <;> omega
      · refine ⟨?_, ?_, ?_, fun _ ↦ ⟨fmt_0x_length_ge 12 _,
          fmt_0x_length_le 12 _ 16 (by decide) (by decide) h11,
          fun hlt ↦ fmt_0x_length 12 _ (by decide) (by rw [← e48]; exact hlt)⟩, ?_⟩ <;>
          intro h <;> omega
      · refine ⟨?_, ?_, fun _ ↦ fmt_0x_length 8 _ (by decide) h14, ?_, ?_⟩ <;> intro h <;> omega

/-- C26 (amended), instance: index 4 (a 16-bit slot) after `4,70000` on the
reference header renders 4 digits. -/
theorem C26_scalar_render_width_witness :
    (BT_GetParam refHeader (BT_SetParam refHeader zeroParam "4,70000".toList).param
      "4".toList []).rtn = refHeader.BT_FUNCTION_SUCCESS ∧
    ∃ digits : CStr,
      (BT_GetParam refHeader (BT_SetParam refHeader zeroParam "4,70000".toList).param
        "4".toList []).notify = printHead refHeader 4 ++ digits ∧
      digits.length = 4 :=
  match C26_scalar_render_width refHeader
      (BT_SetParam refHeader zeroParam "4,70000".toList).param
      "4".toList [] "4".toList [] 4 (by decide) (by decide) (by decide) (by decide)
      (by decide) with
  | ⟨_, hr, d, hd, _, h4, _, _, _⟩ => ⟨hr, d, hd, h4 (Or.inl rfl)⟩

/-! ## C27: a second token of `BT_GetParam` -/

/-- C27 (what the code does). `BT_GetParam` reads the first token only: when it
is a valid index, the slot is rendered and `BT_FUNCTION_SUCCESS` is returned,
whatever tokens `rest` follow it. -/
theorem C27_getparam_second_token_ignored (H : Header) (st : BT_PARAMETER) (p buf tq : CStr)
    (rest : List CStr)
    (hq : tokens H.STR_BT_MP_PARAM_DELIM p = tq :: rest)
    (hqe : (strtol H tq).2 = [])
    (hlo : 0 ≤ toInt32 (strtol H tq).1)
    (hhi : toInt32 (strtol H tq).1 < 15) :
    (BT_GetParam H st p buf).rtn = H.BT_FUNCTION_SUCCESS ∧
    (BT_GetParam H st p buf).notify =
      (bt_index2print H st (toInt32 (strtol H tq).1)).getD buf ∧
    (BT_GetParam H st p buf).param = st := by
  have hr : ¬ (toInt32 (strtol H tq).1 < 0 ∨ toInt32 (strtol H tq).1 ≥ BT_PARAM_IDX_NUM) := by
    unfold BT_PARAM_IDX_NUM; omega
  simp only [BT_GetParam, hq, hqe, hr, ne_eq, not_true_eq_false, false_or, if_false, and_self]

/-- C27, the failing input: `1,2` on a freshly initialised block of the reference
header is answered with success and the rendering of slot 1. -/
theorem C27_getparam_second_token_ignored_witness :
    ((BT_GetParam refHeader (bt_mp_module_init refHeader zeroParam) "1,2".toList []).rtn =
        refHeader.BT_FUNCTION_SUCCESS ∧
      (BT_GetParam refHeader (bt_mp_module_init refHeader zeroParam) "1,2".toList []).notify =
        (bt_index2print refHeader (bt_mp_module_init refHeader zeroParam)
          (toInt32 (strtol refHeader "1".toList).1)).getD [] ∧
      (BT_GetParam refHeader (bt_mp_module_init refHeader zeroParam) "1,2".toList []).param =
        bt_mp_module_init refHeader zeroParam) ∧
    (BT_GetParam refHeader (bt_mp_module_init refHeader zeroParam) "1,2".toList []).notify =
      "bt_mp_GetParam,1,0x0a".toList ∧
    (BT_GetParam refHeader (bt_mp_module_init refHeader zeroParam) "1,2".toList []).rtn ≠
      refHeader.FUNCTION_PARAMETER_ERROR :=
  ⟨C27_getparam_second_token_ignored refHeader (bt_mp_module_init refHeader zeroParam)
      "1,2".toList [] "1".toList ["2".toList] (by decide) (by decide) (by decide) (by decide),
    by decide, by decide⟩

/-! ## C28: `BT_GetParam` without an index -/

/-- C28 (fails as stated). On the reference header, after the set command
`11,0x1000000000000`, `BT_GetParam` without an index renders the hit target, the
last field, with 13 hex digits. -/
theorem C28_snapshot_hit_target_thirteen_digits :
    (BT_GetParam refHeader (BT_SetParam refHeader zeroParam "11,0x1000000000000".toList).param
      [] []).notify =
        "bt_mp_GetParam,0,0,0,0,0,0,0,0,0,0,".toList ++ "1000000000000".toList ∧
    "1000000000000".toList.length = 13 := by
  decide

/-- C28 (amended). When the command has no token, `BT_GetParam` returns
`BT_FUNCTION_SUCCESS`, leaves the parameter block as it was and renders the
command name followed by eleven fields, each behind one result delimiter, in the
order channel number, packet type, payload type, TX packet count, TX gain value,
whitening coefficient, TX gain index, TX DAC, packet header, hopping fixed
channel, hit target; the first ten are `%x` conversions without padding, the hit
target is padded with zeros to at least 12 hex digits and has exactly 12 when the
stored value is below `2 ^ 48`. -/
theorem C28_snapshot_all (H : Header) (st : BT_PARAMETER) (p buf : CStr)
    (hp : tokens H.STR_BT_MP_PARAM_DELIM p = []) :
    (BT_GetParam H st p buf).rtn = H.BT_FUNCTION_SUCCESS ∧
    (BT_GetParam H st p buf).param = st ∧
    (BT_GetParam H st p buf).notify =
      H.STR_BT_MP_GET_PARAM ++
        H.STR_BT_MP_RESULT_DELIM ++ fmt_x st.mChannelNumber ++
        H.STR_BT_MP_RESULT_DELIM ++ fmt_x st.mPacketType ++
        H.STR_BT_MP_RESULT_DELIM ++ fmt_x st.mPayloadType ++
        H.STR_BT_MP_RESULT_DELIM ++ fmt_x st.mTxPacketCount ++
        H.STR_BT_MP_RESULT_DELIM ++ fmt_x st.mTxGainValue ++
        H.STR_BT_MP_RESULT_DELIM ++ fmt_x st.mWhiteningCoeffValue ++
        H.STR_BT_MP_RESULT_DELIM ++ fmt_x st.mTxGainIndex ++
        H.STR_BT_MP_RESULT_DELIM ++ fmt_x st.mTxDAC ++
        H.STR_BT_MP_RESULT_DELIM ++ fmt_x st.mPacketHeader ++
        H.STR_BT_MP_RESULT_DELIM ++ fmt_x st.mHoppingFixChannel ++
        H.STR_BT_MP_RESULT_DELIM ++ fmt_0x 12 st.mHitTarget ∧
    12 ≤ (fmt_0x 12 st.mHitTarget).length ∧
    (st.mHitTarget < 2 ^ 48 → (fmt_0x 12 st.mHitTarget).length = 12) := by
  refine ⟨?_, ?_, ?_, fmt_0x_length_ge 12 _, ?_⟩
  · simp only [BT_GetParam, hp]
  · simp only [BT_GetParam, hp]
  · simp only [BT_GetParam, hp]
  · intro h
    exact fmt_0x_length 12 _ (by decide) (by
      have e48 : (2 : Nat) ^ 48 = 16 ^ 12 := by norm_num
      rw [← e48]
      exact h)

/-- C28 (amended), instance: the empty command on a freshly initialised block of
the reference header. -/
theorem C28_snapshot_all_witness :
    (BT_GetParam refHeader (bt_mp_module_init refHeader zeroParam) [] []).rtn =
      refHeader.BT_FUNCTION_SUCCESS ∧
    (BT_GetParam refHeader (bt_mp_module_init refHeader zeroParam) [] []).param =
      bt_mp_module_init refHeader zeroParam ∧
    (BT_GetParam refHeader (bt_mp_module_init refHeader zeroParam) [] []).notify =
      "bt_mp_GetParam,a,8,6,0,a9,0,ff,13,1234,0,0000009e8b33".toList :=
  ⟨(C28_snapshot_all refHeader (bt_mp_module_init refHeader zeroParam) [] [] (by decide)).1,
   (C28_snapshot_all refHeader (bt_mp_module_init refHeader zeroParam) [] [] (by decide)).2.1,
   by decide⟩


/-! ## C29: the defaults of `bt_mp_module_init` -/

/-- C29. Whatever block `BuildBluetoothModule` leaves, after `bt_mp_module_init`
the parameter block holds: first byte of the PG raw data 0, channel 10, TX packet
count 0, TX gain value 0xA9, whitening coefficient 0, TX gain index 0xFF, TX DAC
0x13, packet header 0x1234, hopping fixed channel 0, hit target 0x0000009e8b33;
`BT_GetParam` on index 1 then renders `0x0a` and on index 11 `0x0000009e8b33`
behind the head `<name><delim><index><delim>`. -/
theorem C29_init_defaults (H : Header) (built : BT_PARAMETER) (q1 q11 buf t1 t11 : CStr)
    (r1 r11 : List CStr)
    (hq1 : tokens H.STR_BT_MP_PARAM_DELIM q1 = t1 :: r1)
    (h1e : (strtol H t1).2 = [])
    (h1i : toInt32 (strtol H t1).1 = 1)
    (hq11 : tokens H.STR_BT_MP_PARAM_DELIM q11 = t11 :: r11)
    (h11e : (strtol H t11).2 = [])
    (h11i : toInt32 (strtol H t11).1 = 11) :
    (bt_mp_module_init H built).mPGRawData 0 = 0 ∧
    (bt_mp_module_init H built).mChannelNumber = 10 ∧
    (bt_mp_module_init H built).mTxPacketCount = 0 ∧
    (bt_mp_module_init H built).mTxGainValue = 0xA9 ∧
    (bt_mp_module_init H built).mWhiteningCoeffValue = 0 ∧
    (bt_mp_module_init H built).mTxGainIndex = 0xFF ∧
    (bt_mp_module_init H built).mTxDAC = 0x13 ∧
    (bt_mp_module_init H built).mPacketHeader = 0x1234 ∧
    (bt_mp_module_init H built).mHoppingFixChannel = 0 ∧
    (bt_mp_module_init H built).mHitTarget = 0x0000009e8b33 ∧
    (BT_GetParam H (bt_mp_module_init H built) q1 buf).rtn = H.BT_FUNCTION_SUCCESS ∧
    (BT_GetParam H (bt_mp_module_init H built) q1 buf).notify =
      H.STR_BT_MP_GET_PARAM ++ H.STR_BT_MP_RESULT_DELIM ++ fmt_d 1 ++
        H.STR_BT_MP_RESULT_DELIM ++ "0x0a".toList ∧
    (BT_GetParam H (bt_mp_module_init H built) q11 buf).rtn = H.BT_FUNCTION_SUCCESS ∧
    (BT_GetParam H (bt_mp_module_init H built) q11 buf).notify =
      H.STR_BT_MP_GET_PARAM ++ H.STR_BT_MP_RESULT_DELIM ++ fmt_d 11 ++
        H.STR_BT_MP_RESULT_DELIM ++ "0x0000009e8b33".toList := by
  have d1 : fmt_0x 2 10 = "0a".toList := by decide
  have d11 : fmt_0x 12 0x0000009e8b33 = "0000009e8b33".toList := by decide
  have g1 := BT_GetParam_scalar H (bt_mp_module_init H built) q1 buf t1 r1 1 hq1 h1e h1i
    (by decide)
  have g11 := BT_GetParam_scalar H (bt_mp_module_init H built) q11 buf t11 r11 11 hq11 h11e h11i
    (by decide)
  have v1 : slotValue (bt_mp_module_init H built) 1 = 10 := rfl
  have v11 : slotValue (bt_mp_module_init H built) 11 = 0x0000009e8b33 := rfl
  have w1 : slotDigits 1 = 2 := rfl
  have w11 : slotDigits 11 = 12 := rfl
  rw [v1, w1, d1] at g1
  rw [v11, w11, d11] at g11
  refine ⟨?_, rfl, rfl, rfl, rfl, rfl, rfl, rfl, rfl, rfl, ?_, ?_, ?_, ?_⟩
  · simp [bt_mp_module_init]
  · rw [g1]
  · rw [g1]
    simp [printHead]
  · rw [g11]
  · rw [g11]
    simp [printHead]

/-- C29, instance: the zero block initialised on the reference header, read with
the commands `1` and `11`. -/
theorem C29_init_defaults_witness :
    (bt_mp_module_init refHeader zeroParam).mChannelNumber = 10 ∧
    (bt_mp_module_init refHeader zeroParam).mHitTarget = 0x0000009e8b33 ∧
    (BT_GetParam refHeader (bt_mp_module_init refHeader zeroParam) "1".toList []).notify =
      refHeader.STR_BT_MP_GET_PARAM ++ refHeader.STR_BT_MP_RESULT_DELIM ++ fmt_d 1 ++
        refHeader.STR_BT_MP_RESULT_DELIM ++ "0x0a".toList ∧
    (BT_GetParam refHeader (bt_mp_module_init refHeader zeroParam) "11".toList []).notify =
      refHeader.STR_BT_MP_GET_PARAM ++ refHeader.STR_BT_MP_RESULT_DELIM ++ fmt_d 11 ++
        refHeader.STR_BT_MP_RESULT_DELIM ++ "0x0000009e8b33".toList :=
  match C29_init_defaults refHeader zeroParam "1".toList "11".toList [] "1".toList "11".toList
      [] [] (by decide) (by decide) (by decide) (by decide) (by decide) (by decide) with
  | ⟨_, hch, _, _, _, _, _, _, _, hhit, _, hn1, _, hn11⟩ => ⟨hch, hhit, hn1, hn11⟩

/-! ## C30: the RX report -/

/-- The `REPORT_RX` case of `BTModule_ActionReport`, with distinct case labels:
six fields are copied from the session report, `RxRssi` is not among them. -/
theorem report_REPORT_RX {δ : Type} (H : Header) (R : ReportTags) (D : BT_DEVICE δ)
    (m : BT_MODULE δ) (pReport : BT_DEVICE_REPORT) (h : R.labels.Nodup) :
    BTModule_ActionReport H R D m R.REPORT_RX pReport =
      (H.BT_FUNCTION_SUCCESS,
       { pReport with
         TotalRXBits := m.pModuleBtReport.TotalRXBits
         TotalRxCounts := m.pModuleBtReport.TotalRxCounts
         TotalRxErrorBits := m.pModuleBtReport.TotalRxErrorBits
         ber := m.pModuleBtReport.ber
         IsRxRssi := m.pModuleBtReport.IsRxRssi
         RXRecvPktCnts := m.pModuleBtReport.RXRecvPktCnts }, m) := by
  have h0 : R.REPORT_RX ≠ R.NO_THING :=
    (nodup_index_ne R.labels h 0 2 _ _ rfl rfl (by decide)).1
  have h1 : R.REPORT_RX ≠ R.REPORT_TX :=
    (nodup_index_ne R.labels h 1 2 _ _ rfl rfl (by decide)).1
  simp only [BTModule_ActionReport, h0, h1, if_false, if_true]

/-- C30 (what the code does). With distinct case labels and
`BTModule_ActionReport` as the collector, `BT_ReportRx` returns
`BT_FUNCTION_SUCCESS` and leaves the module as it was; the RX bits, RX count and
RX error bits it renders are those of the session report, but the RSSI field is
the `RxRssi` of its local report variable, which the collector (it fills
`IsRxRssi`) never writes: the rendered RSSI is what that variable held before
the call, whatever the session report holds. -/
theorem C30_report_rx_rssi_not_collected {δ : Type} (H : Header) (R : ReportTags)
    (D : BT_DEVICE δ) (m : BT_MODULE δ) (BtDeviceReport : BT_DEVICE_REPORT)
    (h : R.labels.Nodup) :
    (BT_ReportRx H R (BTModule_ActionReport H R D) m BtDeviceReport).rtn =
      H.BT_FUNCTION_SUCCESS ∧
    (BT_ReportRx H R (BTModule_ActionReport H R D) m BtDeviceReport).module = m ∧
    (BT_ReportRx H R (BTModule_ActionReport H R D) m BtDeviceReport).notify =
      H.STR_BT_MP_REPORT_RX ++
        H.STR_BT_MP_RESULT_DELIM ++ fmt_x_int BtDeviceReport.RxRssi ++
        H.STR_BT_MP_RESULT_DELIM ++ fmt_x (m.pModuleBtReport.TotalRXBits % 2 ^ 32) ++
        H.STR_BT_MP_RESULT_DELIM ++ fmt_x (m.pModuleBtReport.TotalRxCounts % 2 ^ 32) ++
        H.STR_BT_MP_RESULT_DELIM ++ fmt_x (m.pModuleBtReport.TotalRxErrorBits % 2 ^ 32) := by
  simp only [BT_ReportRx, report_REPORT_RX H R D m BtDeviceReport h, ne_eq, not_true_eq_false,
    if_false, and_self]

/-- C30, the failing input: right after `REPORT_CLEAR` on the reference tags the
session report holds the RSSI -90, whose encoding is `ffffffa6`, and `BT_ReportRx`
with a local report variable that held zeros renders `bt_mp_ReportRx,0,0,0,0`. -/
theorem C30_report_rx_rssi_not_collected_witness :
    ((BT_ReportRx refHeader refReports (BTModule_ActionReport refHeader refReports (logDevice 0))
        (BTModule_ActionControlExcute refHeader refActions (logDevice 0)
          (usedModule refActions.REPORT_CLEAR 5)).2 zeroReport).rtn =
        refHeader.BT_FUNCTION_SUCCESS) ∧
    (BTModule_ActionControlExcute refHeader refActions (logDevice 0)
      (usedModule refActions.REPORT_CLEAR 5)).2.pModuleBtReport.IsRxRssi = -90 ∧
    fmt_x_int (-90) = "ffffffa6".toList ∧
    (BT_ReportRx refHeader refReports (BTModule_ActionReport refHeader refReports (logDevice 0))
        (BTModule_ActionControlExcute refHeader refActions (logDevice 0)
          (usedModule refActions.REPORT_CLEAR 5)).2 zeroReport).notify =
      "bt_mp_ReportRx,0,0,0,0".toList :=
  ⟨(C30_report_rx_rssi_not_collected refHeader refReports (logDevice 0)
      (BTModule_ActionControlExcute refHeader refActions (logDevice 0)
        (usedModule refActions.REPORT_CLEAR 5)).2 zeroReport (by decide)).1,
   by decide, by decide, by decide⟩


/-! ## C31: the views of `BTModule_ActionReport` -/

/-- C31. `BTModule_ActionReport` leaves the session report of the module as it
was, whatever the item. With distinct case labels: the TX view copies TX bits and
TX count into the caller's report and leaves its other fields as they were; the
RX view copies RX bits, RX count, RX error bits, bit error rate, RSSI and the
count of received packets; the ALL view gives the caller's report that the TX
view followed by the RX view gives; the CHIP view, when the identity query of
the device fails, returns `FUNCTION_ERROR` and leaves the caller's report as it
was. -/
theorem C31_action_report_views {δ : Type} (H : Header) (R : ReportTags) (D : BT_DEVICE δ)
    (m : BT_MODULE δ) (pReport : BT_DEVICE_REPORT) (h : R.labels.Nodup) :
    (∀ item : Int,
      (BTModule_ActionReport H R D m item pReport).2.2.pModuleBtReport = m.pModuleBtReport) ∧
    BTModule_ActionReport H R D m R.REPORT_TX pReport =
      (H.BT_FUNCTION_SUCCESS,
       { pReport with
         TotalTXBits := m.pModuleBtReport.TotalTXBits
         TotalTxCounts := m.pModuleBtReport.TotalTxCounts }, m) ∧
    BTModule_ActionReport H R D m R.REPORT_RX pReport =
      (H.BT_FUNCTION_SUCCESS,
       { pReport with
         TotalRXBits := m.pModuleBtReport.TotalRXBits
         TotalRxCounts := m.pModuleBtReport.TotalRxCounts
         TotalRxErrorBits := m.pModuleBtReport.TotalRxErrorBits
         ber := m.pModuleBtReport.ber
         IsRxRssi := m.pModuleBtReport.IsRxRssi
         RXRecvPktCnts := m.pModuleBtReport.RXRecvPktCnts }, m) ∧
    BTModule_ActionReport H R D m R.REPORT_ALL pReport =
      BTModule_ActionReport H R D m R.REPORT_RX
        (BTModule_ActionReport H R D m R.REPORT_TX pReport).2.1 ∧
    ((D.GetChipVersionInfo m.pBtDevice).1 ≠ H.BT_FUNCTION_SUCCESS →
      (BTModule_ActionReport H R D m R.REPORT_CHIP pReport).1 = H.FUNCTION_ERROR ∧
      (BTModule_ActionReport H R D m R.REPORT_CHIP pReport).2.1 = pReport) := by
  have t0 : R.REPORT_TX ≠ R.NO_THING :=
    (nodup_index_ne R.labels h 0 1 _ _ rfl rfl (by decide)).1
  have c0 : R.REPORT_CHIP ≠ R.NO_THING :=
    (nodup_index_ne R.labels h 0 3 _ _ rfl rfl (by decide)).1
  have c1 : R.REPORT_CHIP ≠ R.REPORT_TX :=
    (nodup_index_ne R.labels h 1 3 _ _ rfl rfl (by decide)).1
  have c2 : R.REPORT_CHIP ≠ R.REPORT_RX :=
    (nodup_index_ne R.labels h 2 3 _ _ rfl rfl (by decide)).1
  have htx : BTModule_ActionReport H R D m R.REPORT_TX pReport =
      (H.BT_FUNCTION_SUCCESS,
       { pReport with
         TotalTXBits := m.pModuleBtReport.TotalTXBits
         TotalTxCounts := m.pModuleBtReport.TotalTxCounts }, m) := by
    simp only [BTModule_ActionReport, t0, if_false, if_true]
  refine ⟨?_, htx, report_REPORT_RX H R D m pReport h, ?_, ?_⟩
  · intro item
    unfold BTModule_ActionReport
    split_ifs <;> rfl
  · rw [htx, report_REPORT_ALL H R D m pReport h, report_REPORT_RX H R D m _ h]
  · intro hfail
    simp only [BTModule_ActionReport, c0, c1, c2, hfail, ne_eq, not_false_eq_true, if_false,
      if_true, and_self]

/-- C31, instance on the reference tags: the views of a filled session report,
and the CHIP view with a device whose identity query fails with code 3. -/
theorem C31_action_report_views_witness :
    (BTModule_ActionReport refHeader refReports (logDevice 3) (usedModule 0 5)
      refReports.REPORT_ALL zeroReport).2.2.pModuleBtReport =
        (usedModule 0 5).pModuleBtReport ∧
    BTModule_ActionReport refHeader refReports (logDevice 3) (usedModule 0 5)
        refReports.REPORT_ALL zeroReport =
      BTModule_ActionReport refHeader refReports (logDevice 3) (usedModule 0 5)
        refReports.REPORT_RX
        (BTModule_ActionReport refHeader refReports (logDevice 3) (usedModule 0 5)
          refReports.REPORT_TX zeroReport).2.1 ∧
    (BTModule_ActionReport refHeader refReports (logDevice 3) (usedModule 0 5)
      refReports.REPORT_CHIP zeroReport).1 = refHeader.FUNCTION_ERROR ∧
    (BTModule_ActionReport refHeader refReports (logDevice 3) (usedModule 0 5)
      refReports.REPORT_CHIP zeroReport).2.1 = zeroReport :=
  match C31_action_report_views refHeader refReports (logDevice 3) (usedModule 0 5) zeroReport
      (by decide) with
  | ⟨hm, _, _, hall, hchip⟩ =>
    ⟨hm refReports.REPORT_ALL, hall, (hchip (by decide)).1, (hchip (by decide)).2⟩

/-! ## C32: malformed tokens in `BT_SetParam` -/

/-- C32 (the code at the failing inputs). On a freshly initialised block of the
reference header (channel 10): the command `1,xyz` succeeds and stores channel 0,
the value that `strtoll` gives for `xyz`; the command `abc,1,2` succeeds, its
index token read as 0, and writes the first two bytes of the PG raw data. -/
theorem C32_setparam_malformed_tokens_accepted :
    (bt_mp_module_init refHeader zeroParam).mChannelNumber = 10 ∧
    (BT_SetParam refHeader (bt_mp_module_init refHeader zeroParam) "1,xyz".toList).rtn =
      refHeader.BT_FUNCTION_SUCCESS ∧
    (BT_SetParam refHeader (bt_mp_module_init refHeader zeroParam)
      "1,xyz".toList).param.mChannelNumber = 0 ∧
    (BT_SetParam refHeader (bt_mp_module_init refHeader zeroParam) "abc,1,2".toList).rtn =
      refHeader.BT_FUNCTION_SUCCESS ∧
    (BT_SetParam refHeader (bt_mp_module_init refHeader zeroParam)
      "abc,1,2".toList).param.mPGRawData 0 = 1 ∧
    (BT_SetParam refHeader (bt_mp_module_init refHeader zeroParam)
      "abc,1,2".toList).param.mPGRawData 1 = 2 := by
  decide


/-! ## C33: masked read-modify-write of the register accessor -/

theorem testBit_maskBits (msb lsb i : Nat) :
    (maskBits msb lsb).testBit i = (decide (lsb ≤ i) && decide (i - lsb < msb - lsb + 1)) := by
  simp only [maskBits, Nat.testBit_shiftLeft, Nat.testBit_two_pow_sub_one, ge_iff_le]

theorem testBit_writeMaskBits (raw msb lsb v i : Nat) (hml : lsb ≤ msb)
    (hfit : v < 2 ^ (msb - lsb + 1)) :
    (writeMaskBits raw msb lsb v).testBit i =
      if lsb ≤ i ∧ i ≤ msb then v.testBit (i - lsb) else raw.testBit i := by
  simp only [writeMaskBits, Nat.testBit_or, Nat.testBit_xor, Nat.testBit_and,
    testBit_maskBits, Nat.testBit_shiftLeft, ge_iff_le]
  by_cases h1 : lsb ≤ i
  · by_cases h2 : i ≤ msb
    · have h3 : i - lsb < msb - lsb + 1 := by omega
      simp [h1, h2, h3]
    · have h3 : ¬ (i - lsb < msb - lsb + 1) := by omega
      have h4 : v.testBit (i - lsb) = false :=
        Nat.testBit_lt_two_pow (lt_of_lt_of_le hfit (Nat.pow_le_pow_right (by decide) (by omega)))
      simp [h1, h2, h3, h4]
  · simp [h1]

theorem testBit_readMaskBits (raw msb lsb i : Nat) :
    (readMaskBits raw msb lsb).testBit i =
      (decide (i ≤ msb - lsb) && raw.testBit (lsb + i)) := by
  simp only [readMaskBits, Nat.testBit_shiftRight, Nat.testBit_and, testBit_maskBits]
  have h1 : lsb ≤ lsb + i := by omega
  have h2 : lsb + i - lsb = i := by omega
  by_cases h3 : i ≤ msb - lsb
  · have h4 : i < msb - lsb + 1 := by omega
    simp [h1, h2, h3, h4]
  · have h4 : ¬ (i < msb - lsb + 1) := by omega
    simp [h1, h2, h3, h4]

/-- C33. For the register accessor as the spec describes it, a bit range with
`lsb ≤ msb` and a value that fits in its `msb - lsb + 1` bits: after a write,
each bit of the raw register inside `[lsb..msb]` is the corresponding bit of the
value and each bit outside is as before; a read gives the bits `[lsb..msb]`
right-justified; a read of the range just written gives the value back. Through
the callbacks of `BT_RegRW`, the write changes the addressed register only. -/
theorem C33_masked_read_modify_write (raw msb lsb v : Nat) (hml : lsb ≤ msb)
    (hfit : v < 2 ^ (msb - lsb + 1)) :
    (∀ i : Nat, (writeMaskBits raw msb lsb v).testBit i =
      if lsb ≤ i ∧ i ≤ msb then v.testBit (i - lsb) else raw.testBit i) ∧
    (∀ m l i : Nat, (readMaskBits raw m l).testBit i =
      (decide (i ≤ m - l) && raw.testBit (l + i))) ∧
    readMaskBits (writeMaskBits raw msb lsb v) msb lsb = v ∧
    (∀ (H : Header) (regs : Nat → Nat → Nat → Nat) (t p a : Nat),
      regs t p a = raw →
      (((specAccessor H).SetRegMaskBits regs t p a msb lsb v).2 t p a =
          writeMaskBits raw msb lsb v ∧
        (∀ t1 p1 a1 : Nat, ¬ (t1 = t ∧ p1 = p ∧ a1 = a) →
          ((specAccessor H).SetRegMaskBits regs t p a msb lsb v).2 t1 p1 a1 = regs t1 p1 a1) ∧
        ((specAccessor H).GetRegMaskBits regs t p a msb lsb 0).2.1 =
          readMaskBits raw msb lsb)) := by
  refine ⟨fun i ↦ testBit_writeMaskBits raw msb lsb v i hml hfit,
    fun m l i ↦ testBit_readMaskBits raw m l i, ?_, ?_⟩
  · apply Nat.eq_of_testBit_eq
    intro i
    rw [testBit_readMaskBits, testBit_writeMaskBits raw msb lsb v (lsb + i) hml hfit]
    have h2 : lsb + i - lsb = i := by omega
    by_cases h3 : i ≤ msb - lsb
    · have h4 : lsb ≤ lsb + i ∧ lsb + i ≤ msb := by omega
      simp [h2, h3, h4]
    · have h5 : v.testBit i = false :=
        Nat.testBit_lt_two_pow (lt_of_lt_of_le hfit (Nat.pow_le_pow_right (by decide) (by omega)))
      simp [h3, h5]
  · intro H regs t p a hr
    refine ⟨?_, ?_, ?_⟩
    · simp [specAccessor, hr]
    · intro t1 p1 a1 hne
      simp only [specAccessor, hne, if_false]
    · simp [specAccessor, hr]

/-- C33, the example of the spec: writing `0b101` to bits `[2:0]` of a register
that holds `0b11110000` gives `0b11110101`, and reading bits `[7:4]` afterwards
gives `0b1111`; the same through `BT_RegRW` on the reference header, with the
commands `1,1,16,2,0,5` and `1,0,16,7,4` on register 16 of space 1. -/
theorem C33_masked_read_modify_write_witness :
    (∀ i : Nat, (writeMaskBits 0b11110000 2 0 0b101).testBit i =
      if 0 ≤ i ∧ i ≤ 2 then (0b101).testBit (i - 0) else (0b11110000).testBit i) ∧
    readMaskBits (writeMaskBits 0b11110000 2 0 0b101) 2 0 = 0b101 ∧
    writeMaskBits 0b11110000 2 0 0b101 = 0b11110101 ∧
    readMaskBits 0b11110101 7 4 = 0b1111 ∧
    (BT_RegRW refHeader (specAccessor refHeader)
      (BT_RegRW refHeader (specAccessor refHeader) (fun _ _ _ ↦ 0b11110000)
        "1,1,16,2,0,5".toList).dev "1,0,16,7,4".toList).notify =
      "bt_mp_RegRW,0,0000000f".toList :=
  ⟨(C33_masked_read_modify_write 0b11110000 2 0 0b101 (by decide) (by decide)).1,
   (C33_masked_read_modify_write 0b11110000 2 0 0b101 (by decide) (by decide)).2.2.1,
   by decide, by decide, by decide⟩


/-! ## C34: round trip of the raw data array (index 0) -/

theorem printBytes_succ_left (H : Header) (a : Nat → Nat) :
    ∀ (n off : Nat), printBytes H a off (n + 1) =
      (H.STR_BT_MP_RESULT_DELIM ++ hexLead ++ fmt_0x 2 (a off)) ++ printBytes H a (off + 1) n := by
  intro n
  induction n with
  | zero =>
    intro off
    simp [printBytes, hexLead]
  | succ n ih =>
    intro off
    have e : off + 1 + n = off + (n + 1) := by omega
    rw [printBytes, ih off, printBytes, e]
    simp only [hexLead, List.append_assoc]

/-- The bytes that `bt_index2print` appends for an array whose elements from
`off` on are the values `f d` of the tokens `d` of a list. -/
theorem printBytes_map (H : Header) (a : Nat → Nat) (f : CStr → Nat) :
    ∀ (ds : List CStr) (off : Nat),
      (∀ k, k < ds.length → a (off + k) = f (ds.getD k [])) →
      printBytes H a off ds.length =
        (ds.map (fun d ↦ H.STR_BT_MP_RESULT_DELIM ++ hexLead ++ fmt_0x 2 (f d))).flatten := by
  intro ds
  induction ds with
  | nil =>
    intro off _
    rfl
  | cons d ds ih =>
    intro off h
    have h0 := h 0 (by simp)
    simp only [Nat.add_zero, List.getD_cons_zero] at h0
    have ht : ∀ k, k < ds.length → a (off + 1 + k) = f (ds.getD k []) := by
      intro k hk
      have := h (k + 1) (by simp; omega)
      rw [List.getD_cons_succ] at this
      rw [← this]
      congr 1
      omega
    rw [List.length_cons, printBytes_succ_left, ih (off + 1) ht, h0]
    simp only [List.map_cons, List.flatten_cons]

theorem fmt_0x_2_byte (z : Int) : (fmt_0x 2 (toUnsigned 8 z)).length = 2 :=
  fmt_0x_length 2 _ (by decide) (by
    have h := toUnsigned_lt 8 z
    have e : (2 : Nat) ^ 8 = 16 ^ 2 := by norm_num
    omega)

/-- C34. For a single group `0,c,n,d1,...,dn` whose third token `n` decodes, as a
byte, to the number of data tokens behind it (within the capacity of the raw data
array): `BT_SetParam` succeeds, and `BT_GetParam` on index 0 then succeeds and
renders the head with the index, `c`, the length `n` and the data bytes `d1..dn`
in order, each as `0x` and two hex digits behind one result delimiter. -/
theorem C34_raw_data_roundtrip (H : Header) (st : BT_PARAMETER) (p q buf g ti tc tn tq : CStr)
    (ds rest : List CStr)
    (hp : tokens H.STR_BT_MP_PAIR_DELIM p = [g])
    (hg : tokens H.STR_BT_MP_PARAM_DELIM g = ti :: tc :: tn :: ds)
    (hi : toInt32 (strtol H ti).1 = 0)
    (hn : toUnsigned 8 (strtoll tn 0) = ds.length)
    (_hcap : ds.length + 2 ≤ H.MAX_PG_RAW_DATA)
    (hq : tokens H.STR_BT_MP_PARAM_DELIM q = tq :: rest)
    (hqe : (strtol H tq).2 = [])
    (hqi : toInt32 (strtol H tq).1 = 0) :
    (BT_SetParam H st p).rtn = H.BT_FUNCTION_SUCCESS ∧
    (BT_GetParam H (BT_SetParam H st p).param q buf).rtn = H.BT_FUNCTION_SUCCESS ∧
    (BT_GetParam H (BT_SetParam H st p).param q buf).notify =
      H.STR_BT_MP_GET_PARAM ++ H.STR_BT_MP_RESULT_DELIM ++ fmt_d 0 ++
        (H.STR_BT_MP_RESULT_DELIM ++ hexLead ++ fmt_0x 2 (toUnsigned 8 (strtoll tc 0))) ++
        (H.STR_BT_MP_RESULT_DELIM ++ hexLead ++ fmt_0x 2 ds.length) ++
        (ds.map (fun d ↦ H.STR_BT_MP_RESULT_DELIM ++ hexLead ++
          fmt_0x 2 (toUnsigned 8 (strtoll d 0)))).flatten ∧
    (fmt_0x 2 (toUnsigned 8 (strtoll tc 0))).length = 2 ∧
    (fmt_0x 2 ds.length).length = 2 ∧
    (∀ d : CStr, (fmt_0x 2 (toUnsigned 8 (strtoll d 0))).length = 2) := by
  have hlt : ds.length < 2 ^ 8 := by
    rw [← hn]
    exact toUnsigned_lt 8 _
  obtain ⟨tbl, hloop, htbl⟩ := pairLoop_raw H g ti tc (tn :: ds) [] (-1) 0 st hg hi
    (by simp) (by simp only [List.length_cons]; omega)
  have hset : BT_SetParam H st p =
      pairLoop H [] 0 (strtoll tc 0) { st with mPGRawData := tbl } := by
    rw [BT_SetParam, hp, hloop]
  have h0 : tbl 0 = toUnsigned 8 (strtoll tc 0) := by
    rw [htbl 0]
    simp
  have h1 : tbl 1 = ds.length := by
    rw [htbl 1]
    simp [hn]
  have h2 : ∀ k, k < ds.length → tbl (2 + k) = toUnsigned 8 (strtoll (ds.getD k []) 0) := by
    intro k hk
    rw [htbl (2 + k)]
    have e : 2 + k = (k + 1) + 1 := by omega
    have hl : 2 + k < (tc :: tn :: ds).length := by simp only [List.length_cons]; omega
    rw [if_pos hl, e, List.getD_cons_succ, List.getD_cons_succ]
  have hr : ¬ (toInt32 (strtol H tq).1 < 0 ∨ toInt32 (strtol H tq).1 ≥ BT_PARAM_IDX_NUM) := by
    unfold BT_PARAM_IDX_NUM; omega
  have hmod : ds.length % 256 = ds.length := Nat.mod_eq_of_lt (by
    have e : (2 : Nat) ^ 8 = 256 := by norm_num
    omega)
  have hbytes := printBytes_map H tbl (fun d ↦ toUnsigned 8 (strtoll d 0)) ds 2 h2
  have hget : BT_GetParam H (BT_SetParam H st p).param q buf =
      { rtn := H.BT_FUNCTION_SUCCESS
        notify := printHead H 0 ++ fmt_0x 2 (tbl 0) ++
          (H.STR_BT_MP_RESULT_DELIM ++ [Char.ofNat 48, Char.ofNat 120] ++ fmt_0x 2 (tbl 1)) ++
          printBytes H tbl 2 (tbl 1 % 256)
        param := (BT_SetParam H st p).param } := by
    simp only [BT_GetParam, hq, hqe, hr, ne_eq, not_true_eq_false, false_or, if_false]
    rw [hqi, hset]
    rfl
  refine ⟨by rw [hset]; rfl, by rw [hget], ?_, fmt_0x_2_byte _, ?_, fun d ↦ fmt_0x_2_byte _⟩
  · rw [hget, h0, h1, hmod, hbytes]
    simp only [printHead, hexLead, List.append_assoc]
  · rw [← hn]
    exact fmt_0x_2_byte _

/-- C34, instance on the reference header: `0,7,3,1,2,0xff` and then get `0`. -/
theorem C34_raw_data_roundtrip_witness :
    (BT_SetParam refHeader zeroParam "0,7,3,1,2,0xff".toList).rtn =
      refHeader.BT_FUNCTION_SUCCESS ∧
    (BT_GetParam refHeader (BT_SetParam refHeader zeroParam "0,7,3,1,2,0xff".toList).param
      "0".toList []).notify =
      refHeader.STR_BT_MP_GET_PARAM ++ refHeader.STR_BT_MP_RESULT_DELIM ++ fmt_d 0 ++
        (refHeader.STR_BT_MP_RESULT_DELIM ++ hexLead ++
          fmt_0x 2 (toUnsigned 8 (strtoll "7".toList 0))) ++
        (refHeader.STR_BT_MP_RESULT_DELIM ++ hexLead ++
          fmt_0x 2 ["1".toList, "2".toList, "0xff".toList].length) ++
        (["1".toList, "2".toList, "0xff".toList].map
          (fun d ↦ refHeader.STR_BT_MP_RESULT_DELIM ++ hexLead ++
            fmt_0x 2 (toUnsigned 8 (strtoll d 0)))).flatten ∧
    (BT_GetParam refHeader (BT_SetParam refHeader zeroParam "0,7,3,1,2,0xff".toList).param
      "0".toList []).notify = "bt_mp_GetParam,0,0x07,0x03,0x01,0x02,0xff".toList :=
  match C34_raw_data_roundtrip refHeader zeroParam "0,7,3,1,2,0xff".toList "0".toList []
      "0,7,3,1,2,0xff".toList "0".toList "7".toList "3".toList "0".toList
      ["1".toList, "2".toList, "0xff".toList] [] (by decide) (by decide) (by decide)
      (by decide) (by decide) (by decide) (by decide) (by decide) with
  | ⟨hs, _, hn, _, _, _⟩ => ⟨hs, hn, by decide⟩


/-! ## Groups of `BT_SetParam`: tokens of a joined command, no state across groups -/

theorem tokensAux_append_delim (delim : CStr) (d : Char) (b : CStr)
    (hd : delim.contains d = true) :
    ∀ (a cur : CStr),
      tokensAux delim (a ++ d :: b) cur = tokensAux delim a cur ++ tokensAux delim b [] := by
  intro a
  induction a with
  | nil =>
    intro cur
    simp only [List.nil_append, tokensAux, hd, if_true]
    by_cases hc : cur.isEmpty = true
    · simp [hc]
    · simp [hc]
  | cons x a ih =>
    intro cur
    simp only [List.cons_append, tokensAux]
    by_cases hx : delim.contains x = true
    · simp only [hx, if_true]
      by_cases hc : cur.isEmpty = true
      · simp only [hc, if_true]
        exact ih []
      · simp only [hc, Bool.false_eq_true, if_false, List.cons_append]
        exact congrArg (List.cons cur.reverse) (ih [])
    · simp only [hx, Bool.false_eq_true, if_false]
      exact ih (x :: cur)

/-- The tokens of two commands joined by a delimiter character are the tokens of
the first followed by the tokens of the second. -/
theorem tokens_append_delim (delim : CStr) (d : Char) (a b : CStr) (hd : d ∈ delim) :
    tokens delim (a ++ d :: b) = tokens delim a ++ tokens delim b := by
  have hc : delim.contains d = true := by simpa using hd
  exact tokensAux_append_delim delim d b hc a []

theorem paramStep_count (H : Header) (t : CStr) (s a : PairScan)
    (h : paramStep H s t = .ok a) : a.params_count = s.params_count := by
  simp only [paramStep] at h
  split_ifs at h <;> cases h <;> rfl

theorem paramStep_agree (H : Header) (t : CStr) (n : Nat) (s s' : PairScan)
    (hc : s.params_count = s'.params_count) (hv : s.var_pair = s'.var_pair)
    (hp : s.param = s'.param) (hn : s.params_count = n % 2 ^ 16)
    (hi : 1 ≤ n → s.index = s'.index) (hval : 2 ≤ n → s.value = s'.value) :
    (∃ a, paramStep H s t = .error a ∧ paramStep H s' t = .error a) ∨
    (∃ a b, paramStep H s t = .ok a ∧ paramStep H s' t = .ok b ∧
      a.params_count = b.params_count ∧ a.var_pair = b.var_pair ∧ a.param = b.param ∧
      a.params_count = n % 2 ^ 16 ∧ a.index = b.index ∧ (1 ≤ n → a.value = b.value)) := by
  obtain ⟨c, i, vp, v, pm⟩ := s
  obtain ⟨c', i', vp', v', pm'⟩ := s'
  simp only at hc hv hp hn hi hval
  subst hc hv hp
  have e16 : (2 : Nat) ^ 16 = 65536 := by norm_num
  rw [e16] at hn
  by_cases h0 : c = 0
  · subst h0
    have hv1 : 1 ≤ n → v = v' := fun h ↦ hval (by omega)
    by_cases hbad : toInt32 (strtol H t).1 < 0 ∨ toInt32 (strtol H t).1 ≥ BT_PARAM_IDX_NUM
    · left
      exact ⟨pm, by simp [paramStep, hbad], by simp [paramStep, hbad]⟩
    · right
      by_cases hvar : toInt32 (strtol H t).1 = 0 ∨ toInt32 (strtol H t).1 = 12 ∨
          toInt32 (strtol H t).1 = 13
      · exact ⟨{ params_count := 0, index := toInt32 (strtol H t).1, var_pair := true,
                 value := v, param := pm },
          { params_count := 0, index := toInt32 (strtol H t).1, var_pair := true,
            value := v', param := pm },
          by simp only [paramStep, hbad, hvar, if_true, if_false],
          by simp only [paramStep, hbad, hvar, if_true, if_false],
          rfl, rfl, rfl, by rw [e16]; exact hn, rfl, hv1⟩
      · exact ⟨{ params_count := 0, index := toInt32 (strtol H t).1, var_pair := vp,
                 value := v, param := pm },
          { params_count := 0, index := toInt32 (strtol H t).1, var_pair := vp,
            value := v', param := pm },
          by simp only [paramStep, hbad, hvar, if_true, if_false],
          by simp only [paramStep, hbad, hvar, if_true, if_false],
          rfl, rfl, rfl, by rw [e16]; exact hn, rfl, hv1⟩
  · have hi1 : i = i' := hi (by omega)
    subst hi1
    right
    by_cases h1 : c = 1
    · subst h1
      exact ⟨{ params_count := 1, index := i, var_pair := vp, value := strtoll t 0, param := pm },
        { params_count := 1, index := i, var_pair := vp, value := strtoll t 0, param := pm },
        by simp only [paramStep, h0, if_true, if_false],
        by simp only [paramStep, h0, if_true, if_false],
        rfl, rfl, rfl, by rw [e16]; exact hn, rfl, fun _ ↦ rfl⟩
    · have hv2 : v = v' := hval (by omega)
      subst hv2
      cases hres : paramStep H
          { params_count := c, index := i, var_pair := vp, value := v, param := pm } t with
      | error a =>
        exfalso
        simp only [paramStep, h0, h1, if_false] at hres
        split_ifs at hres
      | ok a =>
        have hcnt := paramStep_count H t _ a hres
        exact ⟨a, a, rfl, rfl, rfl, rfl, rfl, by rw [hcnt, e16]; exact hn, rfl, fun _ ↦ rfl⟩

theorem paramLoop_agree (H : Header) :
    ∀ (ts : List CStr) (n : Nat) (s s' : PairScan),
      s.params_count = s'.params_count → s.var_pair = s'.var_pair → s.param = s'.param →
      s.params_count = n % 2 ^ 16 → (1 ≤ n → s.index = s'.index) →
      (2 ≤ n → s.value = s'.value) →
      scanAgree (n + ts.length) (paramLoop H ts s) (paramLoop H ts s') := by
  intro ts
  induction ts with
  | nil =>
    intro n s s' hc hv hp hn hi hval
    exact ⟨hc, hv, hp, hn, hi, hval⟩
  | cons t ts ih =>
    intro n s s' hc hv hp hn hi hval
    rcases paramStep_agree H t n s s' hc hv hp hn hi hval with
      ⟨a, h1, h2⟩ | ⟨a, b, h1, h2, ac, av, ap, an, ai, aval⟩
    · simp only [paramLoop, h1, h2]
      rfl
    · simp only [paramLoop, h1, h2]
      have e : n + (t :: ts).length = (n + 1) + ts.length := by
        simp only [List.length_cons]; omega
      rw [e]
      refine ih (n + 1) _ _ ?_ av ap ?_ (fun _ ↦ ai) (fun h ↦ aval (by omega))
      · show (a.params_count + 1) % 2 ^ 16 = (b.params_count + 1) % 2 ^ 16
        rw [ac]
      · show (a.params_count + 1) % 2 ^ 16 = (n + 1) % 2 ^ 16
        rw [an]
        omega

/-- The outer loop of `BT_SetParam` does not depend on the `index` and `value`
it is entered with: a group reads them before it uses them. -/
theorem pairLoop_forget (H : Header) :
    ∀ (gs : List CStr) (i v i' v' : Int) (st : BT_PARAMETER),
      pairLoop H gs i v st = pairLoop H gs i' v' st := by
  intro gs
  induction gs with
  | nil =>
    intro i v i' v' st
    rfl
  | cons g rest ih =>
    intro i v i' v' st
    have ha := paramLoop_agree H (tokens H.STR_BT_MP_PARAM_DELIM g) 0
      { params_count := 0, index := i, var_pair := false, value := v, param := st }
      { params_count := 0, index := i', var_pair := false, value := v', param := st }
      rfl rfl rfl rfl (fun h ↦ absurd h (by decide)) (fun h ↦ absurd h (by decide))
    have e16 : (2 : Nat) ^ 16 = 65536 := by norm_num
    simp only [pairLoop]
    cases h1 : paramLoop H (tokens H.STR_BT_MP_PARAM_DELIM g)
        { params_count := 0, index := i, var_pair := false, value := v, param := st } with
    | error a =>
      cases h2 : paramLoop H (tokens H.STR_BT_MP_PARAM_DELIM g)
          { params_count := 0, index := i', var_pair := false, value := v', param := st } with
      | error b =>
        rw [h1, h2] at ha
        have hab : a = b := ha
        rw [hab]
      | ok b =>
        rw [h1, h2] at ha
        exact False.elim ha
    | ok a =>
      cases h2 : paramLoop H (tokens H.STR_BT_MP_PARAM_DELIM g)
          { params_count := 0, index := i', var_pair := false, value := v', param := st } with
      | error b =>
        rw [h1, h2] at ha
        exact False.elim ha
      | ok b =>
        rw [h1, h2] at ha
        obtain ⟨hc, hv, hp, hn, hi, hval⟩ := ha
        rw [Nat.zero_add, e16] at hn
        dsimp only
        rw [← hc, ← hv, ← hp]
        by_cases c1 : a.params_count > 2 ∧ a.var_pair = true
        · rw [if_pos c1, if_pos c1, ← hi (by omega), ← hval (by omega)]
        · rw [if_neg c1, if_neg c1]
          by_cases c2 : a.params_count = 2 ∧ a.var_pair = false
          · rw [if_pos c2, if_pos c2, ← hi (by omega), ← hval (by omega)]
          · rw [if_neg c2, if_neg c2]
            by_cases c3 : a.params_count = 0
            · rw [if_pos c3, if_pos c3]
              exact ih _ _ _ _ _
            · rw [if_neg c3, if_neg c3]

/-- Two commands whose groups behind a common first group are handled alike are
handled alike. -/
theorem pairLoop_congr (H : Header) (g : CStr) (r1 r2 : List CStr)
    (h : ∀ (i v : Int) (st : BT_PARAMETER), pairLoop H r1 i v st = pairLoop H r2 i v st)
    (i v : Int) (st : BT_PARAMETER) :
    pairLoop H (g :: r1) i v st = pairLoop H (g :: r2) i v st := by
  simp only [pairLoop]
  cases paramLoop H (tokens H.STR_BT_MP_PARAM_DELIM g)
      { params_count := 0, index := i, var_pair := false, value := v, param := st } with
  | error a => rfl
  | ok a =>
    dsimp only
    simp only [h]

/-- A group without tokens is skipped. -/
theorem pairLoop_skip (H : Header) (e : CStr) (gs2 : List CStr)
    (he : tokens H.STR_BT_MP_PARAM_DELIM e = []) :
    ∀ (gs1 : List CStr) (i v : Int) (st : BT_PARAMETER),
      pairLoop H (gs1 ++ e :: gs2) i v st = pairLoop H (gs1 ++ gs2) i v st := by
  intro gs1
  induction gs1 with
  | nil =>
    intro i v st
    simp only [List.nil_append, pairLoop, he, paramLoop]
    simp
  | cons g rest ih =>
    intro i v st
    exact pairLoop_congr H g _ _ ih i v st

/-- A command all of whose groups are without tokens succeeds and changes
nothing. -/
theorem pairLoop_all_empty (H : Header) :
    ∀ (gs : List CStr) (i v : Int) (st : BT_PARAMETER),
      (∀ g ∈ gs, tokens H.STR_BT_MP_PARAM_DELIM g = []) →
      pairLoop H gs i v st =
        { rtn := H.BT_FUNCTION_SUCCESS
          notify := codeResponse H H.STR_BT_MP_SET_PARAM H.BT_FUNCTION_SUCCESS
          param := st } := by
  intro gs
  induction gs with
  | nil =>
    intro i v st _
    rfl
  | cons g rest ih =>
    intro i v st h
    have hg := h g (List.mem_cons_self g rest)
    have hr := ih i v st (fun x hx ↦ h x (List.mem_cons_of_mem g hx))
    simp only [pairLoop, hg, paramLoop]
    simpa using hr

/-- The outer loop of `BT_SetParam` over two lists of groups is the loop over the
first and, when it succeeded, the loop over the second on the block it left. -/
theorem pairLoop_append (H : Header) (gs2 : List CStr)
    (hcodes : H.BT_FUNCTION_SUCCESS ≠ H.FUNCTION_PARAMETER_ERROR) :
    ∀ (gs1 : List CStr) (i v : Int) (st : BT_PARAMETER),
      pairLoop H (gs1 ++ gs2) i v st =
        if (pairLoop H gs1 i v st).rtn = H.BT_FUNCTION_SUCCESS then
          pairLoop H gs2 (-1) 0 (pairLoop H gs1 i v st).param
        else pairLoop H gs1 i v st := by
  have hc2 : ¬ (H.FUNCTION_PARAMETER_ERROR = H.BT_FUNCTION_SUCCESS) := fun e ↦ hcodes e.symm
  intro gs1
  induction gs1 with
  | nil =>
    intro i v st
    simp only [List.nil_append, pairLoop, if_true]
    exact pairLoop_forget H gs2 _ _ _ _ _
  | cons g rest ih =>
    intro i v st
    simp only [List.cons_append, pairLoop]
    cases paramLoop H (tokens H.STR_BT_MP_PARAM_DELIM g)
        { params_count := 0, index := i, var_pair := false, value := v, param := st } with
    | error a =>
      dsimp only
      rw [if_neg hc2]
    | ok a =>
      dsimp only
      by_cases c1 : a.params_count > 2 ∧ a.var_pair = true
      · simp only [if_pos c1]
        exact ih _ _ _
      · simp only [if_neg c1]
        by_cases c2 : a.params_count = 2 ∧ a.var_pair = false
        · simp only [if_pos c2]
          exact ih _ _ _
        · simp only [if_neg c2]
          by_cases c3 : a.params_count = 0
          · simp only [if_pos c3]
            exact ih _ _ _
          · simp only [if_neg c3, if_neg hc2]

/-! ## C35: groups without tokens -/

/-- C35. For all commands `c1` and `c2` and a group `e` that yields no field
token: `BT_SetParam` on `c1`, pair delimiter, `e`, pair delimiter, `c2` gives the
same returned code, response and parameter block as on `c1`, pair delimiter,
`c2`; and a command all of whose groups yield no field token returns
`BT_FUNCTION_SUCCESS` with the success response and leaves the block as it was. -/
theorem C35_empty_group_skipped (H : Header) (st : BT_PARAMETER) (c1 c2 e : CStr)
    (d1 d2 : Char)
    (hd1 : d1 ∈ H.STR_BT_MP_PAIR_DELIM) (hd2 : d2 ∈ H.STR_BT_MP_PAIR_DELIM)
    (he : tokens H.STR_BT_MP_PAIR_DELIM e = [e])
    (hee : tokens H.STR_BT_MP_PARAM_DELIM e = []) :
    BT_SetParam H st (c1 ++ d1 :: (e ++ d2 :: c2)) = BT_SetParam H st (c1 ++ d1 :: c2) ∧
    (∀ p : CStr, (∀ g ∈ tokens H.STR_BT_MP_PAIR_DELIM p, tokens H.STR_BT_MP_PARAM_DELIM g = []) →
      BT_SetParam H st p =
        { rtn := H.BT_FUNCTION_SUCCESS
          notify := codeResponse H H.STR_BT_MP_SET_PARAM H.BT_FUNCTION_SUCCESS
          param := st }) := by
  constructor
  · simp only [BT_SetParam, tokens_append_delim _ _ _ _ hd1, tokens_append_delim _ _ _ _ hd2, he,
      List.singleton_append]
    exact pairLoop_skip H e _ hee _ _ _ _
  · intro p hp
    exact pairLoop_all_empty H _ _ _ _ hp

/-- C35, instance on the reference header: `1,10|,|2,1` against `1,10|2,1`, and
the command `,|,,` of empty groups only. -/
theorem C35_empty_group_skipped_witness :
    BT_SetParam refHeader zeroParam ("1,10".toList ++ '|' :: (",".toList ++ '|' :: "2,1".toList)) =
      BT_SetParam refHeader zeroParam ("1,10".toList ++ '|' :: "2,1".toList) ∧
    BT_SetParam refHeader zeroParam ",|,,".toList =
      { rtn := refHeader.BT_FUNCTION_SUCCESS
        notify := codeResponse refHeader refHeader.STR_BT_MP_SET_PARAM
          refHeader.BT_FUNCTION_SUCCESS
        param := zeroParam } :=
  ⟨(C35_empty_group_skipped refHeader zeroParam "1,10".toList "2,1".toList ",".toList '|' '|'
      (by decide) (by decide) (by decide) (by decide)).1,
   (C35_empty_group_skipped refHeader zeroParam "1,10".toList "2,1".toList ",".toList '|' '|'
      (by decide) (by decide) (by decide) (by decide)).2 ",|,,".toList (by decide)⟩

/-! ## C36: `BT_SetParam` as sequential composition -/

/-- C36. With distinct success and parameter-error codes, for all commands `c1`
and `c2` and a pair delimiter character `d`: `BT_SetParam` on `c1`, `d`, `c2`
gives the returned code, response and parameter block of `BT_SetParam` on `c1`
when that fails, and otherwise those of `BT_SetParam` on `c2` run on the block
that `c1` left. -/
theorem C36_setparam_sequential (H : Header) (st : BT_PARAMETER) (c1 c2 : CStr) (d : Char)
    (hd : d ∈ H.STR_BT_MP_PAIR_DELIM)
    (hcodes : H.BT_FUNCTION_SUCCESS ≠ H.FUNCTION_PARAMETER_ERROR) :
    BT_SetParam H st (c1 ++ d :: c2) =
      if (BT_SetParam H st c1).rtn = H.BT_FUNCTION_SUCCESS then
        BT_SetParam H (BT_SetParam H st c1).param c2
      else BT_SetParam H st c1 := by
  simp only [BT_SetParam, tokens_append_delim _ _ _ _ hd]
  exact pairLoop_append H _ hcodes _ _ _ _

/-- C36, instance on the reference header: `1,10|2,1`, and `1|2,1` whose first
group fails. -/
theorem C36_setparam_sequential_witness :
    (BT_SetParam refHeader zeroParam ("1,10".toList ++ '|' :: "2,1".toList) =
      if (BT_SetParam refHeader zeroParam "1,10".toList).rtn = refHeader.BT_FUNCTION_SUCCESS then
        BT_SetParam refHeader (BT_SetParam refHeader zeroParam "1,10".toList).param "2,1".toList
      else BT_SetParam refHeader zeroParam "1,10".toList) ∧
    (BT_SetParam refHeader zeroParam ("1".toList ++ '|' :: "2,1".toList) =
      if (BT_SetParam refHeader zeroParam "1".toList).rtn = refHeader.BT_FUNCTION_SUCCESS then
        BT_SetParam refHeader (BT_SetParam refHeader zeroParam "1".toList).param "2,1".toList
      else BT_SetParam refHeader zeroParam "1".toList) :=
  ⟨C36_setparam_sequential refHeader zeroParam "1,10".toList "2,1".toList '|' (by decide)
      (by decide),
   C36_setparam_sequential refHeader zeroParam "1".toList "2,1".toList '|' (by decide)
      (by decide)⟩

/-! ## C37: arity of a group with a variable index -/

/-- C37. With distinct success and parameter-error codes, for a command of one
group whose index token decodes to 0, 12 or 13 and that has fewer than `2 ^ 16`
tokens: `BT_SetParam` returns `BT_FUNCTION_SUCCESS` exactly when the group has at
least two value tokens; with the index alone or with one value token it returns
`FUNCTION_PARAMETER_ERROR`, writes the parameter-error response and leaves the
parameter block as it was. -/
theorem C37_variable_group_arity (H : Header) (st : BT_PARAMETER) (p g ti : CStr)
    (vals : List CStr)
    (hp : tokens H.STR_BT_MP_PAIR_DELIM p = [g])
    (hg : tokens H.STR_BT_MP_PARAM_DELIM g = ti :: vals)
    (hi : toInt32 (strtol H ti).1 = 0 ∨ toInt32 (strtol H ti).1 = 12 ∨
      toInt32 (strtol H ti).1 = 13)
    (hlen : vals.length + 1 < 2 ^ 16)
    (hcodes : H.BT_FUNCTION_SUCCESS ≠ H.FUNCTION_PARAMETER_ERROR) :
    ((BT_SetParam H st p).rtn = H.BT_FUNCTION_SUCCESS ↔ 2 ≤ vals.length) ∧
    (vals.length < 2 →
      BT_SetParam H st p =
        { rtn := H.FUNCTION_PARAMETER_ERROR
          notify := codeResponse H H.STR_BT_MP_SET_PARAM H.FUNCTION_PARAMETER_ERROR
          param := st }) := by
  have hc2 : ¬ (H.FUNCTION_PARAMETER_ERROR = H.BT_FUNCTION_SUCCESS) := fun e ↦ hcodes e.symm
  have hshort : vals.length < 2 →
      BT_SetParam H st p =
        { rtn := H.FUNCTION_PARAMETER_ERROR
          notify := codeResponse H H.STR_BT_MP_SET_PARAM H.FUNCTION_PARAMETER_ERROR
          param := st } := by
    intro h
    rw [BT_SetParam, hp, pairLoop_var_short H g ti vals [] _ _ st hg hi h]
  refine ⟨?_, hshort⟩
  constructor
  · intro hs
    by_contra hlt
    rw [hshort (by omega)] at hs
    exact hc2 hs
  · intro h2
    obtain ⟨tv, vs, rfl, hne⟩ : ∃ tv vs, vals = tv :: vs ∧ vs ≠ [] := by
      rcases vals with _ | ⟨tv, _ | ⟨tw, vs⟩⟩
      · simp at h2
      · simp at h2
      · exact ⟨tv, tw :: vs, rfl, by simp⟩
    have hl : vs.length + 2 < 2 ^ 16 := by
      simp only [List.length_cons] at hlen
      omega
    rcases hi with h0 | h12 | h13
    · obtain ⟨tbl, hloop, _⟩ := pairLoop_raw H g ti tv vs [] (-1) 0 st hg h0 hne hl
      rw [BT_SetParam, hp, hloop]
      rfl
    · obtain ⟨tbl, hloop, _⟩ := pairLoop_gain H g ti tv vs [] (-1) 0 st hg h12 hne hl
      rw [BT_SetParam, hp, hloop]
      rfl
    · obtain ⟨tbl, hloop, _⟩ := pairLoop_dac H g ti tv vs [] (-1) 0 st hg h13 hne hl
      rw [BT_SetParam, hp, hloop]
      rfl

/-- C37, instance on the reference header: `12,5` and `0,0` are rejected and
leave the block as it was, `12,5,6` succeeds. -/
theorem C37_variable_group_arity_witness :
    (BT_SetParam refHeader zeroParam "12,5".toList =
      { rtn := refHeader.FUNCTION_PARAMETER_ERROR
        notify := codeResponse refHeader refHeader.STR_BT_MP_SET_PARAM
          refHeader.FUNCTION_PARAMETER_ERROR
        param := zeroParam }) ∧
    (BT_SetParam refHeader zeroParam "0,0".toList =
      { rtn := refHeader.FUNCTION_PARAMETER_ERROR
        notify := codeResponse refHeader refHeader.STR_BT_MP_SET_PARAM
          refHeader.FUNCTION_PARAMETER_ERROR
        param := zeroParam }) ∧
    (BT_SetParam refHeader zeroParam "12,5,6".toList).rtn = refHeader.BT_FUNCTION_SUCCESS :=
  ⟨(C37_variable_group_arity refHeader zeroParam "12,5".toList "12,5".toList "12".toList
      ["5".toList] (by decide) (by decide) (by decide) (by decide) (by decide)).2 (by decide),
   (C37_variable_group_arity refHeader zeroParam "0,0".toList "0,0".toList "0".toList
      ["0".toList] (by decide) (by decide) (by decide) (by decide) (by decide)).2 (by decide),
   (C37_variable_group_arity refHeader zeroParam "12,5,6".toList "12,5,6".toList "12".toList
      ["5".toList, "6".toList] (by decide) (by decide) (by decide) (by decide)
      (by decide)).1.mpr (by decide)⟩


/-! ## C38: an rw flag other than 0 and 1 -/

/-- C38. For a register command whose rw token decodes, as a byte, to neither 0
nor 1: the required number of fields is that of a read (type, rw, page for a BB
register, address, msb, lsb). With exactly these fields `BT_RegRW` calls
`SetRegMaskBits` with data 0 and answers with the code of that call; the
recording accessor shows this single call. With a data token in addition the
count does not match: the parameter-error response is written and no call is
made. With the register accessor as the spec describes it and `lsb ≤ msb`, the
call with data 0 clears the bits `[lsb..msb]` of the addressed register and
leaves its other bits as they were. -/
theorem C38_rw_other_selects_write {δ : Type} (H : Header) (M : RegAccess δ) (dev : δ)
    (p tt trw ta tm tl : CStr) (page : Option CStr)
    (hts : tokens H.STR_BT_MP_PARAM_DELIM p = tt :: trw :: (page.toList ++ [ta, tm, tl]))
    (hpage : page.isSome = true ↔ tok8 H tt = H.BB_REG)
    (hrw0 : tok8 H trw ≠ 0) (hrw1 : tok8 H trw ≠ 1) :
    BT_RegRW H M dev p =
      { rtn := (M.SetRegMaskBits dev (tok8 H tt) ((page.map (tok8 H)).getD 0) (tok8 H ta)
          (tok8 H tm) (tok8 H tl) 0).1
        notify := codeResponse H H.STR_BT_MP_REG_RW
          (M.SetRegMaskBits dev (tok8 H tt) ((page.map (tok8 H)).getD 0) (tok8 H ta)
            (tok8 H tm) (tok8 H tl) 0).1
        dev := (M.SetRegMaskBits dev (tok8 H tt) ((page.map (tok8 H)).getD 0) (tok8 H ta)
          (tok8 H tm) (tok8 H tl) 0).2 } ∧
    (∀ (getCode : Int) (getData : Nat) (setCode : Int),
      (BT_RegRW H (recorder getCode getData setCode) [] p).dev =
        [RegCall.set (tok8 H tt) ((page.map (tok8 H)).getD 0) (tok8 H ta) (tok8 H tm)
          (tok8 H tl) 0]) ∧
    (∀ q td : CStr,
      tokens H.STR_BT_MP_PARAM_DELIM q = tt :: trw :: (page.toList ++ [ta, tm, tl, td]) →
      BT_RegRW H M dev q =
        { rtn := H.BT_FUNCTION_SUCCESS
          notify := codeResponse H H.STR_BT_MP_REG_RW H.FUNCTION_PARAMETER_ERROR
          dev := dev }) ∧
    (∀ regs : Nat → Nat → Nat → Nat, tok8 H tl ≤ tok8 H tm →
      ∀ i : Nat,
        ((BT_RegRW H (specAccessor H) regs p).dev (tok8 H tt) ((page.map (tok8 H)).getD 0)
          (tok8 H ta)).testBit i =
        if tok8 H tl ≤ i ∧ i ≤ tok8 H tm then false
        else (regs (tok8 H tt) ((page.map (tok8 H)).getD 0) (tok8 H ta)).testBit i) := by
  have hdata : (none : Option CStr).isSome = true ↔ tok8 H trw = 1 := by
    simp [hrw1]
  have hts2 : tokens H.STR_BT_MP_PARAM_DELIM p =
      tt :: trw :: (page.toList ++ [ta, tm, tl] ++ (none : Option CStr).toList) := by
    simpa using hts
  have hparse := regParse_fields H tt trw ta tm tl page none hpage hdata
  have hlen : (tokens H.STR_BT_MP_PARAM_DELIM p).length =
      regFieldCount H (tokens H.STR_BT_MP_PARAM_DELIM p) := by
    apply (regParse_count_iff H _).mp
    rw [← REGRW_PARAM_COUNT_eq, hts2, hparse]
    simp only [REGRW_PARAM_COUNT]
    cases page <;> simp_all
  have hrun : ∀ {ε : Type} (N : RegAccess ε) (e : ε), BT_RegRW H N e p =
      { rtn := (N.SetRegMaskBits e (tok8 H tt) ((page.map (tok8 H)).getD 0) (tok8 H ta)
          (tok8 H tm) (tok8 H tl) 0).1
        notify := codeResponse H H.STR_BT_MP_REG_RW
          (N.SetRegMaskBits e (tok8 H tt) ((page.map (tok8 H)).getD 0) (tok8 H ta)
            (tok8 H tm) (tok8 H tl) 0).1
        dev := (N.SetRegMaskBits e (tok8 H tt) ((page.map (tok8 H)).getD 0) (tok8 H ta)
          (tok8 H tm) (tok8 H tl) 0).2 } := by
    intro ε N e
    have h := BT_RegRW_right_count H N e p hlen
    rw [hts2, hparse] at h
    rw [h]
    simp [hrw0]
  refine ⟨hrun M dev, ?_, ?_, ?_⟩
  · intro getCode getData setCode
    rw [hrun]
    simp [recorder]
  · intro q td hq
    apply BT_RegRW_wrong_count
    rw [hq]
    simp only [regFieldCount, regType, regFlag, hrw1, if_false, List.length_cons,
      List.length_append, List.length_nil]
    cases page with
    | none =>
      have hne : ¬ (tok8 H tt = H.BB_REG) := fun h ↦ by simpa using hpage.mpr h
      simp [hne]
    | some pg =>
      have he : tok8 H tt = H.BB_REG := hpage.mp rfl
      simp [he]
  · intro regs hml i
    rw [hrun]
    simp only [specAccessor, and_self, if_true]
    rw [testBit_writeMaskBits _ _ _ 0 i hml (by positivity)]
    simp

/-- C38, instance on the reference header: `1,2,16,3,0` (rw flag 2) is forwarded
as a write of 0, and on a register that holds `0xff` it leaves `0xf0`;
`1,2,16,3,0,9` is answered with the parameter-error response. -/
theorem C38_rw_other_selects_write_witness :
    (BT_RegRW refHeader (recorder 0 0 0) [] "1,2,16,3,0".toList).dev =
      [RegCall.set (tok8 refHeader "1".toList) ((Option.map (tok8 refHeader) none).getD 0)
        (tok8 refHeader "16".toList) (tok8 refHeader "3".toList) (tok8 refHeader "0".toList) 0] ∧
    BT_RegRW refHeader (recorder 0 0 0) [] "1,2,16,3,0,9".toList =
      { rtn := refHeader.BT_FUNCTION_SUCCESS
        notify := codeResponse refHeader refHeader.STR_BT_MP_REG_RW
          refHeader.FUNCTION_PARAMETER_ERROR
        dev := [] } ∧
    (BT_RegRW refHeader (recorder 0 0 0) [] "1,2,16,3,0".toList).dev =
      [RegCall.set 1 0 16 3 0 0] ∧
    (BT_RegRW refHeader (specAccessor refHeader) (fun _ _ _ ↦ 0xff)
      "1,2,16,3,0".toList).dev 1 0 16 = 0xf0 :=
  match C38_rw_other_selects_write refHeader (recorder 0 0 0) [] "1,2,16,3,0".toList
      "1".toList "2".toList "16".toList "3".toList "0".toList none (by decide) (by decide)
      (by decide) (by decide) with
  | ⟨_, hrec, hbad, _⟩ =>
    ⟨hrec 0 0 0, hbad "1,2,16,3,0,9".toList "9".toList (by decide), by decide, by decide⟩


/-! ## C39: the 8-bit token counter of `BT_SendHciCmd` -/

theorem hciData_count_lt (H : Header) :
    ∀ (n : Nat) (ts : List CStr) (arr : List Nat) (pc : Nat) (a : List Nat) (c : Nat),
      pc < 2 ^ 8 → hciData H n ts arr pc = some (a, c) → c < 2 ^ 8 := by
  intro n
  induction n with
  | zero =>
    intro ts arr pc a c hpc h
    simp only [hciData, Option.some.injEq, Prod.mk.injEq] at h
    omega
  | succ n ih =>
    intro ts arr pc a c _ h
    cases ts with
    | nil => simp [hciData] at h
    | cons t ts =>
      simp only [hciData] at h
      exact ih ts _ _ a c (Nat.mod_lt _ (by decide)) h

/-- C39. For a raw-HCI command with at least the opcode and the length token:
when the declared length (the second token as a byte) is 254 or 255, the command
is rejected whatever data tokens follow, also with exactly that many:
`FUNCTION_PARAMETER_ERROR` is returned, the parameter-error response is written
and the device is not called. When the declared length `n` is at most 253 and
exactly `n` data tokens follow, the command is sent: the recording device gets
the opcode, `n` and the `n` decoded bytes in order, and the code of the device
is returned. -/
theorem C39_hci_length_counter {δ : Type} (H : Header) (M : HciAccess δ) (dev : δ)
    (p t0 t1 : CStr) (data : List CStr)
    (hts : tokens H.STR_BT_MP_PARAM_DELIM p = t0 :: t1 :: data) :
    (tok8 H t1 = 254 ∨ tok8 H t1 = 255 →
      BT_SendHciCmd H M dev p = some (hciExit H H.FUNCTION_PARAMETER_ERROR dev)) ∧
    (∀ (code : Int) (ev : List Nat), ev.length < 2 ^ 8 →
      tok8 H t1 ≤ 253 → data.length = tok8 H t1 →
      ∃ r, BT_SendHciCmd H (hciRecorder code ev) [] p = some r ∧
        r.rtn = code ∧ r.dev = [(tok16 H t0, tok8 H t1, data.map (tok8 H))]) := by
  constructor
  · intro hlen
    have e8 : (2 : Nat) ^ 8 = 256 := by norm_num
    simp only [BT_SendHciCmd, hts]
    cases hd : hciData H (toUnsigned 8 (strtol H t1).1) data [] 2 with
    | none => rfl
    | some r =>
      obtain ⟨a, c⟩ := r
      have hc := hciData_count_lt H _ data [] 2 a c (by decide) hd
      have hne : c ≠ toUnsigned 8 (strtol H t1).1 + 2 := by
        simp only [tok8] at hlen
        omega
      simp only [hne, ne_eq, not_false_eq_true, if_true]
  · intro code ev hev h253 hlen
    have hts2 : tokens H.STR_BT_MP_PARAM_DELIM p = t0 :: t1 :: (data ++ []) := by
      simpa using hts
    rw [BT_SendHciCmd_forward H _ [] p t0 t1 data [] hts2 hlen h253]
    simp only [hciRecorder, hciExit, hev, if_true, List.nil_append]
    by_cases hc : code = H.BT_FUNCTION_SUCCESS
    · rw [if_pos hc]
      exact ⟨_, rfl, rfl, rfl⟩
    · rw [if_neg hc]
      exact ⟨_, rfl, rfl, rfl⟩

/-- C39, instances on the reference header: the command `1,254` followed by 254
data tokens is rejected without a call of the device; `0xfc01,2,5,6` is sent. -/
theorem C39_hci_length_counter_witness :
    BT_SendHciCmd refHeader (hciRecorder 0 [14, 4]) [] hciFull =
      some (hciExit refHeader refHeader.FUNCTION_PARAMETER_ERROR []) ∧
    (List.replicate 254 "7".toList).length = 254 ∧
    ∃ r, BT_SendHciCmd refHeader (hciRecorder 0 [14, 4]) [] "0xfc01,2,5,6".toList = some r ∧
      r.rtn = 0 ∧
      r.dev = [(tok16 refHeader "0xfc01".toList, tok8 refHeader "2".toList,
        ["5".toList, "6".toList].map (tok8 refHeader))] :=
  ⟨(C39_hci_length_counter refHeader (hciRecorder 0 [14, 4]) [] hciFull "1".toList
      "254".toList (List.replicate 254 "7".toList) (by decide)).1 (by decide),
   by decide,
   (C39_hci_length_counter refHeader (hciRecorder 0 [14, 4]) [] "0xfc01,2,5,6".toList
      "0xfc01".toList "2".toList ["5".toList, "6".toList] (by decide)).2 0 [14, 4] (by decide)
      (by decide) (by decide)⟩

/-! ## C40: partial writes of `BT_SetParam1` -/

/-- C40. With `k` tokens, `k` other than 6, `BT_SetParam1` returns
`FUNCTION_PARAMETER_ERROR` and writes the parameter-error response; of the six
fields channel number, packet type, payload type, TX packet count, TX gain value
and whitening coefficient, field `j` holds the decoded token `j` when `j < k`
and its previous value otherwise; every other field of the parameter block is
as before. -/
theorem C40_setparam1_partial_writes (H : Header) (st : BT_PARAMETER) (p : CStr)
    (hk : (tokens H.STR_BT_MP_PARAM_DELIM p).length ≠ 6) :
    (BT_SetParam1 H st p).rtn = H.FUNCTION_PARAMETER_ERROR ∧
    (BT_SetParam1 H st p).notify =
      codeResponse H H.STR_BT_MP_SET_PARAM1 H.FUNCTION_PARAMETER_ERROR ∧
    (∀ j : Nat, j < 6 →
      param1Field (BT_SetParam1 H st p).param j =
        if j < (tokens H.STR_BT_MP_PARAM_DELIM p).length then
          param1Decode H j ((tokens H.STR_BT_MP_PARAM_DELIM p).getD j [])
        else param1Field st j) ∧
    { (BT_SetParam1 H st p).param with
      mChannelNumber := st.mChannelNumber
      mPacketType := st.mPacketType
      mPayloadType := st.mPayloadType
      mTxPacketCount := st.mTxPacketCount
      mTxGainValue := st.mTxGainValue
      mWhiteningCoeffValue := st.mWhiteningCoeffValue } = st := by
  unfold BT_SetParam1
  generalize tokens H.STR_BT_MP_PARAM_DELIM p = ts at hk
  rcases ts with _ | ⟨t1, _ | ⟨t2, _ | ⟨t3, _ | ⟨t4, _ | ⟨t5, _ | ⟨t6, _ | ⟨t7, r⟩⟩⟩⟩⟩⟩⟩
  all_goals first
    | exact absurd rfl hk
    | (refine ⟨by simp [setExit], by simp [setExit], ?_, by simp [setExit]⟩
       intro j hj
       interval_cases j <;>
         simp [setExit, param1Field, param1Decode, tok8, tok16, tok32])

/-- C40, instance on the reference header: `1,2,3` on a freshly initialised
block is rejected, channel, packet type and payload type hold 1, 2, 3, and the TX
gain value still holds its default. -/
theorem C40_setparam1_partial_writes_witness :
    (BT_SetParam1 refHeader (bt_mp_module_init refHeader zeroParam) "1,2,3".toList).rtn =
      refHeader.FUNCTION_PARAMETER_ERROR ∧
    (BT_SetParam1 refHeader (bt_mp_module_init refHeader zeroParam)
      "1,2,3".toList).param.mChannelNumber = 1 ∧
    (BT_SetParam1 refHeader (bt_mp_module_init refHeader zeroParam)
      "1,2,3".toList).param.mPayloadType = 3 ∧
    (BT_SetParam1 refHeader (bt_mp_module_init refHeader zeroParam)
      "1,2,3".toList).param.mTxGainValue = 0xA9 ∧
    param1Field (BT_SetParam1 refHeader (bt_mp_module_init refHeader zeroParam)
        "1,2,3".toList).param 2 =
      if 2 < (tokens refHeader.STR_BT_MP_PARAM_DELIM "1,2,3".toList).length then
        param1Decode refHeader 2
          ((tokens refHeader.STR_BT_MP_PARAM_DELIM "1,2,3".toList).getD 2 [])
      else param1Field (bt_mp_module_init refHeader zeroParam) 2 :=
  ⟨(C40_setparam1_partial_writes refHeader (bt_mp_module_init refHeader zeroParam)
      "1,2,3".toList (by decide)).1,
   by decide, by decide, by decide,
   (C40_setparam1_partial_writes refHeader (bt_mp_module_init refHeader zeroParam)
      "1,2,3".toList (by decide)).2.2.1 2 (by decide)⟩

end BtMp
